import Mathlib

/-!
# opencli user workflows: provisioning, rename, plan change

A shallow embedding of `user/add.go` and of the parts of `user/rename.go` and
`user/change_plan.go` that share its rules: username validation, plan
resolution and the capacity check, quota encoding, hard cleanup, port
allocation, and the sequence of steps of `main`.

Conventions of the embedding

* A Go `string` is a `List Char` (the runes of a valid UTF-8 string); `len(s)`
  is the UTF-8 byte length `goLen`.
* A Go `int` is a 64-bit two's complement integer (the binaries are built for
  x86_64 and aarch64): arithmetic results go through `wrapInt`.
* `os.Exit`, a run-time panic and normal return are the three ways a function
  of the program ends; they are the constructors of `Outcome`.
* Results of external commands, files and the database are inputs: either
  arguments of the embedded function or answers of a `World`.
* A part of the process that acts on its environment is a `Proc`: it extends
  the trace of `Event`s and ends with an `Outcome`.
-/

namespace OpenCli

/-- A Go string, as its sequence of runes. -/
abbrev Str := List Char

/-- Go `len(s)`: the number of bytes of the UTF-8 encoding. -/
def goLen (s : Str) : Nat := (s.map Char.utf8Size).sum

/-- How a function of the program ends: it returns a value, calls `os.Exit`
with a status, or panics (index out of range). -/
inductive Outcome (α : Type) where
  | ok (a : α)
  | exit (code : Nat)
  | panic
  deriving DecidableEq, Repr

/-! ## String helpers of the Go standard library -/

/-- Go `strings.ContainsAny(s, chars)`. -/
def containsAny (s chars : Str) : Bool := s.any (fun c => chars.contains c)

/-- Character class `[a-zA-Z]`. -/
def isAsciiLetter (c : Char) : Bool :=
  (decide (97 ≤ c.toNat) && decide (c.toNat ≤ 122)) || (decide (65 ≤ c.toNat) && decide (c.toNat ≤ 90))

/-- Character class `[0-9]` (also Go's `\d`, which is ASCII only). -/
def isAsciiDigit (c : Char) : Bool := decide (48 ≤ c.toNat) && decide (c.toNat ≤ 57)

/-- Character class `[a-zA-Z0-9]`. -/
def isAsciiAlnum (c : Char) : Bool := isAsciiLetter c || isAsciiDigit c

/-- The regular expression `^[a-zA-Z0-9]+$` of `MatchString`: the whole text is
one or more characters of the class (Go's `$` without the `m` flag is the end
of the text). -/
def matchAlnumPlus (s : Str) : Bool := !s.isEmpty && s.all isAsciiAlnum

/-- The regular expression `^[0-9]+$` of `MatchString`. -/
def matchDigitsPlus (s : Str) : Bool := !s.isEmpty && s.all isAsciiDigit

/-- Go `unicode.IsSpace`. -/
def isSpace (c : Char) : Bool :=
  [9, 10, 11, 12, 13, 32, 0x85, 0xA0, 0x1680, 0x2028, 0x2029, 0x202F, 0x205F, 0x3000].contains c.toNat
    || (decide (0x2000 ≤ c.toNat) && decide (c.toNat ≤ 0x200A))

/-- Go `strings.TrimSpace`. -/
def trimSpace (s : Str) : Str :=
  ((s.dropWhile isSpace).reverse.dropWhile isSpace).reverse

/-! ## Username validation (`user/add.go`, `user/rename.go`)

`strings.EqualFold` is the standard library's comparison under Unicode simple
case folding; it is the parameter `equalFold`. The forbidden-usernames file is
`none` when `os.Open` fails, and otherwise the list of lines the scanner
yields. -/

/-- The forbidden-list loop shared by both programs: some scanned line, after
`strings.TrimSpace`, is `EqualFold` to the username. -/
def inForbiddenList (equalFold : Str → Str → Bool) (u : Str) (lines : List Str) : Bool :=
  lines.any (fun line => equalFold u (trimSpace line))

/-- `(c *Config) checkUsernameIsValid` of `user/add.go`: each failed rule
prints its message and calls `os.Exit(1)`. -/
def checkUsernameIsValid (equalFold : Str → Str → Bool) (forbiddenFile : Option (List Str))
    (u : Str) : Outcome Unit :=
  if containsAny u [' ', '\t'] then .exit 1
  else if containsAny u ['-', '_'] then .exit 1
  else if !matchAlnumPlus u then .exit 1
  else if matchDigitsPlus u then .exit 1
  else if goLen u < 3 then .exit 1
  else if goLen u > 20 then .exit 1
  else
    match forbiddenFile with
    | none => .ok ()
    | some lines => if inForbiddenList equalFold u lines then .exit 1 else .ok ()

/-- `isUsernameInvalid` of `user/rename.go`. -/
def isUsernameInvalid (username : Str) : Bool :=
  if containsAny username [' ', '\t', '-', '_'] then true
  else if !matchAlnumPlus username then true
  else if goLen username < 3 || goLen username > 20 then true
  else false

/-- `isUsernameForbidden` of `user/rename.go`. -/
def isUsernameForbidden (equalFold : Str → Str → Bool) (forbiddenFile : Option (List Str))
    (username : Str) : Bool :=
  match forbiddenFile with
  | none => false
  | some lines => inForbiddenList equalFold username lines

/-- `checkUsernameIsValid` of `user/rename.go`. -/
def renameCheckUsernameIsValid (equalFold : Str → Str → Bool)
    (forbiddenFile : Option (List Str)) (newUsername : Str) : Outcome Unit :=
  if isUsernameInvalid newUsername then .exit 1
  else if isUsernameForbidden equalFold forbiddenFile newUsername then .exit 1
  else .ok ()

/-- ASCII-only case-insensitive equality, a concrete instance of the
`equalFold` parameter used to evaluate the definitions on examples. -/
def asciiEqualFold (a b : Str) : Bool :=
  a.map Char.toLower == b.map Char.toLower


/-! ## More of the Go standard library -/

instance : Coe String Str := ⟨String.toList⟩

/-- Sequencing of two parts of a function: the second runs only when the first
returned. -/
def Outcome.bind {α β : Type} (x : Outcome α) (f : α → Outcome β) : Outcome β :=
  match x with
  | .ok a => f a
  | .exit code => .exit code
  | .panic => .panic

/-- Go `xs[i]`: a run-time panic when `i` is out of range. -/
def index (xs : List Str) (i : Nat) : Outcome Str :=
  match xs.get? i with
  | some x => .ok x
  | none => .panic

/-- Loop of `strings.Fields`: `cur` is the field being read, reversed. -/
def fieldsAux : Str → Str → List Str
  | [], cur => if cur.isEmpty then [] else [cur.reverse]
  | c :: cs, cur =>
    if isSpace c then
      (if cur.isEmpty then fieldsAux cs [] else cur.reverse :: fieldsAux cs [])
    else fieldsAux cs (c :: cur)

/-- Go `strings.Fields`: the maximal runs of non-space characters. -/
def fields (s : Str) : List Str := fieldsAux s []

/-- Go `strings.ReplaceAll(s, string(ch), "")` for a one-character pattern. -/
def removeChar (ch : Char) (s : Str) : Str := s.filter (fun c => c != ch)

/-- Go `strings.TrimSuffix(s, string(ch))` for a one-character suffix. -/
def trimSuffixChar (ch : Char) (s : Str) : Str :=
  match s.reverse with
  | c :: r => if c = ch then r.reverse else s
  | [] => s

/-- Largest and smallest value of a 64-bit Go `int`. -/
def maxInt : Int := 9223372036854775807

def minInt : Int := -9223372036854775808

/-- Result of Go `int` arithmetic: the mathematical result reduced to the
64-bit two's complement range. -/
def wrapInt (x : Int) : Int := (x + 9223372036854775808) % 18446744073709551616 - 9223372036854775808

/-- Loop of `strconv.ParseUint(s, 10, 64)`: `none` is a syntax error; a value
that leaves the 64-bit range ends the loop at once with the largest value. -/
def parseUintLoop : Str → Nat → Option Nat
  | [], n => some n
  | c :: cs, n =>
    if isAsciiDigit c then
      (if n * 10 + (c.toNat - 48) > 18446744073709551615 then some 18446744073709551615
       else parseUintLoop cs (n * 10 + (c.toNat - 48)))
    else none

/-- Value of `strconv.ParseInt(s, 10, 0)` for a string with its sign removed. -/
def parseSigned (neg : Bool) (digits : Str) : Int :=
  if digits.isEmpty then 0
  else
    match parseUintLoop digits 0 with
    | none => 0
    | some un =>
      if !neg && un ≥ 9223372036854775808 then maxInt
      else if neg && un > 9223372036854775808 then minInt
      else if neg then -(un : Int) else (un : Int)

/-- The value `v` of `v, _ := strconv.Atoi(s)`: 0 on a syntax error, the
nearest bound of the range when the number does not fit. -/
def atoi (s : Str) : Int :=
  match s with
  | [] => 0
  | c :: rest =>
    if c = '-' then parseSigned true rest
    else if c = '+' then parseSigned false rest
    else parseSigned false s

/-- Go `strconv.Itoa`. -/
def itoa (i : Int) : Str := (toString i).toList

/-! ## Plan resolution (`getPlanInfoAndCheckRequirements`, first part) -/

/-- The fields of `Config` filled in from the plan row. -/
structure PlanInfo where
  CPU : Str
  RAM : Str
  DiskLimit : Int
  Inodes : Int
  Bandwidth : Str
  PlanID : Str
  deriving DecidableEq, Repr

/-- Lines 581 to 599 of `user/add.go`: `out` and `failed` are the result of the
plan query (`mysqlQuery`). -/
def parsePlanRow (out : Str) (failed : Bool) : Outcome PlanInfo :=
  if failed || (trimSpace out).isEmpty then .exit 1
  else
    let fs := fields out
    if fs.length < 6 then .exit 1
    else
      (index fs 0).bind fun cpu =>
      (index fs 1).bind fun ram =>
      (index fs 2).bind fun f2 =>
      let diskStr := removeChar ' ' (removeChar 'B' f2)
      (index fs 4).bind fun f4 =>
      (index fs 5).bind fun bandwidth =>
      (index fs 6).bind fun planID =>
      .ok { CPU := cpu, RAM := ram, DiskLimit := atoi diskStr, Inodes := atoi f4,
            Bandwidth := bandwidth, PlanID := planID }

/-! ## Quota encoding (`setUserQuota` of add.go, `updateDiskAndInodes` of change_plan.go) -/

/-- Arguments of the `setquota` command run by `setUserQuota` (`user/add.go`)
for `c.DiskLimit = diskLimit` and `c.Inodes = inodes`. -/
def setUserQuotaArgs (username : Str) (diskLimit inodes : Int) : List Str :=
  if diskLimit ≠ 0 then
    let storageInBlocks := wrapInt (diskLimit * 1024000)
    ["-u", username, itoa storageInBlocks, itoa storageInBlocks, itoa inodes, itoa inodes, "/"]
  else
    ["-u", username, "0", "0", "0", "0", "/"]

/-- `c.StorageBlocks = c.NDiskLimit * 1024000` of `loadNewPlanLimits`
(`user/change_plan.go`). -/
def storageBlocks (nDiskLimit : Int) : Int := wrapInt (nDiskLimit * 1024000)

/-- Arguments of the `setquota` command run by `updateDiskAndInodes`
(`user/change_plan.go`). -/
def updateDiskAndInodesArgs (containerName : Str) (blocks nInodes : Int) : List Str :=
  ["-u", containerName, itoa blocks, itoa blocks, itoa nInodes, itoa nInodes, "/"]

/-- The `setquota` arguments resize issues for a plan with disk limit `d` and
inode limit `n`: `loadNewPlanLimits` followed by `updateDiskAndInodes`. -/
def changePlanQuotaArgs (containerName : Str) (d n : Int) : List Str :=
  updateDiskAndInodesArgs containerName (storageBlocks d) n

/-! ## Port allocation (`findAvailablePorts` of add.go) -/

/-- The lines of a text, as the `(?m)` flag sees them: split at each newline character. -/
def splitLines : Str → List Str
  | [] => [[]]
  | c :: cs =>
    if c = '\n' then [] :: splitLines cs
    else
      match splitLines cs with
      | l :: ls => (c :: l) :: ls
      | [] => [[c]]

/-- Character class `[A-Z_]`. -/
def isUpperOrUnderscore (c : Char) : Bool :=
  (decide (65 ≤ c.toNat) && decide (c.toNat ≤ 90)) || c == '_'

/-- Go `strings.HasSuffix`. -/
def endsWith (s suffix : Str) : Bool := suffix.reverse.isPrefixOf s.reverse

/-- The capture group of `^[A-Z_]+_PORT=(\d+)` on one line, `none` when the
line does not match. The characters before `=` are all in `[A-Z_]`, so they
are the longest such run of the line; it must end in `_PORT` after at least one
more character, and `=` must be followed by a digit. -/
def portMatch (line : Str) : Option Str :=
  let run := line.takeWhile isUpperOrUnderscore
  let rest := line.dropWhile isUpperOrUnderscore
  if decide (run.length ≥ 6) && endsWith run "_PORT" then
    match rest with
    | '=' :: r =>
      let ds := r.takeWhile isAsciiDigit
      if ds.isEmpty then none else some ds
    | _ => none
  else none

/-- The submatches `m[1]` of `re.FindAllStringSubmatch(data, -1)`. -/
def portMatches (data : Str) : List Str := (splitLines data).filterMap portMatch

/-- The loop computing `highest` from the matches. -/
def highestPort (ms : List Str) : Int :=
  ms.foldl (fun highest m => if atoi m > highest then atoi m else highest) 0

/-- The final loop `ports[i] = minPort + i + 1` for `i` from 0 to 6. -/
def portBlock (minPort : Int) : List Int :=
  (List.range 7).map (fun (i : Nat) => wrapInt (wrapInt (minPort + (i : Int)) + 1))

/-- Path of the environment file of a tenant: `fmt.Sprintf("/home/%s/.env", user)`. -/
def envFileOf (user : Str) : Str := "/home/".toList ++ user ++ "/.env".toList

/-- `findAvailablePorts`: `out` is the output of the last-user query,
`fileExists` and `readFile` answer for the file system (`os.ReadFile` gives
empty data on an error). -/
def findAvailablePorts (out : Str) (fileExists : Str → Bool) (readFile : Str → Str) : List Int :=
  let lastUser := trimSpace out
  let minPort : Int :=
    if !lastUser.isEmpty then
      let envFile : Str := envFileOf lastUser
      if fileExists envFile then
        let highest := highestPort (portMatches (readFile envFile))
        if highest > 0 then highest else 32768
      else 32768
    else 32768
  portBlock minPort

/-- The number a string of decimal digits denotes. -/
def decimalValue (ds : Str) : Nat := ds.foldl (fun n c => n * 10 + (c.toNat - 48)) 0

/-- The ports an environment file records: the numbers written in its
`..._PORT=<digits>` entries. -/
def recordedPorts (data : Str) : List Nat := (portMatches data).map decimalValue

/-- The highest port an environment file records, 0 when it records none. -/
def highestRecorded (data : Str) : Nat := (recordedPorts data).foldr max 0

/-! ## The provisioning process (`user/add.go`)

The process is a function of its environment `World` (answers of external
commands, files and library functions that are not embedded) and leaves a
trace of `Event`s: the commands it runs and the files it changes. Answers may
depend on the events so far. Of the messages printed on the terminal only
those of the two reseller exits (`getExistingUsersCount`, `checkIfReseller`)
are part of the trace; shell scripts whose result the program ignores are
recorded by a short name instead of their text. -/

/-- An action of the process on its environment. -/
inductive Event where
  /-- `exec.Command(name, args...)` run to completion (`Run`, `CombinedOutput`). -/
  | cmd (name : Str) (args : List Str)
  /-- A statement sent to the panel database through the `mysql` client
  (`bash -c "source db.sh && mysql ... -e <statement>"`). -/
  | sql (statement : Str)
  /-- `exec.Command(name, args...).Start()`: a background command. -/
  | start (name : Str) (args : List Str)
  | removeAll (path : Str)
  | remove (path : Str)
  | mkdirAll (path : Str)
  | writeFile (path : Str)
  | appendFile (path : Str)
  | chmod (path : Str)
  /-- A text written to standard output or standard error (recorded for
  `user/change_plan.go`, `user/delete.go`, `user/ip.go` and the reseller exits
  of `user/add.go`). -/
  | print (text : Str)
  deriving DecidableEq, Repr

/-- The environment of a run. -/
structure World where
  /-- Go `strings.EqualFold`. -/
  equalFold : Str → Str → Bool
  /-- Go `strings.ToLower`. -/
  toLower : Str → Str
  /-- Go `fmt.Sprintf("%q", s)`. -/
  quote : Str → Str
  /-- Go `net.ParseIP(s) != nil`. -/
  parseIP : Str → Bool
  /-- Combined output of the `mysql` client for a statement and whether it
  returned an error. -/
  sql : List Event → Str → Str × Bool
  /-- Combined output of a command and whether it returned an error. -/
  cmd : List Event → Str → List Str → Str × Bool
  /-- `os.Stat(path)` succeeds. -/
  fileExists : List Event → Str → Bool
  /-- `os.ReadFile(path)`, `none` on an error. -/
  readFile : List Event → Str → Option Str
  /-- The lines a `bufio.Scanner` yields for a file, `none` when `os.Open` fails. -/
  readLines : List Event → Str → Option (List Str)
  /-- `os.Hostname()`, `none` on an error. -/
  hostname : List Event → Option Str
  /-- `os.OpenFile(lockFile, ...)` fails. -/
  lockOpenFails : Bool
  /-- `syscall.Flock` fails: another run holds the lock. -/
  flockFails : Bool
  /-- The bytes `rand.Read` writes into a buffer of the given size, for each
  call of `randomBase64` in turn (calls are numbered from 0). -/
  randomBytes : Nat → Nat → List Nat
  /-- The numbers `rand.Int(rand.Reader, 62)` returns, one per call of `generatePassword`. -/
  randomIndices : List Nat
  /-- `os.Getenv`. -/
  getenv : Str → Str
  /-- `os.Stat(path)` reports permission bits other than 0600. -/
  modeIsNot600 : List Event → Str → Bool
  /-- `os.Stat(path)` succeeds and reports a directory. -/
  dirExists : List Event → Str → Bool := fun _ _ => false
  /-- `os.ReadDir(path)`: the names of the entries, each with `IsDir()`;
  `none` on an error. -/
  readDir : List Event → Str → Option (List (Str × Bool)) := fun _ _ => none
  /-- The line a `bufio.Scanner` on standard input yields (empty at end of input). -/
  stdinLine : List Event → Str := fun _ => []

/-- Result of running a part of the process: how it ended and the trace then. -/
structure Res (α : Type) where
  out : Outcome α
  trace : List Event
  deriving Repr

/-- A part of the process: from the trace so far to its result. -/
def Proc (α : Type) : Type := List Event → Res α

def Proc.pure {α : Type} (a : α) : Proc α := fun tr => ⟨.ok a, tr⟩

def Proc.bind {α β : Type} (x : Proc α) (f : α → Proc β) : Proc β := fun tr =>
  match x tr with
  | ⟨.ok a, tr1⟩ => f a tr1
  | ⟨.exit code, tr1⟩ => ⟨.exit code, tr1⟩
  | ⟨.panic, tr1⟩ => ⟨.panic, tr1⟩

instance : Monad Proc where
  pure := Proc.pure
  bind := Proc.bind

/-- Go `os.Exit(code)`. -/
def osExit {α : Type} (code : Nat) : Proc α := fun tr => ⟨.exit code, tr⟩

/-- A run-time panic. -/
def goPanic {α : Type} : Proc α := fun tr => ⟨.panic, tr⟩

/-- Record an action. -/
def emit (e : Event) : Proc Unit := fun tr => ⟨.ok (), tr ++ [e]⟩

/-- Ask the environment a question that depends on the events so far. -/
def ask {α : Type} (q : List Event → α) : Proc α := fun tr => ⟨.ok (q tr), tr⟩

/-- A function that can exit or panic but has no effects, as a part of the process. -/
def liftOutcome {α : Type} (o : Outcome α) : Proc α := fun tr => ⟨o, tr⟩

/-- `runCmd`: the trimmed combined output and whether the command failed. -/
def runCmd (w : World) (name : Str) (args : List Str) : Proc (Str × Bool) := fun tr =>
  ⟨.ok (trimSpace (w.cmd tr name args).1, (w.cmd tr name args).2), tr ++ [.cmd name args]⟩

/-- `runCmdSilent`: whether the command failed. -/
def runCmdSilent (w : World) (name : Str) (args : List Str) : Proc Bool := fun tr =>
  ⟨.ok (w.cmd tr name args).2, tr ++ [.cmd name args]⟩

/-- The arguments `sshArgs` of `sshRun`: the key flag, when set, is split into
words before the target and the command. -/
def sshArgs (keyFlag userAtHost command : Str) : List Str :=
  (if keyFlag ≠ [] then fields keyFlag else []) ++ [userAtHost, command]

/-- `sshRun`. -/
def sshRun (w : World) (keyFlag userAtHost command : Str) : Proc (Str × Bool) :=
  runCmd w "ssh" (sshArgs keyFlag userAtHost command)

/-- `sshRunSilent`. -/
def sshRunSilent (w : World) (keyFlag userAtHost command : Str) : Proc Bool := do
  let r ← sshRun w keyFlag userAtHost command
  return r.2

/-- Go `strings.HasPrefix`. -/
def startsWith (s pre : Str) : Bool := pre.isPrefixOf s

/-- Go `strings.TrimPrefix`. -/
def trimPrefixStr (s pre : Str) : Str := if startsWith s pre then s.drop pre.length else s

/-- Go `strings.Trim(s, cutset)`. -/
def trimChars (s cutset : Str) : Str :=
  ((s.dropWhile cutset.contains).reverse.dropWhile cutset.contains).reverse

/-- Loop of `readConfigValue`: the first line starting with `key=`. -/
def configValueOfLines (key : Str) : List Str → Str
  | [] => []
  | line :: rest =>
    if startsWith line (key ++ ['=']) then trimSpace (trimPrefixStr line (key ++ ['=']))
    else configValueOfLines key rest

/-- `readConfigValue(file, key)`. -/
def readConfigValue (w : World) (file key : Str) : Proc Str := do
  let f ← ask (fun tr => w.readLines tr file)
  match f with
  | none => return []
  | some lines => return configValueOfLines key lines

/-- Character class `\s` of Go regular expressions. -/
def isRegexSpace (c : Char) : Bool := ['\t', '\n', '\x0c', '\r', ' '].contains c

/-- One line of `readConfigValueINI`: the capture of
`(?i)^key\s*=\s*(.*)` on the trimmed line, trimmed again. -/
def iniMatch (w : World) (key line : Str) : Option Str :=
  let l := trimSpace line
  if decide (key.length ≤ l.length) && w.equalFold (l.take key.length) key then
    match (l.drop key.length).dropWhile isRegexSpace with
    | '=' :: r => some (trimSpace (r.dropWhile isRegexSpace))
    | _ => none
  else none

/-- `readConfigValueINI(file, key)`. -/
def readConfigValueINI (w : World) (file key : Str) : Proc Str := do
  let f ← ask (fun tr => w.readLines tr file)
  match f with
  | none => return []
  | some lines =>
    match lines.filterMap (iniMatch w key) with
    | v :: _ => return v
    | [] => return []

def forbiddenUsernamesFile : Str := "/etc/openpanel/openadmin/config/forbidden_usernames.txt"

def dbConfigFile : Str := "/usr/local/opencli/db.sh"

def panelConfigFile : Str := "/etc/openpanel/openpanel/conf/openpanel.config"

def adminConfigFile : Str := "/etc/openpanel/openadmin/config/admin.ini"

def adminDBFile : Str := "/etc/openpanel/openadmin/users.db"

def lockFile : Str := "/var/lock/openpanel_user_add.lock"

/-- The `Config` of `user/add.go`. -/
structure Config where
  Username : Str := []
  Password : Str := []
  Email : Str := []
  PlanName : Str := []
  Debug : Bool := false
  SkipImagePull : Bool := false
  SendEmail : Bool := false
  Reseller : Str := []
  Server : Str := []
  Key : Str := []
  KeyFlag : Str := []
  Webserver : Str := []
  SQLType : Str := []
  NodeIPAddress : Str := []
  Hostname : Str := []
  ContextFlag : Str := []
  UserID : Str := []
  PlanID : Str := []
  CPU : Str := []
  RAM : Str := []
  DiskLimit : Int := 0
  Inodes : Int := 0
  Bandwidth : Str := []
  HashedPassword : Str := []
  KeyValue : Str := []
  MaxAccounts : Str := []
  CurrentAccounts : Int := 0
  DefaultPHPVersion : Str := []
  Ports : List Str := List.replicate 7 []

/-- `(c *Config) mysqlQuery`: the trimmed output of the client and whether it failed. -/
def mysqlQuery (w : World) (query : Str) : Proc (Str × Bool) := fun tr =>
  ⟨.ok (trimSpace (w.sql tr query).1, (w.sql tr query).2), tr ++ [.sql query]⟩

/-- One argument of the loop of `parseFlags`. -/
def parseFlag (c : Config) (arg : Str) : Config :=
  if arg = "--debug".toList then { c with Debug := true }
  else if arg = "--send-email".toList then { c with SendEmail := true }
  else if arg = "--skip-images".toList then { c with SkipImagePull := true }
  else if startsWith arg "--reseller=" then { c with Reseller := trimPrefixStr arg "--reseller=" }
  else if startsWith arg "--server=" then { c with Server := trimPrefixStr arg "--server=" }
  else if startsWith arg "--key=" then
    { c with
      Key := trimPrefixStr arg "--key="
      KeyFlag := "-i ".toList ++ trimPrefixStr arg "--key=" ++
        " -o StrictHostKeyChecking=no -o UserKnownHostsFile=/dev/null -o BatchMode=yes".toList }
  else if startsWith arg "--sql=" then { c with SQLType := trimPrefixStr arg "--sql=" }
  else if startsWith arg "--webserver=" then
    { c with Webserver := trimSpace (trimChars (trimPrefixStr arg "--webserver=") ['"']) }
  else c

/-- `(c *Config) parseFlags`. -/
def parseFlags (c : Config) (args : List Str) : Config := args.foldl parseFlag c

/-- `(c *Config) checkEnterprise`. -/
def checkEnterprise (w : World) (c : Config) : Proc Config := do
  let v ← readConfigValue w panelConfigFile "key"
  return { c with KeyValue := v }

/-- `(c *Config) setupLock`. -/
def setupLock (w : World) : Proc Unit :=
  if w.lockOpenFails then osExit 1
  else if w.flockFails then osExit 1
  else return ()

/-- `(c *Config) getHostnameOfMaster`. -/
def getHostnameOfMaster (w : World) (c : Config) : Proc Config := do
  let h ← ask w.hostname
  match h with
  | some h => return { c with Hostname := h }
  | none => return c

/-- `(c *Config) checkUsernameIsValid` as a step of the process. -/
def checkUsernameIsValidStep (w : World) (c : Config) : Proc Unit := do
  let f ← ask (fun tr => w.readLines tr forbiddenUsernamesFile)
  liftOutcome (checkUsernameIsValid w.equalFold f c.Username)

/-- `(c *Config) validatePasswordInLists`. The deferred `os.Remove` of the
dictionary runs when the function returns, not when it exits. -/
def validatePasswordInLists (w : World) (password : Str) : Proc Unit := do
  let weakpass0 ← readConfigValue w panelConfigFile "weakpass"
  let weakpass : Str := if weakpass0 = [] then "yes" else weakpass0
  if weakpass ≠ "no".toList then return ()
  else
    let dictPath : Str := "/tmp/weakpass.txt"
    let r ← runCmd w "wget" ["--timeout=5", "--tries=3", "-O", dictPath,
      "https://github.com/steveklabnik/password-cracker/blob/master/dictionary.txt"]
    let ex ← ask (fun tr => w.fileExists tr dictPath)
    if r.2 || !ex then return ()
    else
      let f ← ask (fun tr => w.readLines tr dictPath)
      match f with
      | none => emit (.remove dictPath)
      | some lines =>
        if lines.any (fun l => w.toLower (trimSpace l) = w.toLower password) then osExit 1
        else emit (.remove dictPath)

/-- `(c *Config) checkIfDefaultSlaveServerIsSet`. -/
def checkIfDefaultSlaveServerIsSet (w : World) (c : Config) : Proc Config := do
  let defaultNode ← readConfigValueINI w adminConfigFile "default_node"
  if defaultNode = [] then return c
  else
    let defaultKeyPath ← readConfigValueINI w adminConfigFile "default_ssh_key_path"
    if defaultKeyPath ≠ [] ∧ c.Server = [] then
      return { c with Server := defaultNode, Key := defaultKeyPath }
    else return c

/-- `isValidIPv4`. -/
def isValidIPv4 (w : World) (ip : Str) : Bool := w.parseIP ip && ip.contains '.'

/-- `(c *Config) getSlaveIfSet`. -/
def getSlaveIfSet (w : World) (c : Config) : Proc Config := do
  if c.Server = [] then
    let h ← ask w.hostname
    return { c with ContextFlag := [], Hostname := h.getD [] }
  else if !isValidIPv4 w c.Server then osExit 1
  else
    let r ← sshRun w c.KeyFlag ("root@".toList ++ c.Server) "hostname"
    if r.2 || r.1 = [] then osExit 1
    else
      return { c with
        ContextFlag := "--context ".toList ++ c.Server
        NodeIPAddress := c.Server
        Hostname := r.1 }

/-- `(c *Config) getExistingUsersCount`; the two lines printed at the exit for
a reseller are recorded. -/
def getExistingUsersCount (w : World) (c : Config) : Proc Unit := do
  if c.KeyValue ≠ [] then return ()
  else if c.Reseller ≠ [] then
    emit (.print "[✘] ERROR: Resellers feature requires the Enterprise edition.\n")
    emit (.print ("If you require reseller accounts, please consider purchasing the Enterprise " ++
      "version that allows unlimited number of users and resellers.\n"))
    osExit 1
  else
    let r ← mysqlQuery w "SELECT COUNT(*) FROM users"
    if r.2 then osExit 1
    else if atoi (trimSpace r.1) > 2 then osExit 1
    else
      let r2 ← mysqlQuery w
        ("SELECT COUNT(*) FROM users WHERE username = '".toList ++ c.Username ++ "'".toList)
      if r2.2 then osExit 1
      else if atoi (trimSpace r2.1) > 0 then osExit 1
      else return ()

/-- Lines 579 to 599 of `getPlanInfoAndCheckRequirements`: the plan query and
the fields of `Config` read from its row. -/
def resolvePlan (w : World) (c : Config) : Proc Config := do
  let r ← mysqlQuery w
    ("SELECT cpu, ram, disk_limit, inodes_limit, bandwidth, id FROM plans WHERE name = '".toList
      ++ c.PlanName ++ "'".toList)
  let p ← liftOutcome (parsePlanRow r.1 r.2)
  return { c with
    CPU := p.CPU
    RAM := p.RAM
    DiskLimit := p.DiskLimit
    Inodes := p.Inodes
    Bandwidth := p.Bandwidth
    PlanID := p.PlanID }

/-- The command whose output is `maxCoresStr`: `nproc` on the target. -/
def askCores (w : World) (c : Config) : Proc Str := do
  if c.NodeIPAddress ≠ [] then
    let r ← sshRun w c.KeyFlag ("root@".toList ++ c.NodeIPAddress) "nproc"
    return r.1
  else
    let r ← runCmd w "nproc" []
    return r.1

/-- The command whose output is `maxRAMStr`: `free` on the target. -/
def askMemory (w : World) (c : Config) : Proc Str := do
  if c.NodeIPAddress ≠ [] then
    let r ← sshRun w c.KeyFlag ("root@".toList ++ c.NodeIPAddress)
      "free -g | awk '/Mem:/\x7bprint $2\x7d'"
    return r.1
  else
    let r ← runCmd w "bash"
      ["-c", "free -m | awk '/^Mem:/ \x7bprintf \"%d\\n\", ($2+512)/1024 \x7d'"]
    return r.1

/-- Lines 601 to 628 of `getPlanInfoAndCheckRequirements`: the CPU and RAM
limits of the plan against the capacity of the target. -/
def checkCapacity (w : World) (c : Config) : Proc Unit := do
  let maxCoresStr ← askCores w c
  if atoi c.CPU > atoi (trimSpace maxCoresStr) then osExit 1
  else
    let maxRAMStr ← askMemory w c
    if atoi (trimSuffixChar 'g' c.RAM) > atoi (trimSpace maxRAMStr) then osExit 1
    else return ()

/-- `(c *Config) getPlanInfoAndCheckRequirements`. -/
def getPlanInfoAndCheckRequirements (w : World) (c : Config) : Proc Config := do
  let c ← resolvePlan w c
  checkCapacity w c
  return c

/-- Go `strings.Split(s, string(sep))` for a one-character separator. -/
def splitOnChar (sep : Char) : Str → List Str
  | [] => [[]]
  | c :: cs =>
    if c = sep then [] :: splitOnChar sep cs
    else
      match splitOnChar sep cs with
      | l :: ls => (c :: l) :: ls
      | [] => [[c]]

/-- Path of the limits file of a reseller. -/
def resellerLimitsFile (reseller : Str) : Str :=
  "/etc/openpanel/openadmin/resellers/".toList ++ reseller ++ ".json".toList

/-- The `jq` script that writes `current_accounts` into the limits file. -/
def jqSetCurrentAccounts (w : World) (current reseller : Str) : Str :=
  "jq --argjson ca ".toList ++ current ++ " '.current_accounts = $ca' ".toList ++
    w.quote (resellerLimitsFile reseller) ++ " > /tmp/".toList ++ reseller ++
    "_config.json && mv /tmp/".toList ++ reseller ++ "_config.json ".toList ++
    w.quote (resellerLimitsFile reseller)

/-- `(c *Config) checkIfReseller`; the line printed at the exit for a user who
is not a reseller is recorded. -/
def checkIfReseller (w : World) (c : Config) : Proc Config := do
  if c.Reseller = [] then return c
  else
    let r ← runCmd w "sqlite3" [adminDBFile,
      "SELECT COUNT(*) FROM user WHERE username='".toList ++ c.Reseller ++
        "' AND role='reseller';".toList]
    if atoi (trimSpace r.1) < 1 then
      emit (.print ("ERROR: User '".toList ++ c.Reseller ++
        "' is not a reseller or not allowed to create new users. Contact support.\n".toList))
      osExit 1
    else
      let ex ← ask (fun tr => w.fileExists tr (resellerLimitsFile c.Reseller))
      if !ex then return c
      else
        let cur ← mysqlQuery w
          ("SELECT COUNT(*) FROM users WHERE owner='".toList ++ c.Reseller ++ "'".toList)
        if cur.2 then osExit 1
        else
          let current := atoi (trimSpace cur.1)
          let _ ← runCmdSilent w "bash" ["-c", jqSetCurrentAccounts w (itoa current) c.Reseller]
          let maxAcc ← runCmd w "jq" ["-r", ".max_accounts // \"unlimited\"",
            resellerLimitsFile c.Reseller]
          let allowed ← runCmd w "jq" ["-r", ".allowed_plans | join(\",\")",
            resellerLimitsFile c.Reseller]
          let c1 : Config := { c with CurrentAccounts := current, MaxAccounts := trimSpace maxAcc.1 }
          if c1.MaxAccounts ≠ "unlimited".toList ∧ current ≥ atoi c1.MaxAccounts then osExit 1
          else if !(splitOnChar ',' allowed.1).any (fun p => trimSpace p = c1.PlanID) then osExit 1
          else return c1

/-- `(c *Config) validateSSHLogin`. -/
def validateSSHLogin (w : World) (c : Config) : Proc Unit := do
  if c.NodeIPAddress = [] ∨ c.Debug = false then return ()
  else
    let ex ← ask (fun tr => w.fileExists tr c.Key)
    if !ex then osExit 1
    else
      let ex2 ← ask (fun tr => w.fileExists tr c.Key)
      let bad ← ask (fun tr => w.modeIsNot600 tr c.Key)
      if ex2 && bad then emit (.chmod c.Key)
      let r ← sshRun w c.KeyFlag c.NodeIPAddress "exit"
      if r.2 then osExit 1
      else
        let _ ← runCmdSilent w "csf" ["-a", c.NodeIPAddress]
        return ()

/-- `(c *Config) createLocalUser`. -/
def createLocalUser (w : World) (c : Config) : Proc Config := do
  let failed ← runCmdSilent w "useradd" ["-m", "-d", "/home/".toList ++ c.Username, c.Username]
  if failed then osExit 1
  else
    let r ← runCmd w "id" ["-u", c.Username]
    if r.2 then osExit 1
    else return { c with UserID := trimSpace r.1 }

/-- The `useradd` command line `createRemoteUser` sends to the node. -/
def remoteUseraddCommand (c : Config) (providedID : Str) : Str :=
  "useradd -m -s /bin/bash -d /home/".toList ++ c.Username ++ " ".toList ++
    (if providedID ≠ [] then "-u ".toList ++ providedID else []) ++ " ".toList ++ c.Username

/-- `(c *Config) createRemoteUser`. -/
def createRemoteUser (w : World) (c : Config) (providedID : Str) : Proc Config := do
  if c.NodeIPAddress = [] then return c
  else
    let _ ← sshRunSilent w c.KeyFlag ("root@".toList ++ c.NodeIPAddress)
      (remoteUseraddCommand c providedID)
    let r ← sshRun w c.KeyFlag ("root@".toList ++ c.NodeIPAddress) ("id -u ".toList ++ c.Username)
    if r.2 then osExit 1
    else return { c with UserID := trimSpace r.1 }

/-- `(c *Config) setUserQuota`. -/
def setUserQuota (w : World) (c : Config) : Proc Unit := do
  let _ ← runCmdSilent w "setquota" (setUserQuotaArgs c.Username c.DiskLimit c.Inodes)
  return ()

/-- `(c *Config) createUserSetQuotaAndPassword`. -/
def createUserSetQuotaAndPassword (w : World) (c : Config) : Proc Config := do
  let c ← createLocalUser w c
  let c ← createRemoteUser w c c.UserID
  setUserQuota w c
  return c

/-- Path of the core configuration directory of a tenant. -/
def coreUserDir (username : Str) : Str := "/etc/openpanel/openpanel/core/users/".toList ++ username

/-- The steps of `hardCleanup` before `os.Exit(1)`, in order. -/
def hardCleanupEvents (c : Config) : List Event :=
  [ .cmd "killall" ["-u", c.Username, "-9"],
    .cmd "deluser" ["--remove-home", c.Username],
    .removeAll (coreUserDir c.Username),
    .cmd "docker" ["context", "rm", c.Username],
    .cmd "quotacheck" ["-avm"],
    .mkdirAll "/etc/openpanel/openpanel/core/users/",
    .cmd "bash" ["-c", "repquota -u / > /etc/openpanel/openpanel/core/users/repquota"] ]

/-- `(c *Config) hardCleanup`: the result of every step is discarded. -/
def hardCleanup {α : Type} (w : World) (c : Config) : Proc α := do
  let _ ← runCmdSilent w "killall" ["-u", c.Username, "-9"]
  let _ ← runCmdSilent w "deluser" ["--remove-home", c.Username]
  emit (.removeAll (coreUserDir c.Username))
  let _ ← runCmdSilent w "docker" ["context", "rm", c.Username]
  let _ ← runCmdSilent w "quotacheck" ["-avm"]
  emit (.mkdirAll "/etc/openpanel/openpanel/core/users/")
  let _ ← runCmd w "bash" ["-c", "repquota -u / > /etc/openpanel/openpanel/core/users/repquota"]
  osExit 1

/-- `(c *Config) sshfsMounts`. The three configuration scripts sent to the node
are named `sshd-pubkey`, `install-uidmap` and `cgroup-delegation`. -/
def sshfsMounts (w : World) (c : Config) : Proc Unit := do
  if c.NodeIPAddress = [] then return ()
  else
    let root : Str := "root@".toList ++ c.NodeIPAddress
    let _ ← sshRunSilent w c.KeyFlag root "script:sshd-pubkey"
    let _ ← sshRunSilent w c.KeyFlag root "script:install-uidmap"
    let _ ← sshRunSilent w c.KeyFlag root "script:cgroup-delegation"
    let _ ← runCmd w "scp" ((if c.KeyFlag ≠ [] then fields c.KeyFlag else []) ++
      (["-r", "/etc/openpanel",
        "root@".toList ++ c.NodeIPAddress ++ ":/etc/openpanel".toList] : List Str))
    let hasSshfs ← runCmd w "command" ["-v", "sshfs"]
    if hasSshfs.2 then
      let apt ← runCmd w "command" ["-v", "apt-get"]
      if !apt.2 then
        let _ ← runCmd w "apt-get" ["install", "-y", "sshfs"]
      else
        let dnf ← runCmd w "command" ["-v", "dnf"]
        if !dnf.2 then
          let _ ← runCmd w "dnf" ["install", "-y", "sshfs"]
        else
          let yum ← runCmd w "command" ["-v", "yum"]
          if !yum.2 then
            let _ ← runCmd w "yum" ["install", "-y", "sshfs"]
          else osExit 1
    let _ ← runCmd w "sshfs" ((["-o", "StrictHostKeyChecking=no"] : List Str) ++
      (if c.Key ≠ [] then (["-o", "IdentityFile=".toList ++ c.Key] : List Str) else []) ++
      (["root@".toList ++ c.NodeIPAddress ++ ":/home/".toList ++ c.Username,
        "/home/".toList ++ c.Username] : List Str))
    return ()

/-- `(c *Config) setupSSHKey`. The script sent to the node appends the public
key to the `authorized_keys` of the user. -/
def setupSSHKey (w : World) (c : Config) : Proc Unit := do
  if c.NodeIPAddress = [] then return ()
  else
    let pub ← runCmd w "ssh-keygen" ["-y", "-f", c.Key]
    let _ ← sshRunSilent w c.KeyFlag ("root@".toList ++ c.NodeIPAddress)
      ("script:authorized-keys ".toList ++ c.Username ++ " ".toList ++ pub.1)
    let home := w.getenv "HOME"
    emit (.mkdirAll (home ++ "/.ssh".toList))
    let dest := home ++ "/.ssh/".toList ++ c.NodeIPAddress
    let _ ← runCmdSilent w "cp" [c.Key, dest]
    emit (.chmod dest)
    emit (.mkdirAll (home ++ "/.ssh/cm_socket".toList))
    emit (.appendFile (home ++ "/.ssh/config".toList))
    let r ← sshRun w [] c.Username "exit"
    if r.2 then osExit 1 else return ()

/-- `(c *Config) installDockerAndAddUser`. -/
def installDockerAndAddUser (w : World) (c : Config) : Proc Unit := do
  if c.NodeIPAddress = [] then return ()
  else
    let root : Str := "root@".toList ++ c.NodeIPAddress
    let r ← sshRun w c.KeyFlag root "command -v docker >/dev/null 2>&1"
    if r.2 then
      let _ ← sshRunSilent w c.KeyFlag root
        "set -e; apt update; apt install -y docker.io; systemctl enable --now docker"
    let _ ← sshRunSilent w c.KeyFlag root ("script:add-to-docker-group ".toList ++ c.Username)
    return ()

/-- `(c *Config) createVolume`. -/
def createVolume (w : World) (c : Config) : Proc Unit := do
  let volPath : Str := "/home/".toList ++ c.Username ++ "/docker-data/volumes/".toList ++
    c.Username ++ "_html_data/_data/".toList
  emit (.mkdirAll volPath)
  let _ ← runCmdSilent w "chown" [c.Username ++ ":".toList ++ c.Username, volPath]
  let _ ← runCmdSilent w "chmod" ["-R", "g+w", volPath]
  return ()

/-- `(c *Config) dockerRootlessRemote`. -/
def dockerRootlessRemote (w : World) (c : Config) : Proc Unit := do
  let root : Str := "root@".toList ++ c.NodeIPAddress
  let _ ← sshRunSilent w c.KeyFlag root ("script:apparmor-profiles ".toList ++ c.Username)
  let _ ← sshRunSilent w c.KeyFlag root ("script:restart-services ".toList ++ c.Username)
  let _ ← sshRunSilent w c.KeyFlag root ("script:rootless-setuptool ".toList ++ c.Username)
  let _ ← sshRun w [] c.Username ("script:docker-service-unit ".toList ++ c.Username)
  let _ ← sshRunSilent w c.KeyFlag root ("script:start-user-services ".toList ++ c.Username)
  return ()

/-- Go `strings.ReplaceAll(s, "/", ".")`. -/
def slashesToDots (s : Str) : Str := s.map (fun ch => if ch = '/' then '.' else ch)

/-- `(c *Config) dockerRootlessLocal`. -/
def dockerRootlessLocal (w : World) (c : Config) : Proc Unit := do
  let home : Str := "/home/".toList ++ c.Username
  emit (.writeFile ("/etc/apparmor.d/home.".toList ++ c.Username ++ ".bin.rootlesskit".toList))
  let homeDir : Str := if w.getenv "HOME" = [] then "/root" else w.getenv "HOME"
  let filename := slashesToDots (trimPrefixStr (homeDir ++ "/bin/rootlesskit".toList) "/")
  emit (.writeFile (homeDir ++ "/".toList ++ filename))
  let _ ← runCmdSilent w "mv" [homeDir ++ "/".toList ++ filename,
    "/etc/apparmor.d/".toList ++ filename]
  let _ ← runCmdSilent w "systemctl" ["restart", "apparmor.service"]
  let _ ← runCmdSilent w "loginctl" ["enable-linger", c.Username]
  emit (.mkdirAll (home ++ "/.docker/run".toList))
  emit (.mkdirAll (home ++ "/bin".toList))
  emit (.mkdirAll (home ++ "/bin/.config/systemd/user/".toList))
  emit (.chmod (home ++ "/.docker/run".toList))
  let _ ← runCmdSilent w "chmod" ["755", "-R", home ++ "/".toList]
  let _ ← runCmdSilent w "chown" ["-R", c.Username ++ ":".toList ++ c.Username,
    home ++ "/".toList]
  let setuptool : Str := "/etc/openpanel/docker/dockerd-rootless-setuptool.sh"
  let ex ← ask (fun tr => w.fileExists tr setuptool)
  if !ex then
    let _ ← runCmd w "curl" ["-sSL", "https://get.docker.com/rootless", "-o", setuptool]
    emit (.chmod setuptool)
  let _ ← runCmdSilent w "ln" ["-sf", setuptool,
    home ++ "/bin/dockerd-rootless-setuptool.sh".toList]
  let _ ← runCmdSilent w "bash" ["-c", "script:machinectl-install-rootless ".toList ++ c.Username]
  return ()

/-- `(c *Config) dockerRootless`. -/
def dockerRootless (w : World) (c : Config) : Proc Unit := do
  let home : Str := "/home/".toList ++ c.Username
  emit (.mkdirAll (home ++ "/docker-data".toList))
  emit (.mkdirAll (home ++ "/.config/docker".toList))
  let ex ← ask (fun tr => w.fileExists tr "/etc/openpanel/docker/daemon/rootless.json")
  if ex then emit (.writeFile (home ++ "/.config/docker/daemon.json".toList))
  emit (.mkdirAll (home ++ "/bin".toList))
  let _ ← runCmdSilent w "chmod" ["755", "-R", home ++ "/".toList]
  let ex2 ← ask (fun tr => w.fileExists tr (home ++ "/.bashrc".toList))
  if ex2 then emit (.writeFile (home ++ "/.bashrc".toList))
  if c.NodeIPAddress ≠ [] then dockerRootlessRemote w c else dockerRootlessLocal w c

/-- `(c *Config) dockerCompose`. -/
def dockerCompose (w : World) (c : Config) : Proc Unit := do
  if c.NodeIPAddress ≠ [] then
    let _ ← sshRunSilent w c.KeyFlag ("root@".toList ++ c.NodeIPAddress)
      ("script:install-compose-plugin ".toList ++ c.Username)
    return ()
  else
    let arch ← runCmd w "bash" ["-c", "lscpu | grep Architecture | awk '\x7bprint $2\x7d'"]
    let arm : Bool := trimSpace arch.1 = "aarch64".toList
    let systemWideFile : Str :=
      if arm then "/etc/openpanel/docker/docker-compose-linux-aarch64"
      else "/etc/openpanel/docker/docker-compose-linux-x86_64"
    let link : Str :=
      if arm then
        "https://github.com/docker/compose/releases/download/v2.36.0/docker-compose-linux-aarch64"
      else
        "https://github.com/docker/compose/releases/download/v2.36.0/docker-compose-linux-x86_64"
    let ex ← ask (fun tr => w.fileExists tr systemWideFile)
    if !ex then
      let _ ← runCmd w "curl" ["-sSL", link, "-o", systemWideFile]
    emit (.chmod systemWideFile)
    emit (.mkdirAll ("/home/".toList ++ c.Username ++ "/.docker/cli-plugins".toList))
    let _ ← runCmdSilent w "ln" ["-sf", systemWideFile,
      "/home/".toList ++ c.Username ++ "/.docker/cli-plugins/docker-compose".toList]
    return ()

/-- `(c *Config) createContext`. -/
def createContext (w : World) (c : Config) : Proc Unit := do
  let host : Str :=
    if c.NodeIPAddress ≠ [] then "host=ssh://".toList ++ c.Username
    else "host=unix:///hostfs/run/user/".toList ++ c.UserID ++ "/docker.sock".toList
  let _ ← runCmd w "docker" ["context", "create", c.Username, "--docker", host,
    "--description", c.Username]
  return ()

/-- `(c *Config) testComposeCommandForUser`. -/
def testComposeCommandForUser (w : World) (c : Config) : Proc Unit := do
  let r ← runCmd w "docker" ["--context=".toList ++ c.Username, "compose", "version"]
  if r.2 then hardCleanup w c else return ()

/-- `(c *Config) getPHPVersion`. -/
def getPHPVersion (w : World) (c : Config) : Proc Config := do
  let v ← readConfigValue w "/etc/openpanel/docker/compose/1.0/.env" "DEFAULT_PHP_VERSION"
  let val := trimChars v ['"', '\'']
  return { c with DefaultPHPVersion := if val = [] then "8.4" else val }

/-- The alphabet of `base64.StdEncoding`. -/
def base64Alphabet : Str :=
  "ABCDEFGHIJKLMNOPQRSTUVWXYZabcdefghijklmnopqrstuvwxyz0123456789+/"

/-- The character of a 6-bit value. -/
def base64Char (i : Nat) : Char := base64Alphabet.getD (i % 64) 'A'

/-- Go `base64.StdEncoding.EncodeToString` on a list of bytes. -/
def base64Encode : List Nat → Str
  | [] => []
  | [a] => [base64Char (a / 4), base64Char (a % 4 * 16), '=', '=']
  | [a, b] => [base64Char (a / 4), base64Char (a % 4 * 16 + b / 16), base64Char (b % 16 * 4), '=']
  | a :: b :: c :: rest =>
    base64Char (a / 4) :: base64Char (a % 4 * 16 + b / 16) ::
      base64Char (b % 16 * 4 + c / 64) :: base64Char (c % 64) :: base64Encode rest

/-- `randomBase64(n)` for the bytes the random source delivers: the slice
`[:n]` panics when fewer than `n` characters are left. -/
def randomBase64 (bytes : List Nat) (n : Nat) : Outcome Str :=
  let b := (List.range n).map (fun i => bytes.getD i 0 % 256)
  let kept := (base64Encode b).filter isAsciiAlnum
  if kept.length < n then .panic else .ok (kept.take n)

/-- Character class `[a-zA-Z0-9._%+\-]`. -/
def isEmailLocalChar (c : Char) : Bool := isAsciiAlnum c || ['.', '_', '%', '+', '-'].contains c

/-- Character class `[a-zA-Z0-9.\-]`. -/
def isDomainChar (c : Char) : Bool := isAsciiAlnum c || ['.', '-'].contains c

/-- `isValidEmail`: the text matches
`^[a-zA-Z0-9._%+\-]+@[a-zA-Z0-9.\-]+\.[a-zA-Z]{2,}$`. The local part ends at
the first `@`; the top-level name is what follows the last dot. -/
def isValidEmail (email : Str) : Bool :=
  let loc := email.takeWhile (fun c => c != '@')
  match email.dropWhile (fun c => c != '@') with
  | [] => false
  | _ :: rest =>
    let tld := (rest.reverse.takeWhile (fun c => c != '.')).reverse
    match rest.reverse.dropWhile (fun c => c != '.') with
    | [] => false
    | _ :: domRev =>
      !loc.isEmpty && loc.all isEmailLocalChar && !domRev.isEmpty && domRev.all isDomainChar
        && decide (2 ≤ tld.length) && tld.all isAsciiLetter

/-- The seven port bindings written by `runDocker`. -/
def portBindings (node : Str) (ports : List Int) : List Str :=
  let p := fun (i : Nat) => itoa (ports.getD i 0)
  if node ≠ [] then
    [node ++ ":".toList ++ p 0 ++ ":80".toList, node ++ ":".toList ++ p 1 ++ ":3306".toList,
     node ++ ":".toList ++ p 2 ++ ":5432".toList, node ++ ":".toList ++ p 3 ++ ":80".toList,
     node ++ ":".toList ++ p 4 ++ ":80".toList, node ++ ":".toList ++ p 5 ++ ":443".toList,
     node ++ ":".toList ++ p 6 ++ ":80".toList]
  else
    [p 0 ++ ":80".toList, p 1 ++ ":3306".toList, p 2 ++ ":5432".toList, p 3 ++ ":80".toList,
     "127.0.0.1:".toList ++ p 4 ++ ":80".toList, "127.0.0.1:".toList ++ p 5 ++ ":443".toList,
     "127.0.0.1:".toList ++ p 6 ++ ":80".toList]

/-- The list `required` of `runDocker`. -/
def requiredVariables (c : Config) (postgresPassword mysqlRootPassword : Str) : List Str :=
  [c.Username, c.UserID, c.CPU, c.RAM, c.Ports.getD 4 [], c.Ports.getD 5 [], c.Ports.getD 6 [],
   c.Ports.getD 0 [], c.Ports.getD 2 [], c.Ports.getD 3 [], c.Ports.getD 1 [],
   c.DefaultPHPVersion, postgresPassword, mysqlRootPassword]

/-- `copyIfExists` of `runDocker`. -/
def copyIfExists (w : World) (src dst : Str) : Proc Unit := do
  let d ← ask (fun tr => w.readFile tr src)
  match d with
  | some _ => emit (.writeFile dst)
  | none => return ()

/-- Lines 1332 to 1351 of `runDocker`: `findAvailablePorts` and the seven port
bindings. -/
def assignPorts (w : World) (c : Config) : Proc Config := do
  let last ← mysqlQuery w "SELECT server FROM users ORDER BY id DESC LIMIT 1"
  let ports ← ask (fun tr =>
    findAvailablePorts last.1 (w.fileExists tr) (fun p => (w.readFile tr p).getD []))
  return { c with Ports := portBindings c.NodeIPAddress ports }

/-- Path of the compose template. -/
def composeTemplate : Str := "/etc/openpanel/docker/compose/1.0/docker-compose.yml"

/-- Lines 1353 to 1480 of `runDocker`: the compose file, the secrets, the
required variables and the `.env` file. The text written to the `.env` file is
not part of the trace. -/
def materialize (w : World) (c : Config) : Proc Config := do
  let home : Str := "/home/".toList ++ c.Username
  let ex ← ask (fun tr => w.fileExists tr composeTemplate)
  if !ex then osExit 1
  else
    emit (.writeFile (home ++ "/docker-compose.yml".toList))
    let postgresPassword ← liftOutcome (randomBase64 (w.randomBytes 0 12) 12)
    let mysqlRootPassword ← liftOutcome (randomBase64 (w.randomBytes 1 12) 12)
    let _pgAdminPassword ← liftOutcome (randomBase64 (w.randomBytes 2 12) 12)
    if (requiredVariables c postgresPassword mysqlRootPassword).any (fun v => v = []) then osExit 1
    else
      emit (.writeFile (envFileOf c.Username))
      let written ← ask (fun tr => w.fileExists tr (envFileOf c.Username))
      if !written then osExit 1
      else
        emit (.mkdirAll (home ++ "/sockets/mysqld".toList))
        emit (.mkdirAll (home ++ "/sockets/postgres".toList))
        emit (.mkdirAll (home ++ "/sockets/redis".toList))
        emit (.mkdirAll (home ++ "/sockets/memcached".toList))
        let _ ← runCmdSilent w "chown" [c.Username ++ ":".toList ++ c.Username,
          home ++ "/sockets".toList]
        let _ ← runCmdSilent w "chmod" ["777", home ++ "/sockets/".toList]
        copyIfExists w "/etc/openpanel/mysql/user.cnf" (home ++ "/custom.cnf".toList)
        copyIfExists w "/etc/openpanel/postgres/postgresql.conf"
          (home ++ "/postgre_custom.conf".toList)
        copyIfExists w "/etc/openpanel/nginx/user-nginx.conf" (home ++ "/nginx.conf".toList)
        copyIfExists w "/etc/openpanel/openresty/nginx.conf" (home ++ "/openresty.conf".toList)
        copyIfExists w "/etc/openpanel/openlitespeed/httpd_config.conf"
          (home ++ "/openlitespeed.conf".toList)
        copyIfExists w "/etc/openpanel/apache/httpd.conf" (home ++ "/httpd.conf".toList)
        copyIfExists w "/etc/openpanel/varnish/default.vcl" (home ++ "/default.vcl".toList)
        copyIfExists w "/etc/openpanel/ofelia/users.ini" (home ++ "/crons.ini".toList)
        copyIfExists w "/etc/openpanel/backups/backup.env" (home ++ "/backup.env".toList)
        copyIfExists w "/etc/openpanel/mysql/phpmyadmin/pma.php" (home ++ "/pma.php".toList)
        let _ ← runCmdSilent w "cp" ["-r", "/etc/openpanel/php/ini", home ++ "/php.ini".toList]
        emit (.writeFile (home ++ "/my.cnf".toList))
        return c

/-- `(c *Config) runDocker`. -/
def runDocker (w : World) (c : Config) : Proc Config := do
  let c ← assignPorts w c
  materialize w c

/-- `(c *Config) reloadUserQuotas`. -/
def reloadUserQuotas (w : World) : Proc Unit := do
  let _ ← runCmdSilent w "quotacheck" ["-avm"]
  emit (.mkdirAll "/etc/openpanel/openpanel/core/users/")
  let _ ← runCmd w "bash" ["-c", "repquota -u / > /etc/openpanel/openpanel/core/users/repquota"]
  return ()

/-- `generatePassword`: twelve characters of the 62-letter alphabet. -/
def generatePassword (w : World) : Str :=
  (List.range 12).map (fun i =>
    ("abcdefghijklmnopqrstuvwxyzABCDEFGHIJKLMNOPQRSTUVWXYZ0123456789".toList).getD
      (w.randomIndices.getD i 0 % 62) 'a')

/-- The Python script of `generateUserPasswordHash`. -/
def hashScript (password : Str) : Str :=
  "from werkzeug.security import generate_password_hash; print(generate_password_hash('".toList
    ++ password ++ "'))".toList

/-- The interpreter `generateUserPasswordHash` runs: the one of the admin
virtual environment when it exists. -/
def pythonPath (venv : Bool) : Str :=
  if venv then "/usr/local/admin/venv/bin/python3" else "python3"

/-- `(c *Config) generateUserPasswordHash`. -/
def generateUserPasswordHash (w : World) (c : Config) : Proc Config := do
  let c : Config :=
    if c.Password = "generate".toList then { c with Password := generatePassword w } else c
  let venv ← ask (fun tr => w.fileExists tr "/usr/local/admin/venv/bin/python3")
  let r ← runCmd w (pythonPath venv) ["-c", hashScript c.Password]
  if r.2 || r.1 = [] then osExit 1
  else return { c with HashedPassword := trimSpace r.1 }

/-- `(c *Config) copySkeletonFiles`. -/
def copySkeletonFiles (w : World) (c : Config) : Proc Unit := do
  let dst : Str := coreUserDir c.Username ++ "/".toList
  emit (.removeAll "/etc/openpanel/skeleton/domains")
  let _ ← runCmdSilent w "cp" ["-r", "/etc/openpanel/skeleton/", dst]
  if c.NodeIPAddress ≠ [] then emit (.writeFile (dst ++ "ip.json".toList))
  emit (.start "opencli" ["php-available_versions", c.Username])

/-- `getEnvValue`. -/
def getEnvValue (w : World) (envFile key : Str) : Proc Str := do
  let v ← readConfigValue w envFile key
  return trimChars (trimSuffixChar '\r' v) ['"', '\'']

/-- The regular expression `^\d+\.\d+$` of `MatchString`. -/
def matchVersion (s : Str) : Bool :=
  let a := s.takeWhile isAsciiDigit
  match s.dropWhile isAsciiDigit with
  | '.' :: b => !a.isEmpty && !b.isEmpty && b.all isAsciiDigit
  | _ => false

/-- The images `downloadImages` pulls for the values read from the `.env` file. -/
def imagesToPull (phpVersion sqlType wsType : Str) : List Str :=
  let phpImage : Str :=
    if phpVersion ≠ [] ∧ matchVersion phpVersion then "php-fpm-".toList ++ phpVersion else []
  let sql : Str :=
    if sqlType ≠ [] ∧ ¬ (sqlType = "mysql".toList ∨ sqlType = "mariadb".toList) then []
    else sqlType
  let ws : Str :=
    if wsType ≠ [] ∧ ¬ (["nginx".toList, "apache".toList, "openresty".toList,
      "openlitespeed".toList, "litespeed".toList].contains wsType) then []
    else wsType
  (if ws ≠ [] then [ws] else []) ++ (if sql ≠ [] then [sql] else []) ++
    (if phpImage ≠ [] then [phpImage] else [])

/-- `(c *Config) downloadImages`. -/
def downloadImages (w : World) (c : Config) : Proc Unit := do
  if c.SkipImagePull then return ()
  else
    let envFile := envFileOf c.Username
    let ex ← ask (fun tr => w.fileExists tr envFile)
    if !ex then return ()
    else
      let phpVersion ← getEnvValue w envFile "DEFAULT_PHP_VERSION"
      let sqlType ← getEnvValue w envFile "MYSQL_TYPE"
      let wsType ← getEnvValue w envFile "WEB_SERVER"
      let images := imagesToPull phpVersion sqlType wsType
      if images = [] then return ()
      else
        emit (.appendFile "nohup.out")
        emit (.appendFile "nohup.err")
        emit (.start "docker"
          ((["--context=".toList ++ c.Username, "compose", "pull"] : List Str) ++ images))

/-- Go `strings.Contains`. -/
def containsSubstr (s sub : Str) : Bool := s.tails.any (fun t => sub.isPrefixOf t)

/-- `(c *Config) startPanelService`. -/
def startPanelService (w : World) : Proc Unit := do
  let r ← runCmd w "docker" ["--context=default", "compose", "-f", "/root/docker-compose.yml",
    "ps", "--services", "--filter", "status=running"]
  if containsSubstr r.1 "openpanel" then return ()
  else
    emit (.appendFile "nohup.out")
    emit (.appendFile "nohup.err")
    emit (.start "bash" ["-c", "cd /root && docker compose up -d openpanel"])

/-- The `INSERT` statement of `saveUserToDB`. -/
def insertUserStatement (c : Config) : Str :=
  if c.Reseller ≠ [] then
    "INSERT INTO users (username, password, owner, email, plan_id, server) VALUES ('".toList ++
      c.Username ++ "', '".toList ++ c.HashedPassword ++ "', '".toList ++ c.Reseller ++
      "', '".toList ++ c.Email ++ "', '".toList ++ c.PlanID ++ "', '".toList ++ c.Username ++
      "');".toList
  else
    "INSERT INTO users (username, password, email, plan_id, server) VALUES ('".toList ++
      c.Username ++ "', '".toList ++ c.HashedPassword ++ "', '".toList ++ c.Email ++
      "', '".toList ++ c.PlanID ++ "', '".toList ++ c.Username ++ "');".toList

/-- `(c *Config) saveUserToDB`. -/
def saveUserToDB (w : World) (c : Config) : Proc Unit := do
  let r ← mysqlQuery w (insertUserStatement c)
  if r.2 then hardCleanup w c else return ()

/-- `(c *Config) updateAccountsForReseller`. -/
def updateAccountsForReseller (w : World) (c : Config) : Proc Unit := do
  if c.Reseller = [] then return ()
  else
    let r ← mysqlQuery w
      ("SELECT COUNT(*) FROM users WHERE owner='".toList ++ c.Reseller ++ "'".toList)
    if r.2 then return ()
    else
      let _ ← runCmdSilent w "bash" ["-c", jqSetCurrentAccounts w (trimSpace r.1) c.Reseller]
      return ()

/-- `(c *Config) collectStats`. -/
def collectStats (c : Config) : Proc Unit :=
  emit (.writeFile (coreUserDir c.Username ++ "/docker_usage.txt".toList))

/-- The regular expression `^[a-zA-Z0-9.\-]+$` of `MatchString`. -/
def matchDomainName (s : Str) : Bool := !s.isEmpty && s.all isDomainChar

/-- `(c *Config) sendEmailToNewUser`. -/
def sendEmailToNewUser (w : World) (c : Config) : Proc Unit := do
  if !c.SendEmail then return ()
  else if !isValidEmail c.Email then return ()
  else
    let token ← liftOutcome (randomBase64 (w.randomBytes 3 64) 64)
    let _ ← runCmdSilent w "bash" ["-c",
      "sed -i \"s|^mail_security_token=.*$|mail_security_token=".toList ++ token ++ "|\" ".toList
        ++ panelConfigFile]
    let d ← runCmd w "opencli" ["domain"]
    let domain := trimSpace d.1
    let le ← ask (fun tr => w.fileExists tr
      ("/etc/openpanel/caddy/ssl/acme-v02.api.letsencrypt.org-directory/".toList ++ domain ++
        "/".toList ++ domain ++ ".key".toList))
    let custom ← ask (fun tr => w.fileExists tr
      ("/etc/openpanel/caddy/ssl/custom/".toList ++ domain ++ "/".toList ++ domain ++
        ".key".toList))
    let protocol : Str := if matchDomainName domain && (le || custom) then "https" else "http"
    let p ← runCmd w "opencli" ["port"]
    let loginURL := protocol ++ "://".toList ++ domain ++ ":".toList ++ trimSpace p.1 ++
      "/login".toList
    let _ ← runCmd w "curl" ["-4", "-k", "-X", "POST",
      protocol ++ "://".toList ++ domain ++ ":2087/send_email".toList,
      "-F", "transient=".toList ++ token,
      "-F", "recipient=".toList ++ c.Email,
      "-F", "subject=New OpenPanel account information",
      "-F", "body=OpenPanel URL: ".toList ++ loginURL ++ " | username: ".toList ++ c.Username ++
        "  | password: ".toList ++ c.Password,
      "--max-time", "15"]
    return ()

/-- `(c *Config) permissionsDo`. -/
def permissionsDo (w : World) (c : Config) : Proc Unit := do
  let _ ← runCmdSilent w "chown" ["-R", c.Username ++ ":".toList ++ c.Username,
    "/home/".toList ++ c.Username ++ "/".toList]
  return ()

/-- Lines 111 to 134 of `main`: the argument count, the initial `Config`, flags,
lock and the validations before the plan is resolved. -/
def validateAndLock (w : World) (args : List Str) : Proc Config := do
  if args.length < 4 ∨ args.length > 11 then osExit 1
  else
    let c : Config :=
      { Username := w.toLower (args.getD 0 []), Password := args.getD 1 [],
        Email := args.getD 2 [], PlanName := args.getD 3 [] }
    let c ← checkEnterprise w c
    let c := parseFlags c (args.drop 4)
    setupLock w
    let c ← getHostnameOfMaster w c
    checkUsernameIsValidStep w c
    validatePasswordInLists w c.Password
    let c ← checkIfDefaultSlaveServerIsSet w c
    let c ← getSlaveIfSet w c
    getExistingUsersCount w c
    return c

/-- Lines 111 to 132 of `main`: the steps of `validateAndLock` before
`getExistingUsersCount`. -/
def validateBeforeCount (w : World) (args : List Str) : Proc Config := do
  if args.length < 4 ∨ args.length > 11 then osExit 1
  else
    let c : Config :=
      { Username := w.toLower (args.getD 0 []), Password := args.getD 1 [],
        Email := args.getD 2 [], PlanName := args.getD 3 [] }
    let c ← checkEnterprise w c
    let c := parseFlags c (args.drop 4)
    setupLock w
    let c ← getHostnameOfMaster w c
    checkUsernameIsValidStep w c
    validatePasswordInLists w c.Password
    let c ← checkIfDefaultSlaveServerIsSet w c
    getSlaveIfSet w c

/-- Lines 139 to 160 of `main`: from the creation of the account to `os.Exit(0)`. -/
def provision (w : World) (c : Config) : Proc Unit := do
  let c ← createUserSetQuotaAndPassword w c
  sshfsMounts w c
  setupSSHKey w c
  installDockerAndAddUser w c
  createVolume w c
  dockerRootless w c
  dockerCompose w c
  createContext w c
  testComposeCommandForUser w c
  let c ← getPHPVersion w c
  let c ← runDocker w c
  reloadUserQuotas w
  let c ← generateUserPasswordHash w c
  copySkeletonFiles w c
  downloadImages w c
  startPanelService w
  saveUserToDB w c
  updateAccountsForReseller w c
  collectStats c
  sendEmailToNewUser w c
  permissionsDo w c
  osExit 0

/-- `main` of `user/add.go`. -/
def main (w : World) (args : List Str) : Proc Unit := do
  let c ← validateAndLock w args
  let c ← getPlanInfoAndCheckRequirements w c
  let c ← checkIfReseller w c
  validateSSHLogin w c
  provision w c

/-- The events that create an OS account (locally or on the node), set a
quota, or insert a row into a table of the database. -/
def isAccountEvent : Event → Bool
  | .cmd name args =>
    name == "useradd".toList || name == "setquota".toList ||
      (name == "ssh".toList && startsWith (args.getLast?.getD []) "useradd")
  | .sql statement => startsWith statement "INSERT"
  | _ => false

/-- Every event a part of the process adds to the trace satisfies `P`. -/
def EmitsOnly {α : Type} (P : Event → Prop) (x : Proc α) : Prop :=
  ∀ tr : List Event, (∀ e ∈ tr, P e) → ∀ e ∈ (x tr).trace, P e

/-- A sample environment for evaluating the process: community edition, no
configuration files, a local target reporting 4 cores and 8 GB, two existing
users, the given plan row, and `id -u` failing when `idFails` is set. Every
other command succeeds with empty output. -/
def sampleWorld (planRow : Str) (idFails : Bool) : World where
  equalFold := asciiEqualFold
  toLower := fun s => s.map Char.toLower
  quote := fun s => s
  parseIP := fun _ => false
  sql := fun _ q =>
    if startsWith q "SELECT cpu" then (planRow, false)
    else if q = "SELECT COUNT(*) FROM users".toList then ("2\n".toList, false)
    else ("0\n".toList, false)
  cmd := fun _ name _ =>
    if name = "nproc".toList then ("4\n".toList, false)
    else if name = "bash".toList then ("8\n".toList, false)
    else if name = "id".toList then ([], idFails)
    else ([], false)
  fileExists := fun _ _ => false
  readFile := fun _ _ => none
  readLines := fun _ _ => none
  hostname := fun _ => some "panel".toList
  lockOpenFails := false
  flockFails := false
  randomBytes := fun _ _ => []
  randomIndices := []
  getenv := fun _ => []
  modeIsNot600 := fun _ _ => false

/-- The arguments `alice secret123 alice@example.com starter`. -/
def sampleArgs : List Str :=
  ["alice".toList, "secret123".toList, "alice@example.com".toList, "starter".toList]

/-- The sample environment on an installation with a license key
(`key=ENT-1` in the panel configuration) where the users table already has a
row with the requested username. -/
def enterpriseWorld : World :=
  { sampleWorld "1 1g 10 GB 100000 100 1".toList true with
    readLines := fun _ file =>
      if file = panelConfigFile then some ["key=ENT-1".toList] else none
    sql := fun _ q =>
      if startsWith q "SELECT cpu" then ("1 1g 10 GB 100000 100 1".toList, false)
      else ("1\n".toList, false) }

/-- The four positional arguments followed by the eight documented flags. -/
def allFlagsArgs : List Str :=
  sampleArgs ++ ["--send-email".toList, "--debug".toList, "--skip-images".toList,
    "--reseller=acme".toList, "--server=10.0.0.2".toList, "--key=/root/.ssh/id_rsa".toList,
    "--webserver=nginx".toList, "--sql=mysql".toList]

/-- The configuration `assignPorts` hands to the rest of `runDocker` when it is
called with trace `tr`. -/
def withPorts (w : World) (c : Config) (tr : List Event) : Config :=
  let q : Str := "SELECT server FROM users ORDER BY id DESC LIMIT 1".toList
  let ports := findAvailablePorts (trimSpace (w.sql tr q).1) (w.fileExists (tr ++ [.sql q]))
    (fun p => (w.readFile (tr ++ [.sql q]) p).getD [])
  { c with Ports := portBindings c.NodeIPAddress ports }

/-- The sample environment with the compose template in place. -/
def templateWorld : World :=
  { sampleWorld "1 1g 10 GB 100000 100 1".toList false with
    fileExists := fun _ path => path = composeTemplate }

/-- A configuration as `runDocker` receives it for `alice`, complete. -/
def aliceConfig : Config :=
  { Username := "alice".toList, Password := "secret123".toList,
    Email := "alice@example.com".toList, PlanName := "starter".toList, UserID := "1001".toList,
    CPU := "1".toList, RAM := "1g".toList, DiskLimit := 10, Inodes := 100000,
    Bandwidth := "100".toList, PlanID := "1".toList, DefaultPHPVersion := "8.4".toList }

/-- The configuration with the `Email` field replaced. -/
def setEmail (e : Str) (c : Config) : Config := { c with Email := e }

/-- The result with a function applied to the value returned, if any. -/
def Res.map {α β : Type} (f : α → β) (r : Res α) : Res β :=
  match r with
  | ⟨.ok a, tr⟩ => ⟨.ok (f a), tr⟩
  | ⟨.exit code, tr⟩ => ⟨.exit code, tr⟩
  | ⟨.panic, tr⟩ => ⟨.panic, tr⟩

/-- Lines 111 to 138 of `main`: every step before `createUserSetQuotaAndPassword`. -/
def preflight (w : World) (args : List Str) : Proc Config := do
  let c ← validateAndLock w args
  let c ← getPlanInfoAndCheckRequirements w c
  let c ← checkIfReseller w c
  validateSSHLogin w c
  return c

/-- An environment in which every step of the provisioning succeeds: every
file exists, every command succeeds, `id -u` answers 1001. -/
def happyWorld : World :=
  { sampleWorld "1 1g 10 GB 100000 100 1".toList false with
    fileExists := fun _ _ => true
    cmd := fun _ name _ =>
      if name = "nproc".toList then ("4\n".toList, false)
      else if name = "bash".toList then ("8\n".toList, false)
      else if name = "id".toList then ("1001\n".toList, false)
      else ("ok".toList, false) }

/-! ## The text of the `.env` file (`runDocker`, lines 1378 to 1439) -/

/-- The regular expressions `runDocker` gives to `ReplaceAllString`. -/
inductive EnvPattern where
  /-- The pattern `KEY="[^"]*"`, with `(?m)^` in front when `anchored`. -/
  | quoted (anchored : Bool) (key : Str)
  /-- A literal text, with `(?m)^` in front when `anchored`. -/
  | literal (anchored : Bool) (text : Str)
  /-- The pattern `KEY[^...]*`: the key and every character up to the first one of `stops`. -/
  | upTo (key : Str) (stops : List Char)
  deriving DecidableEq, Repr

/-- Whether the pattern starts with `(?m)^`. -/
def EnvPattern.anchored : EnvPattern → Bool
  | .quoted a _ => a
  | .literal a _ => a
  | .upTo _ _ => false

/-- The length of the match of the pattern that starts at the first character
of `s`, if there is one (the `(?m)^` is left to the caller). -/
def EnvPattern.matchAt (p : EnvPattern) (s : Str) : Option Nat :=
  match p with
  | .quoted _ key =>
    if startsWith s (key ++ "=\"".toList) then
      let rest := s.drop (key.length + 2)
      let body := rest.takeWhile (fun c => c != '"')
      if body.length < rest.length then some (key.length + 2 + body.length + 1) else none
    else none
  | .literal _ text => if startsWith s text then some text.length else none
  | .upTo key stops =>
    if startsWith s key then
      some (key.length + ((s.drop key.length).takeWhile (fun c => !stops.contains c)).length)
    else none

/-- The scan of `ReplaceAllString`: `skip` characters are still part of the
last match, `atLineStart` says whether the position is the start of the text or
follows a line feed. The replacement text is inserted as it is, which is what
Go does when it has no `$`. -/
def replaceAllFrom (p : EnvPattern) (repl : Str) : Str → Nat → Bool → Str
  | [], _, _ => []
  | c :: cs, skip + 1, _ => replaceAllFrom p repl cs skip (c == '\n')
  | c :: cs, 0, atLineStart =>
    if !p.anchored || atLineStart then
      match p.matchAt (c :: cs) with
      | some n => repl ++ replaceAllFrom p repl cs (n - 1) (c == '\n')
      | none => c :: replaceAllFrom p repl cs 0 (c == '\n')
    else c :: replaceAllFrom p repl cs 0 (c == '\n')

/-- Go `regexp.MustCompile(p).ReplaceAllString(s, repl)` for the patterns of
`runDocker` (none of them matches the empty text). -/
def replaceAllString (p : EnvPattern) (repl : Str) (s : Str) : Str :=
  replaceAllFrom p repl s 0 true

/-- The map `replacements` of `runDocker`, in the order of the source text. -/
def envReplacements (c : Config) (ports : List Int) (postgresPassword mysqlRootPassword
    pgAdminPassword : Str) : List (EnvPattern × Str) :=
  let q := fun (key value : Str) => key ++ "=\"".toList ++ value ++ "\"".toList
  [ (.quoted false "USERNAME", q "USERNAME" c.Username),
    (.quoted false "USER_ID", q "USER_ID" c.UserID),
    (.quoted false "CONTEXT", q "CONTEXT" c.Username),
    (.quoted false "TOTAL_CPU", q "TOTAL_CPU" c.CPU),
    (.quoted false "TOTAL_RAM", q "TOTAL_RAM" c.RAM),
    (.quoted true "HTTP_PORT", q "HTTP_PORT" (c.Ports.getD 4 [])),
    (.quoted false "HTTPS_PORT", q "HTTPS_PORT" (c.Ports.getD 5 [])),
    (.quoted false "PGADMIN_PORT", q "PGADMIN_PORT" (c.Ports.getD 0 [])),
    (.quoted false "POSTGRES_PORT", q "POSTGRES_PORT" ("127.0.0.1:".toList ++ c.Ports.getD 2 [])),
    (.quoted false "PMA_PORT", q "PMA_PORT" (c.Ports.getD 3 [])),
    (.literal false "\x7bPMA_PORT\x7d", itoa (ports.getD 3 0)),
    (.quoted false "POSTGRES_PASSWORD", q "POSTGRES_PASSWORD" postgresPassword),
    (.upTo "PGADMIN_PW=" ['\n', '"'], "PGADMIN_PW=".toList ++ pgAdminPassword),
    (.quoted false "OPENSEARCH_INITIAL_ADMIN_PASSWORD",
      q "OPENSEARCH_INITIAL_ADMIN_PASSWORD" pgAdminPassword),
    (.quoted false "MYSQL_PORT", q "MYSQL_PORT" ("127.0.0.1:".toList ++ c.Ports.getD 1 [])),
    (.quoted false "DEFAULT_PHP_VERSION", q "DEFAULT_PHP_VERSION" c.DefaultPHPVersion),
    (.quoted false "MYSQL_ROOT_PASSWORD", q "MYSQL_ROOT_PASSWORD" mysqlRootPassword),
    (.quoted false "PROXY_HTTP_PORT", "#".toList ++ q "PROXY_HTTP_PORT" (c.Ports.getD 6 [])) ]

/-- The loop `for pattern, replacement := range replacements`. Go visits the
entries of a map in an unspecified order: `order` lists the indices of the
entries in the order of the visit. -/
def applyReplacements (rs : List (EnvPattern × Str)) (order : List Nat) (env : Str) : Str :=
  order.foldl (fun env i =>
    match rs.get? i with
    | some r => replaceAllString r.1 r.2 env
    | none => env) env

/-- The regular expression `^varnish\+([a-zA-Z]+)$` of `FindStringSubmatch`:
the submatch `m[1]`, if the text matches. -/
def matchVarnish (webserver : Str) : Option Str :=
  if startsWith webserver "varnish+" then
    let ws := webserver.drop 8
    if !ws.isEmpty && ws.all isAsciiLetter then some ws else none
  else none

/-- The map `validWS` of `runDocker`. -/
def validWS (webserver : Str) : Bool :=
  webserver = "nginx".toList || webserver = "apache".toList || webserver = "openresty".toList ||
    webserver = "openlitespeed".toList || webserver = "litespeed".toList

/-- The `Webserver` section of `runDocker` (lines 1414 to 1432). -/
def webserverSection (webserver : Str) (env : Str) : Str :=
  if webserver ≠ [] then
    match matchVarnish webserver with
    | some ws =>
      let env := replaceAllString (.quoted false "WEB_SERVER")
        ("WEB_SERVER=\"".toList ++ ws ++ "\"".toList) env
      replaceAllString (.literal true "#PROXY_HTTP_PORT") "PROXY_HTTP_PORT" env
    | none =>
      if validWS webserver then
        replaceAllString (.quoted false "WEB_SERVER")
          ("WEB_SERVER=\"".toList ++ webserver ++ "\"".toList) env
      else env
  else env

/-- The `SQLType` section of `runDocker` (lines 1434 to 1442). -/
def sqlSection (sqlType : Str) (env : Str) : Str :=
  if sqlType ≠ [] then
    if sqlType = "mysql".toList ∨ sqlType = "mariadb".toList then
      replaceAllString (.quoted false "MYSQL_TYPE")
        ("MYSQL_TYPE=\"".toList ++ sqlType ++ "\"".toList) env
    else env
  else env

/-- The text `runDocker` writes to the `.env` file of the tenant, from the
text `env` of the template. -/
def renderEnv (order : List Nat) (c : Config) (ports : List Int) (postgresPassword
    mysqlRootPassword pgAdminPassword : Str) (env : Str) : Str :=
  let env := applyReplacements
    (envReplacements c ports postgresPassword mysqlRootPassword pgAdminPassword) order env
  let env :=
    if isValidEmail c.Email then
      replaceAllString (.upTo "PGADMIN_MAIL=" ['\n']) ("PGADMIN_MAIL=".toList ++ c.Email) env
    else env
  sqlSection c.SQLType (webserverSection c.Webserver env)

/-- A template of the `.env` file with the entries `runDocker` substitutes. -/
def sampleTemplate : Str :=
  ("USERNAME=\"\"\nUSER_ID=\"\"\nCONTEXT=\"\"\nTOTAL_CPU=\"\"\nTOTAL_RAM=\"\"\n" ++
   "HTTP_PORT=\"\"\nHTTPS_PORT=\"\"\nPGADMIN_PORT=\"\"\nPOSTGRES_PORT=\"\"\nPMA_PORT=\"\"\n" ++
   "MYSQL_PORT=\"\"\nPROXY_HTTP_PORT=\"\"\nDEFAULT_PHP_VERSION=\"\"\n" ++
   "POSTGRES_PASSWORD=\"\"\nMYSQL_ROOT_PASSWORD=\"\"\nWEB_SERVER=\"nginx\"\nMYSQL_TYPE=\"mysql\"\n").toList

/-- The configuration of `alice` when `runDocker` writes the `.env` file: the
first tenant of the server, with the block 32769, ..., 32775. -/
def aliceRendered : Config :=
  { aliceConfig with
    Ports := portBindings [] [32769, 32770, 32771, 32772, 32773, 32774, 32775] }

/-! ## Plan change (`user/change_plan.go`) -/

namespace ChangePlan

/-- `Config` of `user/change_plan.go`. -/
structure Config where
  ContainerName : Str := []
  NewPlanName : Str := []
  Debug : Bool := false
  CurrentPlanID : Str := []
  CurrentPlanName : Str := []
  Server : Str := []
  NewPlanID : Str := []
  NCPU : Int := 0
  NRAM : Str := []
  NRAMNum : Int := 0
  NDiskLimit : Int := 0
  NInodes : Int := 0
  NBandwidth : Str := []
  StorageBlocks : Int := 0
  OCPU : Str := []
  ORAM : Str := []
  MaxCPU : Int := 0
  MaxRAM : Int := 0
  SuccessCount : Int := 0
  FailureCount : Int := 0
  WriteFailureCount : Int := 0
  ComposeFile : Str := []
  deriving DecidableEq, Repr

/-- `fmt.Print` of a text, to standard output or standard error. -/
def say (text : Str) : Proc Unit := emit (.print text)

/-- `readComposeValue`, given the result of `os.ReadFile(composeFile)`. -/
def readComposeValue (data : Option Str) (key : Str) : Str :=
  match data with
  | none => []
  | some d =>
    match (splitOnChar '\n' d).find? (fun line => startsWith line (key ++ "=".toList)) with
    | some line => trimPrefixStr line (key ++ "=".toList)
    | none => []

/-- `(c *Config) getCurrentPlanID`. -/
def getCurrentPlanID (w : World) (c : Config) : Proc Config := do
  let r ← mysqlQuery w
    ("SELECT plan_id, server FROM users WHERE username = '".toList ++ c.ContainerName ++ "'".toList)
  if r.2 ∨ r.1 = [] then return c
  else
    let fs := fields r.1
    let c : Config := if fs.length ≥ 1 then { c with CurrentPlanID := fs.getD 0 [] } else c
    let c : Config := if fs.length ≥ 2 then { c with Server := fs.getD 1 [] } else c
    if c.Server = [] ∨ c.Server = "default".toList then return { c with Server := c.ContainerName }
    else return c

/-- `(c *Config) getCurrentPlanName`. -/
def getCurrentPlanName (w : World) (c : Config) : Proc Config := do
  let r ← mysqlQuery w ("SELECT name FROM plans WHERE id = '".toList ++ c.CurrentPlanID ++ "'".toList)
  return { c with CurrentPlanName := trimSpace r.1 }

/-- `(c *Config) getNewPlanID`. -/
def getNewPlanID (w : World) (c : Config) : Proc Config := do
  let r ← mysqlQuery w ("SELECT id FROM plans WHERE name = '".toList ++ c.NewPlanName ++ "'".toList)
  return { c with NewPlanID := trimSpace r.1 }

/-- `(c *Config) planLimitsExist`. -/
def planLimitsExist (w : World) (planID : Str) : Proc Bool := do
  let r ← mysqlQuery w
    ("SELECT cpu, ram, disk_limit, inodes_limit, bandwidth FROM plans WHERE id = '".toList ++
      planID ++ "'".toList)
  return !r.2 && decide (trimSpace r.1 ≠ [])

/-- `(c *Config) getPlanLimit`. -/
def getPlanLimit (w : World) (planID resource : Str) : Proc Str := do
  let r ← mysqlQuery w
    ("SELECT ".toList ++ resource ++ " FROM plans WHERE id = '".toList ++ planID ++ "'".toList)
  return trimSpace r.1

/-- `(c *Config) loadNewPlanLimits`. -/
def loadNewPlanLimits (w : World) (c : Config) : Proc Config := do
  let cpu ← getPlanLimit w c.NewPlanID "cpu"
  let c : Config := { c with NCPU := atoi cpu }
  let ram ← getPlanLimit w c.NewPlanID "ram"
  let c : Config := { c with NRAM := ram, NRAMNum := atoi (trimSuffixChar 'g' ram) }
  let disk ← getPlanLimit w c.NewPlanID "disk_limit"
  let diskStr := fields disk
  let c : Config := if diskStr.length > 0 then { c with NDiskLimit := atoi (diskStr.getD 0 []) } else c
  let c : Config := { c with StorageBlocks := storageBlocks c.NDiskLimit }
  let inodes ← getPlanLimit w c.NewPlanID "inodes_limit"
  let c : Config := { c with NInodes := atoi inodes }
  let bandwidth ← getPlanLimit w c.NewPlanID "bandwidth"
  return { c with NBandwidth := bandwidth }

/-- `(c *Config) loadServerCaps`. -/
def loadServerCaps (w : World) (c : Config) : Proc Config := do
  let cores ← runCmd w "nproc" []
  let c : Config := { c with MaxCPU := atoi (trimSpace cores.1) }
  let mem ← runCmd w "bash" ["-c", "free -g | awk '/^Mem/ \x7bprint $2\x7d'"]
  return { c with MaxRAM := atoi (trimSpace mem.1) }

/-- `(c *Config) loadOldLimits`. -/
def loadOldLimits (w : World) (c : Config) : Proc Config := do
  let data ← ask (fun tr => w.readFile tr c.ComposeFile)
  let c : Config := { c with OCPU := readComposeValue data "cpu" }
  let c ← (if c.OCPU = [] then do
      say ("Warning: Key 'cpu' not found in ".toList ++ c.ComposeFile ++ ".\n".toList)
      let v ← getPlanLimit w c.CurrentPlanID "cpu"
      return { c with OCPU := v }
    else return c : Proc Config)
  let data ← ask (fun tr => w.readFile tr c.ComposeFile)
  let c : Config := { c with ORAM := readComposeValue data "ram" }
  if c.ORAM = [] then
    say ("Warning: Key 'ram' not found in ".toList ++ c.ComposeFile ++ ".\n".toList)
    let v ← getPlanLimit w c.CurrentPlanID "ram"
    return { c with ORAM := v }
  else return c

end ChangePlan

namespace ChangePlan

/-- `(c *Config) updateContainerCPU`. -/
def updateContainerCPU (w : World) (c : Config) : Proc Config := do
  if c.NCPU > c.MaxCPU then
    say ("Error: New CPU value exceeds the server limit, not enough CPU cores - ".toList ++
      itoa c.NCPU ++ " > ".toList ++ itoa c.MaxCPU ++ ".\n".toList)
    osExit 1
  else
    if c.Debug then
      say ("Updating total CPU% limit from: ".toList ++ c.OCPU ++ " to ".toList ++ itoa c.NCPU ++
        "\n".toList)
    let r ← runCmd w "opencli" ["user-resources", c.ContainerName,
      "--update_cpu=".toList ++ itoa c.NCPU]
    if r.2 then
      say "[✘] Error setting total CPU limit for the user:\n"
      say ("Command used: opencli user-resources \"".toList ++ c.ContainerName ++
        "\" --update_cpu=\"".toList ++ itoa c.NCPU ++ "\"\n".toList)
      return { c with FailureCount := c.FailureCount + 1 }
    else
      say ("[✔] Total CPU limit (".toList ++ itoa c.NCPU ++
        ") changed successfully for container.\n".toList)
      return { c with SuccessCount := c.SuccessCount + 1 }

/-- `(c *Config) updateContainerRAM`. -/
def updateContainerRAM (w : World) (c : Config) : Proc Config := do
  if c.NRAMNum > c.MaxRAM then
    say (("Warning: Ram limit not changed for the contianer -new value exceeds the server " ++
      "limit, not enough physical memory - ").toList ++ itoa c.NRAMNum ++ " > ".toList ++
      itoa c.MaxRAM ++ ".\n".toList)
    return c
  else
    if c.Debug then
      say ("Updating Memory limit from: ".toList ++ c.ORAM ++ " to ".toList ++ c.NRAM ++
        "\n".toList)
    let r ← runCmd w "opencli" ["user-resources", c.ContainerName,
      "--update_ram=".toList ++ c.NRAM]
    if r.2 then
      say "[✘] Error setting total RAM limit for user:\n"
      say ("Command used: opencli user-resources \"".toList ++ c.ContainerName ++
        "\" --update_ram=\"".toList ++ c.NRAM ++ "\"\n".toList)
      return { c with FailureCount := c.FailureCount + 1 }
    else
      say ("[✔] Total Memory limit ".toList ++ c.NRAM ++
        " changed successfully for user\n".toList)
      return { c with SuccessCount := c.SuccessCount + 1 }

/-- `(c *Config) updateDiskAndInodes`. -/
def updateDiskAndInodes (w : World) (c : Config) : Proc Config := do
  if c.Debug then
    say ("Changing disk limit from: (old) to ".toList ++ itoa c.NDiskLimit ++ " (".toList ++
      itoa c.StorageBlocks ++ ")\n".toList)
    say ("Changing inodes limit from: (old) to ".toList ++ itoa c.NInodes ++ "\n".toList)
  let r ← runCmd w "setquota" (updateDiskAndInodesArgs c.ContainerName c.StorageBlocks c.NInodes)
  let c ← (if r.2 then do
      say "[✘] Error setting disk and inodes limits for the user:\n"
      say ("Command used: setquota -u ".toList ++ c.ContainerName ++ " ".toList ++
        itoa c.StorageBlocks ++ " ".toList ++ itoa c.StorageBlocks ++ " ".toList ++
        itoa c.NInodes ++ " ".toList ++ itoa c.NInodes ++ " /\n".toList)
      return { c with FailureCount := c.FailureCount + 1 }
    else do
      say ("[✔] Disk usage limit: ".toList ++ itoa c.NDiskLimit ++ " and inodes limit: ".toList ++
        itoa c.NInodes ++ " applied successfully to the user.\n".toList)
      return { c with SuccessCount := c.SuccessCount + 1 } : Proc Config)
  let _ ← runCmdSilent w "quotacheck" ["-avm"]
  let _ ← runCmd w "bash" ["-c", "repquota -u / > /etc/openpanel/openpanel/core/users/repquota"]
  return c

/-- The script of `changePlanNameInDB`. -/
def updatePlanScript (w : World) (c : Config) : Str :=
  "source ".toList ++ dbConfigFile ++ " && mysql -D \"$mysql_database\" -N -B -e ".toList ++
    w.quote ("UPDATE users SET plan_id = ".toList ++ c.NewPlanID ++ " WHERE username = '".toList ++
      c.ContainerName ++ "';".toList)

/-- The line `changePlanNameInDB` prints after the `UPDATE`. -/
def planChangedReport (c : Config) : Str :=
  if c.FailureCount > 0 then
    "Plan changed successfuly for user ".toList ++ c.ContainerName ++ " from ".toList ++
      c.CurrentPlanName ++ " to ".toList ++ c.NewPlanName ++ " - (".toList ++
      itoa c.FailureCount ++ " warnings)\n".toList
  else
    "Plan changed successfuly for user ".toList ++ c.ContainerName ++ " from ".toList ++
      c.CurrentPlanName ++ " to ".toList ++ c.NewPlanName ++ "\n".toList

/-- `(c *Config) changePlanNameInDB`. -/
def changePlanNameInDB (w : World) (c : Config) : Proc Unit := do
  if c.Debug then
    say ("Changing plan name for user from '".toList ++ c.CurrentPlanName ++ "' to: '".toList ++
      c.NewPlanName ++ "'\n".toList)
  let r ← runCmd w "bash" ["-c", updatePlanScript w c]
  if r.2 then
    say "Error changing plan id in the database for user - is mysql service running?\n"
  else say (planChangedReport c)

/-- `(c *Config) dropRedisCache`. -/
def dropRedisCache : Proc Unit :=
  emit (.start "docker" ["--context=default", "exec", "openpanel_redis", "bash", "-c",
    "redis-cli --raw KEYS 'flask_cache_*' | xargs -r redis-cli DEL"])

/-- `(c *Config) tada`. -/
def tada (w : World) (c : Config) : Proc Unit := do
  if c.WriteFailureCount > 0 then
    say "\n"
    say ("Error changing ".toList ++ itoa c.WriteFailureCount ++ " values in file: ".toList ++
      c.ComposeFile ++ "\n".toList)
    if c.Debug then
      let data ← ask (fun tr => w.readFile tr c.ComposeFile)
      say "Current values:\n"
      say (data.getD [] ++ "\n".toList)

end ChangePlan

namespace ChangePlan

/-- Lines 93 to 139 of `main`: arguments, compose file, plan lookups and the
limits loaded into the configuration. -/
def load (w : World) (args : List Str) : Proc Config := do
  if args.length < 2 ∨ args.length > 3 then
    say "Usage: opencli user-change-plan <username> <new_plan_name>\n"
    osExit 1
  else
    let c : Config := { ContainerName := args.getD 0 [], NewPlanName := args.getD 1 [] }
    let c : Config := (args.drop 2).foldl
      (fun c a => if a = "--debug".toList then { c with Debug := true } else c) c
    let c : Config :=
      { c with ComposeFile := "/home/".toList ++ c.ContainerName ++ "/docker-compose.yml".toList }
    let ex ← ask (fun tr => w.fileExists tr c.ComposeFile)
    if !ex then
      say ("Fatal Error: ".toList ++ c.ComposeFile ++
        " does not exist - changing user limits will not be permanent.\n".toList)
      osExit 1
    else
      let c ← getCurrentPlanID w c
      let c ← getCurrentPlanName w c
      let c ← getNewPlanID w c
      if c.CurrentPlanID = [] then
        say ("Error: Container '".toList ++ c.ContainerName ++
          "' not found in the database.\n".toList)
        osExit 1
      else
        let cur ← planLimitsExist w c.CurrentPlanID
        if !cur then
          say ("Error: Unable to fetch limits for the current plan ('".toList ++
            c.CurrentPlanID ++ "').\n".toList)
          osExit 1
        else
          let new ← planLimitsExist w c.NewPlanID
          if !new then
            say ("Error: Unable to fetch limits for the new plan ('".toList ++ c.NewPlanID ++
              "').\n".toList)
            osExit 1
          else
            let c ← loadNewPlanLimits w c
            let c ← loadServerCaps w c
            loadOldLimits w c

/-- The three resource updates of the `MAIN` section of `main`. -/
def updates (w : World) (c : Config) : Proc Config := do
  let c ← updateContainerCPU w c
  let c ← updateContainerRAM w c
  updateDiskAndInodes w c

/-- Lines 141 to 150 of `main`: the `MAIN` section and `os.Exit(0)`. -/
def resize (w : World) (c : Config) : Proc Unit := do
  let c ← updates w c
  changePlanNameInDB w c
  dropRedisCache
  tada w c
  osExit 0

/-- `main` of `user/change_plan.go`. -/
def main (w : World) (args : List Str) : Proc Unit := do
  let c ← load w args
  resize w c

/-- The update commands of the `MAIN` section: `opencli user-resources` and `setquota`. -/
def isUpdateCommand : Event → Bool
  | .cmd name _ => name == "opencli".toList || name == "setquota".toList
  | _ => false

/-- The number of update commands among the events `rest` that returned an
error, each one asked of the environment with the events before it (`pre`
and the earlier events of `rest`). -/
def failedUpdates (w : World) : List Event → List Event → Int
  | _, [] => 0
  | pre, e :: rest =>
    (match e with
      | .cmd name args => if isUpdateCommand e && (w.cmd pre name args).2 then 1 else 0
      | _ => 0) + failedUpdates w (pre ++ [e]) rest

/-- An environment for the plan change of `alice` to plan 2 (2 CPUs, `2g`,
20 GB, 200000 inodes) on a server of 4 cores and 8 GB, in which the CPU update
fails and every other command succeeds. -/
def resizeWorld : World :=
  { sampleWorld [] false with
    fileExists := fun _ _ => true
    sql := fun _ q =>
      if startsWith q "SELECT plan_id" then ("1 alice".toList, false)
      else if startsWith q "SELECT name" then ("starter".toList, false)
      else if startsWith q "SELECT id" then ("2".toList, false)
      else if startsWith q "SELECT cpu," then ("2 2g 20 GB 200000 1000".toList, false)
      else if startsWith q "SELECT cpu" then ("2".toList, false)
      else if startsWith q "SELECT ram" then ("2g".toList, false)
      else if startsWith q "SELECT disk_limit" then ("20 GB".toList, false)
      else if startsWith q "SELECT inodes_limit" then ("200000".toList, false)
      else ("1000".toList, false)
    cmd := fun _ name args =>
      if name = "nproc".toList then ("4\n".toList, false)
      else if name = "opencli".toList then
        ([], args.getD 2 [] = "--update_cpu=2".toList)
      else if name = "bash".toList ∧ args.getD 1 [] = "free -g | awk '/^Mem/ \x7bprint $2\x7d'".toList
        then ("8\n".toList, false)
      else ([], false) }

end ChangePlan

namespace ChangePlan

/-- The configuration `load` returns in `resizeWorld` for `alice pro`. -/
def aliceLoaded : Config :=
  { ContainerName := "alice".toList, NewPlanName := "pro".toList, CurrentPlanID := "1".toList,
    CurrentPlanName := "starter".toList, Server := "alice".toList, NewPlanID := "2".toList,
    NCPU := 2, NRAM := "2g".toList, NRAMNum := 2, NDiskLimit := 20, NInodes := 200000,
    NBandwidth := "1000".toList, StorageBlocks := 20480000, OCPU := "2".toList,
    ORAM := "2g".toList, MaxCPU := 4, MaxRAM := 8,
    ComposeFile := "/home/alice/docker-compose.yml".toList }

/-- The trace of `load` in `resizeWorld` for `alice pro`. -/
def aliceLoadTrace : List Event :=
  [ .sql "SELECT plan_id, server FROM users WHERE username = 'alice'".toList,
    .sql "SELECT name FROM plans WHERE id = '1'".toList,
    .sql "SELECT id FROM plans WHERE name = 'pro'".toList,
    .sql "SELECT cpu, ram, disk_limit, inodes_limit, bandwidth FROM plans WHERE id = '1'".toList,
    .sql "SELECT cpu, ram, disk_limit, inodes_limit, bandwidth FROM plans WHERE id = '2'".toList,
    .sql "SELECT cpu FROM plans WHERE id = '2'".toList,
    .sql "SELECT ram FROM plans WHERE id = '2'".toList,
    .sql "SELECT disk_limit FROM plans WHERE id = '2'".toList,
    .sql "SELECT inodes_limit FROM plans WHERE id = '2'".toList,
    .sql "SELECT bandwidth FROM plans WHERE id = '2'".toList,
    .cmd "nproc".toList [],
    .cmd "bash".toList ["-c".toList, "free -g | awk '/^Mem/ \x7bprint $2\x7d'".toList],
    .print "Warning: Key 'cpu' not found in /home/alice/docker-compose.yml.\n".toList,
    .sql "SELECT cpu FROM plans WHERE id = '1'".toList,
    .print "Warning: Key 'ram' not found in /home/alice/docker-compose.yml.\n".toList,
    .sql "SELECT ram FROM plans WHERE id = '1'".toList ]

/-- The environment `resizeWorld` with a database that refuses the `UPDATE`
of the plan id; every update command succeeds. -/
def updateFailsWorld : World :=
  { resizeWorld with
    cmd := fun _ name args =>
      if name = "nproc".toList then ("4\n".toList, false)
      else if name = "bash".toList ∧ args.getD 1 [] = "free -g | awk '/^Mem/ \x7bprint $2\x7d'".toList
        then ("8\n".toList, false)
      else if name = "bash".toList ∧ startsWith (args.getD 1 []) "source " then
        ("ERROR 2002 (HY000)".toList, true)
      else ([], false) }

end ChangePlan

/-! ## Deprovisioning (`user/delete.go`) -/

/-- Run `f` on each element in turn: a `for ... range` loop. -/
def forEach {α : Type} (xs : List α) (f : α → Proc Unit) : Proc Unit :=
  match xs with
  | [] => pure ()
  | x :: rest => f x >>= fun _ => forEach rest f

/-- An `if` statement without `else`. -/
def doIf (p : Prop) [Decidable p] (x : Proc Unit) : Proc Unit := if p then x else pure ()

/-- Go `filepath.Join(dir, name)` for a clean `dir` and a `name` without
separators and dot elements (an empty `name` is ignored). -/
def joinPath (dir name : Str) : Str := if name = [] then dir else dir ++ "/".toList ++ name

/-- Go `strings.SplitN(s, sep, 2)` for a one-character separator. -/
def splitN2 (sep : Char) (s : Str) : List Str :=
  if s.contains sep then [s.takeWhile (fun c => c != sep), (s.dropWhile (fun c => c != sep)).drop 1]
  else [s]

/-- Go `strings.SplitN(s, sep, 3)` for a one-character separator. -/
def splitN3 (sep : Char) (s : Str) : List Str :=
  match splitN2 sep s with
  | [a, rest] => a :: splitN2 sep rest
  | parts => parts

namespace Delete

/-- `Config` of `user/delete.go`. -/
structure Config where
  ProvidedUsername : Str := []
  Username : Str := []
  SkipConfirmation : Bool := false
  DeleteAll : Bool := false
  UserID : Str := []
  Context : Str := []
  ContextFlag : Str := []
  NodeIPAddress : Str := []
  deriving DecidableEq, Repr

/-- `fmt.Print` of a text. -/
def say (text : Str) : Proc Unit := emit (.print text)

/-- `(c *Config) parseFlags`. -/
def parseFlags (c : Config) (args : List Str) : Config :=
  args.foldl (fun c arg =>
    if arg = "--all".toList then { c with DeleteAll := true }
    else if arg = "-y".toList then { c with SkipConfirmation := true }
    else { c with ProvidedUsername := arg }) c

/-- `(c *Config) confirmAction`. -/
def confirmAction (w : World) (c : Config) (username : Str) : Proc Unit := do
  if c.SkipConfirmation then return ()
  else
    say ("This will permanently delete user '".toList ++ username ++
      "' and all associated data. Confirm? [Y/n]: ".toList)
    let line ← ask w.stdinLine
    let response := w.toLower (trimSpace line)
    if response ≠ [] ∧ response ≠ "y".toList ∧ response ≠ "yes".toList then
      say ("Operation canceled for user '".toList ++ username ++ "'.\n".toList)
      osExit 0
    else return ()

/-- The query of `getUserInfo`. -/
def userInfoQuery (providedUsername : Str) : Str :=
  "\n\t\tSELECT id, server FROM users\n\t\tWHERE username='".toList ++ providedUsername ++
    "'\n\t\tUNION ALL\n\t\tSELECT id, server FROM users\n\t\tWHERE username LIKE 'SUSPENDED_%".toList
    ++ providedUsername ++ "'\n\t\tLIMIT 1;".toList

/-- The field `NodeIPAddress` that `getUserInfo` derives from the `server` column. -/
def nodeOfContext (context : Str) : Str :=
  if startsWith context "ssh://" then
    let sshHost := trimPrefixStr context "ssh://"
    match splitN2 '@' sshHost with
    | [_, host] => host
    | _ => sshHost
  else []

/-- `(c *Config) getUserInfo`. -/
def getUserInfo (w : World) (c : Config) : Proc Config := do
  let r ← mysqlQuery w (userInfoQuery c.ProvidedUsername)
  if r.2 ∨ trimSpace r.1 = [] then
    say ("ERROR: User '".toList ++ c.ProvidedUsername ++ "' not found in the database.\n".toList)
    osExit 1
  else
    let fs := fields r.1
    if fs.length < 2 then
      say ("ERROR: User '".toList ++ c.ProvidedUsername ++
        "' not found in the database.\n".toList)
      osExit 1
    else
      let context := fs.getD 1 []
      return { c with
        UserID := fs.getD 0 []
        Context := context
        ContextFlag := "--context ".toList ++ context
        NodeIPAddress := nodeOfContext context }

end Delete

namespace Delete

/-- `(c *Config) deleteVhostFiles`. -/
def deleteVhostFiles (w : World) (c : Config) : Proc Unit := do
  let r ← runCmd w "opencli" ["domains-user", c.Username]
  forEach (fields r.1) (fun domain =>
    emit (.remove ("/etc/openpanel/caddy/domains/".toList ++ domain ++ ".conf".toList)))
  let _ ← runCmdSilent w "docker" ["--context", "default", "exec", "caddy", "caddy", "reload",
    "--config", "/etc/caddy/Caddyfile"]
  return ()

/-- The part of `deleteFTPUsers` that reads `users.list` and deletes each
sub-account. -/
def deleteFTPAccounts (w : World) (usersList openpanelUsername : Str) : Proc Unit := do
  let ex ← ask (fun tr => w.fileExists tr usersList)
  if ex then
    say "Checking and removing user's FTP sub-accounts\n"
    let f ← ask (fun tr => w.readLines tr usersList)
    match f with
    | none => return ()
    | some lines =>
      forEach lines (fun line => do
        let ftpUser := (splitN3 '|' line).getD 0 []
        say ("Deleting FTP user: ".toList ++ ftpUser ++ "\n".toList)
        let _ ← runCmdSilent w "opencli" ["ftp-delete", ftpUser, openpanelUsername]
        return ())
  else return ()

/-- `(c *Config) deleteFTPUsers`. -/
def deleteFTPUsers (w : World) (openpanelUsername : Str) : Proc Unit := do
  let userDir := joinPath "/etc/openpanel/ftp/users" openpanelUsername
  let isDir ← ask (fun tr => w.dirExists tr userDir)
  if !isDir then return ()
  else
    deleteFTPAccounts w (joinPath userDir "users.list") openpanelUsername
    emit (.removeAll userDir)

/-- The text `sql.String()` of `deleteUserFromDatabase`, given the output of
the query for the domain ids. -/
def deleteStatements (userID openpanelUsername domainIDsOut : Str) : Str :=
  (if trimSpace domainIDsOut ≠ [] then
      "DELETE FROM sites WHERE domain_id IN (".toList ++
        ",".toList.intercalate (fields (trimSpace domainIDsOut)) ++ "); ".toList
    else []) ++
  "DELETE FROM domains WHERE user_id='".toList ++ userID ++ "'; ".toList ++
  "DELETE FROM active_sessions WHERE user_id='".toList ++ userID ++ "'; ".toList ++
  "DELETE FROM users WHERE username='".toList ++ openpanelUsername ++
    "' OR username LIKE 'SUSPENDED_%".toList ++ openpanelUsername ++ "';".toList

/-- `(c *Config) deleteUserFromDatabase`. -/
def deleteUserFromDatabase (w : World) (c : Config) (openpanelUsername : Str) : Proc Unit := do
  let r ← mysqlQuery w ("SELECT domain_id FROM domains WHERE user_id='".toList ++ c.UserID ++
    "';".toList)
  let _ ← mysqlQuery w (deleteStatements c.UserID openpanelUsername r.1)
  return ()

/-- The script `remoteScript` of `deleteAllUserFiles`. -/
def remoteScript (context : Str) : Str :=
  "\npkill -u ".toList ++ context ++ " -9 2>/dev/null || true\ndeluser --remove-home ".toList ++
    context ++ " 2>/dev/null || true\n[ -d /home/".toList ++ context ++
    " ] && rm -rf /home/".toList ++ context ++ "\n".toList

/-- `(c *Config) deleteAllUserFiles`. -/
def deleteAllUserFiles (w : World) (c : Config) : Proc Unit := do
  doIf (c.NodeIPAddress ≠ []) (do
    let _ ← runCmd w "ssh" ["root@".toList ++ c.NodeIPAddress, "bash", "-c",
      remoteScript c.Context]
    return ())
  let _ ← runCmdSilent w "pkill" ["-u", c.Context, "-9"]
  let _ ← runCmdSilent w "deluser" ["--remove-home", c.Context]
  let home ← ask (fun tr => w.dirExists tr ("/home/".toList ++ c.Context))
  doIf (home = true) (emit (.removeAll ("/home/".toList ++ c.Context)))
  let core ← ask (fun tr => w.dirExists tr (coreUserDir c.Context))
  doIf (core = true) (emit (.removeAll (coreUserDir c.Context)))

/-- `(c *Config) deleteContext`. -/
def deleteContext (w : World) (c : Config) : Proc Unit := do
  let _ ← runCmdSilent w "docker" ["context", "rm", c.Context]
  return ()

/-- The `jq` script of `refreshResellersData`. -/
def jqScript (w : World) (count jsonFile reseller : Str) : Str :=
  "jq '.current_accounts = ".toList ++ count ++ "' ".toList ++ w.quote jsonFile ++
    " > /tmp/".toList ++ reseller ++ "_config.json && mv /tmp/".toList ++ reseller ++
    "_config.json ".toList ++ w.quote jsonFile

/-- `(c *Config) refreshResellersData`. -/
def refreshResellersData (w : World) : Proc Unit := do
  let resellersDir : Str := "/etc/openpanel/openadmin/resellers"
  let isDir ← ask (fun tr => w.dirExists tr resellersDir)
  if !isDir then return ()
  else
    let entries ← ask (fun tr => w.readDir tr resellersDir)
    match entries with
    | none => return ()
    | some es =>
      forEach es (fun entry => do
        if entry.2 || !endsWith entry.1 ".json" then return ()
        else
          let reseller := entry.1.take (entry.1.length - 5)
          let jsonFile := joinPath resellersDir entry.1
          let r ← mysqlQuery w
            ("SELECT COUNT(*) FROM users WHERE owner='".toList ++ reseller ++ "';".toList)
          if r.2 then return ()
          else
            let _ ← runCmd w "bash" ["-c", jqScript w (trimSpace r.1) jsonFile reseller]
            return ())

/-- `(c *Config) reloadUserQuotas`. The file is opened with `O_CREATE` and
closed at once: it is created when missing and nothing is written. -/
def reloadUserQuotas (w : World) : Proc Unit := do
  emit (.mkdirAll "/etc/openpanel/openpanel/core/users")
  emit (.appendFile "/etc/openpanel/openpanel/core/users/repquota")
  let _ ← runCmdSilent w "quotacheck" ["-avm"]
  let _ ← runCmd w "bash" ["-c", "repquota -u / > /etc/openpanel/openpanel/core/users/repquota"]
  return ()

/-- The display name `c.Username` that `deleteUser` derives from its argument. -/
def displayName (providedUsername : Str) : Str :=
  if startsWith providedUsername "SUSPENDED_" then
    match splitN3 '_' providedUsername with
    | [_, _, name] => name
    | _ => trimPrefixStr providedUsername "SUSPENDED_"
  else providedUsername

/-- `(c *Config) deleteUser`. -/
def deleteUser (w : World) (c : Config) (providedUsername : Str) : Proc Config := do
  let c : Config := { c with ProvidedUsername := providedUsername,
                             Username := displayName providedUsername }
  confirmAction w c c.Username
  let c ← getUserInfo w c
  deleteVhostFiles w c
  deleteFTPUsers w providedUsername
  deleteUserFromDatabase w c providedUsername
  deleteAllUserFiles w c
  deleteContext w c
  refreshResellersData w
  reloadUserQuotas w
  say ("User ".toList ++ c.Username ++ " deleted successfully.\n".toList)
  return c

end Delete

namespace Delete

/-- One line of the loop that collects the usernames in `deleteAllUsers`: the
username the line contributes, if any. -/
def usernameOfLine (line : Str) : Option Str :=
  if containsSubstr line "SUSPENDED" then none
  else if containsSubstr line "username" then
    let parts := splitOnChar '"' line
    if parts.length ≥ 4 then
      let u := parts.getD 3 []
      if u ≠ [] then some u else none
    else none
  else none

/-- The slice `users` of `deleteAllUsers`, from the output of `opencli user-list --json`. -/
def extractUsernames (out : Str) : List Str := (splitOnChar '\n' out).filterMap usernameOfLine

/-- The loop `for i, user := range users` of `deleteAllUsers`, from index `i`. -/
def deleteEach (w : World) (total : Nat) : Config → Nat → List Str → Proc Config
  | c, _, [] => pure c
  | c, i, user :: rest => do
    say ("- ".toList ++ user ++ " (".toList ++ itoa (i + 1) ++ "/".toList ++ itoa total ++
      ")\n".toList)
    let c : Config := { c with UserID := [], Context := [], ContextFlag := [], NodeIPAddress := [] }
    let c ← deleteUser w c user
    say "------------------------------\n"
    deleteEach w total c (i + 1) rest

/-- `(c *Config) deleteAllUsers`. -/
def deleteAllUsers (w : World) (c : Config) : Proc Unit := do
  let r ← runCmd w "opencli" ["user-list", "--json"]
  if r.2 ∨ trimSpace r.1 = [] then
    say "No users found in the database.\n"
    osExit 1
  else
    let users := extractUsernames r.1
    if users.length = 0 then
      say "No users found in the database.\n"
      osExit 1
    else
      let _ ← deleteEach w users.length c 0 users
      say "DONE.\n"
      say (itoa users.length ++ " users have been deleted.\n".toList)

/-- `main` of `user/delete.go`. -/
def main (w : World) (args : List Str) : Proc Unit := do
  if args.length < 1 ∨ args.length > 3 then
    say "Usage: opencli user-delete <username> [-y] [--all]\n"
    osExit 1
  else
    let c := parseFlags {} args
    if c.DeleteAll then deleteAllUsers w c
    else if c.ProvidedUsername = [] then
      say "Error: Username is required unless --all is specified.\n"
      osExit 1
    else
      let _ ← deleteUser w c c.ProvidedUsername
      return ()

/-- The step of `deleteUser` an action belongs to: 1 the lookup of the user,
2 the vhost files, 3 the FTP sub-accounts, 4 the database rows, 5 the files
and OS accounts, 6 the docker context, 7 the reseller counts, 8 the quotas.
Printed texts have no step. -/
def stageOf : Event → Option Nat
  | .print _ => none
  | .sql q =>
    if startsWith q "\n\t\tSELECT id, server" then some 1
    else if startsWith q "SELECT COUNT(*) FROM users WHERE owner" then some 7
    else some 4
  | .remove _ => some 2
  | .removeAll path => if startsWith path "/etc/openpanel/ftp/users" then some 3 else some 5
  | .cmd name args =>
    if name = "opencli".toList then
      (if args.head? = some "domains-user".toList then some 2 else some 3)
    else if name = "docker".toList then
      (if args.head? = some "context".toList then some 6 else some 2)
    else if name = "bash".toList then
      (if startsWith (args.getD 1 []) "jq " then some 7 else some 8)
    else if name = "quotacheck".toList then some 8
    else some 5
  | .mkdirAll _ => some 8
  | .appendFile _ => some 8
  | _ => some 0

/-- The statement is the one that deletes the rows of `openpanelUsername`
from the users table. -/
def isUserRowDelete (openpanelUsername : Str) : Event → Bool
  | .sql q => endsWith q ("DELETE FROM users WHERE username='".toList ++ openpanelUsername ++
      "' OR username LIKE 'SUSPENDED_%".toList ++ openpanelUsername ++ "';".toList)
  | _ => false

end Delete

namespace Delete

/-- The steps of the actions, printed texts left out, never go back. -/
def InOrder (ev : List Event) : Prop := (ev.filterMap stageOf).Pairwise (fun a b => a ≤ b)

/-- Every run of `x` appends actions of the steps `lo` to `hi` only, in order. -/
def Stages {α : Type} (lo hi : Nat) (x : Proc α) : Prop :=
  ∀ tr, ∃ ev, (x tr).trace = tr ++ ev ∧
    (∀ e ∈ ev, ∀ k, stageOf e = some k → lo ≤ k ∧ k ≤ hi) ∧ InOrder ev

end Delete

namespace Delete

/-- The output of `opencli user-list --json` for the two tenants `ghost` and `alice`. -/
def twoUsersJSON : Str :=
  ("\x7b\n    \"data\": [\n        \x7b\n            \"id\": 1,\n" ++
   "            \"username\": \"ghost\",\n            \"context\": \"ghost\",\n" ++
   "            \"owner\": \"\",\n            \"package\": \x7b\n" ++
   "                \"name\": \"starter\",\n                \"owner\": \"admin\"\n" ++
   "            \x7d,\n            \"email\": \"ghost@example.com\",\n" ++
   "            \"locale_code\": \"en\"\n        \x7d,\n        \x7b\n            \"id\": 7,\n" ++
   "            \"username\": \"alice\",\n            \"context\": \"alice\",\n" ++
   "            \"owner\": \"\",\n            \"package\": \x7b\n" ++
   "                \"name\": \"starter\",\n                \"owner\": \"admin\"\n" ++
   "            \x7d,\n            \"email\": \"alice@example.com\",\n" ++
   "            \"locale_code\": \"en\"\n        \x7d\n    ],\n    \"metadata\": \x7b\n" ++
   "        \"result\": \"ok\"\n    \x7d\n\x7d\n").toList

/-- An environment for deprovisioning: the users table has the row
`7 alice` (server `alice`) and no row for any other name, `alice` has the
domain `example.com` with the domain ids 3 and 4, the FTP sub-account `ftp1`
and the reseller file `acme.json`; every directory and file asked for exists. -/
def deleteWorld : World :=
  { sampleWorld [] false with
    sql := fun _ q =>
      if q = userInfoQuery "alice".toList then ("7\talice\n".toList, false)
      else if startsWith q "SELECT domain_id" then ("3\n4\n".toList, false)
      else if startsWith q "SELECT COUNT" then ("1\n".toList, false)
      else ([], false)
    cmd := fun _ name args =>
      if name = "opencli".toList ∧ args.head? = some "domains-user".toList then
        ("example.com\n".toList, false)
      else if name = "opencli".toList ∧ args.head? = some "user-list".toList then
        (twoUsersJSON, false)
      else ([], false)
    fileExists := fun _ _ => true
    dirExists := fun _ _ => true
    readLines := fun _ path =>
      if path = "/etc/openpanel/ftp/users/alice/users.list".toList then
        some ["ftp1|secret|/var/www/html".toList]
      else none
    readDir := fun _ _ => some [("acme.json".toList, false), ("old".toList, true)] }

end Delete

/-! ## Go `net.ParseIP` (after `netip.ParseAddr`) -/

/-- Character class `[0-9a-fA-F]`. -/
def isHexDigit (c : Char) : Bool :=
  isAsciiDigit c || (decide (97 ≤ c.toNat) && decide (c.toNat ≤ 102)) ||
    (decide (65 ≤ c.toNat) && decide (c.toNat ≤ 70))

/-- One field of `parseIPv4Fields`: one or more decimal digits, no leading
zero before another digit, value at most 255. -/
def ipv4FieldOk (f : Str) : Bool :=
  !f.isEmpty && f.all isAsciiDigit && (decide (f.length = 1) || f.head? != some '0') &&
    decide (f.foldl (fun v c => v * 10 + (c.toNat - 48)) 0 ≤ 255)

/-- `parseIPv4Fields` succeeds: four fields separated by dots. -/
def parseIPv4 (s : Str) : Bool :=
  decide ((splitOnChar '.' s).length = 4) && (splitOnChar '.' s).all ipv4FieldOk

/-- The loop of `parseIPv6` over the groups: `i` bytes are filled and
`ellipsis` is the position of `::`. The result is `none` on an error and
otherwise `i`, `ellipsis` and the text left when the loop ends. -/
def parseIPv6Loop : Nat → Str → Nat → Option Nat → Option (Nat × Option Nat × Str)
  | 0, _, _, _ => none
  | fuel + 1, s, i, ellipsis =>
    if i ≥ 16 then some (i, ellipsis, s)
    else
      let digits := s.takeWhile isHexDigit
      if digits.length > 4 then none
      else if digits.isEmpty then none
      else
        match s.dropWhile isHexDigit with
        | '.' :: _ =>
          if ellipsis.isNone && i ≠ 12 then none
          else if i + 4 > 16 then none
          else if parseIPv4 s then some (i + 4, ellipsis, []) else none
        | [] => some (i + 2, ellipsis, [])
        | [':'] => none
        | ':' :: ':' :: rest =>
          if ellipsis.isSome then none
          else if rest.isEmpty then some (i + 2, some (i + 2), [])
          else parseIPv6Loop fuel rest (i + 2) (some (i + 2))
        | ':' :: rest => parseIPv6Loop fuel rest (i + 2) ellipsis
        | _ => none

/-- `parseIPv6` succeeds with an empty zone (`net.ParseIP` refuses a zone). -/
def parseIPv6 (s : Str) : Bool :=
  if s.contains '%' then false
  else
    let lead := startsWith s "::"
    let s1 := if lead then s.drop 2 else s
    if lead && s1.isEmpty then true
    else
      match parseIPv6Loop (s1.length + 1) s1 0 (if lead then some 0 else none) with
      | none => false
      | some (i, ellipsis, rest) =>
        rest.isEmpty && (if i < 16 then ellipsis.isSome else ellipsis.isNone)

/-- Go `net.ParseIP(s) != nil`: the first of `.`, `:` and `%` in the text
selects the IPv4 or the IPv6 parser. -/
def goParseIP (s : Str) : Bool :=
  match s.find? (fun c => c = '.' || c = ':' || c = '%') with
  | some '.' => parseIPv4 s
  | some ':' => parseIPv6 s
  | _ => false

/-- The sample environment with Go's `net.ParseIP`. -/
def ipWorld : World :=
  { sampleWorld "1 1g 10 GB 100000 100 1".toList false with parseIP := goParseIP }

/-- An environment with a default node in the administration settings
(`default_node=10.0.0.2`, `default_ssh_key_path=/root/.ssh/id_rsa`) where every
step of the provisioning succeeds; the node answers `8` to every command. -/
def defaultNodeWorld : World :=
  { happyWorld with
    parseIP := goParseIP
    readLines := fun _ file =>
      if file = adminConfigFile then
        some ["default_node=10.0.0.2".toList, "default_ssh_key_path=/root/.ssh/id_rsa".toList]
      else none
    cmd := fun tr name args =>
      if name = "ssh".toList then ("8\n".toList, false) else happyWorld.cmd tr name args }

/-- The command is an `ssh` or `scp` invocation. -/
def isRemoteInvocation : Event → Bool
  | .cmd name _ => name == "ssh".toList || name == "scp".toList
  | _ => false

/-- The invocation carries `-i key` and `StrictHostKeyChecking=no`. -/
def carriesKey (key : Str) : Event → Bool
  | .cmd _ args =>
    containsSubstr (" ".toList.intercalate args) ("-i ".toList ++ key) &&
      containsSubstr (" ".toList.intercalate args) "StrictHostKeyChecking=no"
  | _ => false

/-- The arguments of a provisioning of `alice` on the node 10.0.0.2. -/
def remoteArgs : List Str :=
  sampleArgs ++ ["--server=10.0.0.2".toList, "--key=/root/.ssh/id_rsa".toList]

/-- The sample environment with `weakpass=<value>` in the panel configuration
and a downloaded dictionary that lists `secret123`. -/
def weakpassWorld (value : Str) : World :=
  { sampleWorld "1 1g 10 GB 100000 100 1".toList false with
    fileExists := fun _ path => path = "/tmp/weakpass.txt".toList
    readLines := fun _ file =>
      if file = panelConfigFile then some ["weakpass=".toList ++ value]
      else if file = "/tmp/weakpass.txt".toList then some ["password".toList, "secret123".toList]
      else none }

/-! ## The rows a deprovisioning selects -/

/-- SQL `text LIKE pattern`: `%` stands for any run of characters and `_` for
any single character; every other character stands for itself (MySQL's default
collation also ignores case, which only adds matches). -/
def sqlLike : Str → Str → Bool
  | [], text => text.isEmpty
  | p :: pattern, text =>
    if p = '%' then text.tails.any (fun t => sqlLike pattern t)
    else
      match text with
      | [] => false
      | c :: rest => (p = '_' || p = c) && sqlLike pattern rest

/-- The condition `username='u' OR username LIKE 'SUSPENDED_%u'` of the
`DELETE` of `deleteUserFromDatabase`, which is also the union of the two
conditions of the query of `getUserInfo`. -/
def Delete.matchesUser (u username : Str) : Bool :=
  username = u || sqlLike ("SUSPENDED_%".toList ++ u) username

/-- The loop of `getActiveUsers` (`user/quota.go`) over the output of
`opencli user-list --json`. -/
def Quota.activeUsersOf (out : Str) : List Str :=
  (splitOnChar '\n' out).filterMap (fun line =>
    if containsSubstr line "SUSPENDED" then none
    else if containsSubstr line "username" then
      let parts := splitOnChar '"' line
      if decide (parts.length ≥ 4) && decide (parts.getD 3 [] ≠ []) then some (parts.getD 3 [])
      else none
    else none)

/-- The output of `opencli user-list --json` for one tenant `alice` whose email
is `username@example.com`. -/
def Delete.emailUsernameJSON : Str :=
  ("\x7b\n    \"data\": [\n        \x7b\n            \"id\": 7,\n" ++
   "            \"username\": \"alice\",\n            \"context\": \"alice\",\n" ++
   "            \"owner\": \"\",\n            \"package\": \x7b\n" ++
   "                \"name\": \"starter\",\n                \"owner\": \"admin\"\n" ++
   "            \x7d,\n            \"email\": \"username@example.com\",\n" ++
   "            \"locale_code\": \"en\"\n        \x7d\n    ],\n    \"metadata\": \x7b\n" ++
   "        \"result\": \"ok\"\n    \x7d\n\x7d\n").toList

/-! ## Dedicated IP addresses (`user/ip.go`)

The files the program reads and writes are part of the state, so that a read
after a write or a removal sees its effect. -/

/-- Go `strings.ReplaceAll(s, old, new)` for a non-empty `old`: `skip`
characters are still part of the last occurrence. -/
def replaceAllScan (old new : Str) : Str → Nat → Str
  | [], _ => []
  | _ :: cs, skip + 1 => replaceAllScan old new cs skip
  | c :: cs, 0 =>
    if old.isPrefixOf (c :: cs) then new ++ replaceAllScan old new cs (old.length - 1)
    else c :: replaceAllScan old new cs 0

/-- Go `strings.ReplaceAll(s, old, new)`; an empty `old` matches before every
character and at the end. -/
def replaceAll (s old new : Str) : Str :=
  if old = [] then new ++ s.flatMap (fun c => c :: new) else replaceAllScan old new s 0

namespace Ip

/-- The files of the machine: path and content, the first entry of a path counts. -/
abbrev Files := List (Str × Str)

/-- `os.ReadFile(path)`, `none` when the file does not exist. -/
def Files.read (fs : Files) (path : Str) : Option Str :=
  (fs.find? (fun p => p.1 = path)).map (fun p => p.2)

/-- `os.WriteFile(path, content, 0644)`. -/
def Files.write (fs : Files) (path content : Str) : Files :=
  (path, content) :: fs.filter (fun p => p.1 ≠ path)

/-- `os.Remove(path)`. -/
def Files.remove (fs : Files) (path : Str) : Files := fs.filter (fun p => p.1 ≠ path)

/-- What the environment answers to `user/ip.go`. -/
structure Env where
  /-- Output of `hostname -I`, `none` on an error. -/
  hostnameI : Option Str
  /-- `exec.LookPath(name)` succeeds. -/
  lookPath : Str → Bool
  /-- `exec.LookPath("jq")` succeeds after the installation was attempted. -/
  jqAfterInstall : Bool
  /-- Combined output of `opencli domains-user <user>`. -/
  domainsUser : Str → Str
  /-- The field `ip` that `json.Unmarshal` reads from a text, `none` on an error. -/
  unmarshalIP : Str → Option Str
  /-- Go `net.ParseIP(s) != nil`. -/
  parseIP : Str → Bool
  /-- Go `strings.ToLower`. -/
  toLower : Str → Str
  /-- `os.ReadDir(path)`: names with `IsDir()`, `none` on an error. -/
  readDir : Str → Option (List (Str × Bool))
  /-- The line read from standard input. -/
  stdinLine : Str
  /-- `docker restart openpanel_bind9` returns an error. -/
  dockerRestartFails : Bool
  /-- `os.WriteFile(path, ...)` returns an error. -/
  writeFails : Str → Bool
  /-- `os.Remove(path)` returns an error. -/
  removeFails : Str → Bool

/-- The state of a run: the files and the actions so far. -/
structure St where
  files : Files
  trace : List Event

/-- A part of the process: from a state to how it ended and the state then. -/
def Run (α : Type) : Type := St → Outcome α × St

/-- Sequencing; nothing runs after `os.Exit` or a panic. -/
def Run.bind {α β : Type} (x : Run α) (f : α → Run β) : Run β := fun s =>
  match x s with
  | (.ok a, s1) => f a s1
  | (.exit code, s1) => (.exit code, s1)
  | (.panic, s1) => (.panic, s1)

instance : Monad Run where
  pure := fun a s => (.ok a, s)
  bind := Run.bind

/-- Go `os.Exit(code)`. -/
def exit {α : Type} (code : Nat) : Run α := fun s => (.exit code, s)

/-- Record an action. -/
def act (e : Event) : Run Unit := fun s => (.ok (), { s with trace := s.trace ++ [e] })

/-- `fmt.Print` of a text. -/
def say (text : Str) : Run Unit := act (.print text)

/-- `os.ReadFile(path)`. -/
def readFile (path : Str) : Run (Option Str) := fun s => (.ok (s.files.read path), s)

/-- `fileExists(path)`. -/
def fileExists (path : Str) : Run Bool := fun s => (.ok (s.files.read path).isSome, s)

/-- `os.WriteFile(path, content, 0644)`: whether it returned an error. -/
def writeFile (env : Env) (path content : Str) : Run Bool := fun s =>
  if env.writeFails path then (.ok true, s)
  else (.ok false, { s with files := s.files.write path content })

/-- `os.Remove(path)`, its result discarded. -/
def removeFile (env : Env) (path : Str) : Run Unit := fun s =>
  if env.removeFails path then (.ok (), s) else (.ok (), { s with files := s.files.remove path })

end Ip

namespace Ip

/-- `Config` of `user/ip.go`. -/
structure Config where
  Username : Str := []
  Action : Str := []
  ConfirmFlag : Bool := false
  Debug : Bool := false
  ServerIP : Str := []
  AllowedIPs : List Str := []
  deriving DecidableEq, Repr

def jsonFileBase : Str := "/etc/openpanel/openpanel/core/users"

def caddyConfPath : Str := "/etc/openpanel/caddy/domains"

def zoneFilePath : Str := "/etc/bind/zones"

/-- Path of the file `ip.json` of a user. -/
def ipFileOf (username : Str) : Str := joinPath (joinPath jsonFileBase username) "ip.json"

/-- `getServerIP`. -/
def getServerIP (env : Env) : Run Str := do
  act (.cmd "hostname" ["-I"])
  match env.hostnameI with
  | none => return []
  | some out => return (fields out).headD []

/-- `getAllowedIPs`. -/
def getAllowedIPs (env : Env) : Run (List Str) := do
  act (.cmd "hostname" ["-I"])
  match env.hostnameI with
  | none => return []
  | some out => return (fields out).filter (fun ip => !startsWith ip "172.")

/-- `ensureJQInstalled`. -/
def ensureJQInstalled (env : Env) : Run Unit := do
  if env.lookPath "jq" then return ()
  else
    (if env.lookPath "apt-get" then do
        act (.cmd "apt-get" ["update", "-qq"])
        act (.cmd "apt-get" ["install", "-y", "-qq", "jq"])
      else if env.lookPath "yum" then act (.cmd "yum" ["install", "-y", "-q", "jq"])
      else if env.lookPath "dnf" then act (.cmd "dnf" ["install", "-y", "-q", "jq"])
      else do
        say "Error: No compatible package manager found. Please install jq manually.\n"
        exit 1 : Run Unit)
    if !env.jqAfterInstall then
      say "jq installation failed.\n"
      exit 1
    else return ()

/-- `(c *Config) getCurrentIP`. -/
def getCurrentIP (env : Env) (c : Config) : Run Str := do
  let data ← readFile (ipFileOf c.Username)
  match data with
  | none => return c.ServerIP
  | some text =>
    match env.unmarshalIP text with
    | none => return c.ServerIP
    | some ip => if ip = [] then return c.ServerIP else return ip

/-- `(c *Config) createIPFile`: whether it returned an error. -/
def createIPFile (env : Env) (c : Config) (ip : Str) : Run Bool := do
  let failed ← writeFile env (ipFileOf c.Username)
    ("\x7b \"ip\": \"".toList ++ ip ++ "\" \x7d\n".toList)
  if failed then return true
  else
    if c.Debug then
      say ("Created IP file ".toList ++ ipFileOf c.Username ++ " with IP ".toList ++ ip ++
        "\n".toList)
    return false

/-- `(c *Config) deleteIPConfig`. -/
def deleteIPConfig (env : Env) (c : Config) : Run Unit := do
  let ex ← fileExists (ipFileOf c.Username)
  if ex then
    removeFile env (ipFileOf c.Username)
    say ("IP configuration deleted for user ".toList ++ c.Username ++ ".\n".toList)
  else return ()

/-- The message of `checkIPValidity`. -/
def notAllowedMessage (c : Config) : Str :=
  "Error: The provided IP address is not allowed. Must be one of: ".toList ++
    " ".toList.intercalate c.AllowedIPs ++ "\n".toList

/-- `(c *Config) checkIPValidity`. -/
def checkIPValidity (env : Env) (c : Config) (ip : Str) : Run Unit := do
  if !env.parseIP ip then
    say (notAllowedMessage c)
    exit 1
  else if c.AllowedIPs.contains ip then return ()
  else
    say (notAllowedMessage c)
    exit 1

/-- One entry of the loop of `checkIPUsage`. -/
def checkIPUsageEntry (env : Env) (c : Config) (ip : Str) (entry : Str × Bool) : Run Unit := do
  if !entry.2 || entry.1 = c.Username then return ()
  else
    let data ← readFile (ipFileOf entry.1)
    match data with
    | none => return ()
    | some text =>
      match env.unmarshalIP text with
      | none => return ()
      | some other =>
        if other = ip ∧ c.ConfirmFlag = false then
          say ("Error: IP ".toList ++ ip ++ " already assigned to user ".toList ++ entry.1 ++
            ".\n".toList)
          say "Are you sure you want to continue? (y/n): "
          if trimSpace env.stdinLine ≠ "y".toList then
            say "Script aborted.\n"
            exit 1
          else return ()
        else return ()

/-- A `for ... range` loop. -/
def forEach {α : Type} (xs : List α) (f : α → Run Unit) : Run Unit :=
  match xs with
  | [] => pure ()
  | x :: rest => f x >>= fun _ => forEach rest f

/-- `(c *Config) checkIPUsage`. -/
def checkIPUsage (env : Env) (c : Config) (ip : Str) : Run Unit :=
  match env.readDir jsonFileBase with
  | none => pure ()
  | some entries => forEach entries (checkIPUsageEntry env c ip)

end Ip

namespace Ip

/-- The loop of `updateBindInBlock` over the lines of the file. -/
def bindLines (blockHeader ip : Str) : List Str → List Str
  | [] => []
  | [line] =>
    if trimSpace line = trimSpace blockHeader then [line, "    bind ".toList ++ ip] else [line]
  | line :: next :: rest =>
    if trimSpace line = trimSpace blockHeader then
      if containsSubstr next "bind " then
        line :: ("    bind ".toList ++ ip) :: bindLines blockHeader ip rest
      else line :: ("    bind ".toList ++ ip) :: bindLines blockHeader ip (next :: rest)
    else line :: bindLines blockHeader ip (next :: rest)

/-- `updateBindInBlock`, its result discarded. -/
def updateBindInBlock (env : Env) (confPath blockHeader ip : Str) : Run Unit := do
  let data ← readFile confPath
  match data with
  | none => return ()
  | some text =>
    let _ ← writeFile env confPath
      ("\n".toList.intercalate (bindLines blockHeader ip (splitOnChar '\n' text)))
    return ()

/-- `replaceInFile`, its result discarded. -/
def replaceInFile (env : Env) (path old new : Str) : Run Unit := do
  let data ← readFile path
  match data with
  | none => return ()
  | some text =>
    let _ ← writeFile env path (replaceAll text old new)
    return ()

/-- The body of the loop of `editDomainFiles` for one domain: the new values
of `caddyChanged` and `bindChanged`. -/
def editDomain (env : Env) (c : Config) (currentIP ip : Str) (changed : Bool × Bool)
    (domain : Str) : Run (Bool × Bool) := do
  let caddyConf := joinPath caddyConfPath (domain ++ ".conf".toList)
  let hasCaddy ← fileExists caddyConf
  let caddyChanged ← (if hasCaddy then do
      updateBindInBlock env caddyConf
        ("http://".toList ++ domain ++ ", http://*.".toList ++ domain ++ " \x7b".toList) ip
      updateBindInBlock env caddyConf
        ("https://".toList ++ domain ++ ", https://*.".toList ++ domain ++ " \x7b".toList) ip
      (if c.Debug then
        say ("- Updated Caddy configuration for ".toList ++ domain ++ " to ".toList ++ ip ++
          "\n".toList)
       else pure ())
      return true
    else return changed.1 : Run Bool)
  let bindConf := joinPath zoneFilePath (domain ++ ".zone".toList)
  let hasZone ← fileExists bindConf
  if hasZone then
    replaceInFile env bindConf currentIP ip
    (if c.Debug then
      say ("- Updated DNS zone file ".toList ++ bindConf ++ " with IP ".toList ++ ip ++
        "\n".toList)
     else pure ())
    return (caddyChanged, true)
  else return (caddyChanged, changed.2)

/-- The loop of `editDomainFiles` over the domains. -/
def editDomains (env : Env) (c : Config) (currentIP ip : Str) :
    Bool × Bool → List Str → Run (Bool × Bool)
  | changed, [] => pure changed
  | changed, domain :: rest =>
    editDomain env c currentIP ip changed domain >>= fun ch => editDomains env c currentIP ip ch rest

/-- `(c *Config) editDomainFiles`. -/
def editDomainFiles (env : Env) (c : Config) (ip : Str) : Run Unit := do
  act (.cmd "opencli" ["domains-user", c.Username])
  let domains := fields (trimSpace (env.domainsUser c.Username))
  let currentIP ← getCurrentIP env c
  let changed ← editDomains env c currentIP ip (false, false) domains
  (if changed.1 then do
    act (.cmd "docker" ["--context=default", "exec", "caddy", "bash", "-c",
      "caddy validate && caddy reload"])
    (if c.Debug then say "- Reloaded webserver\n" else pure ())
   else pure () : Run Unit)
  if changed.2 then
    act (.cmd "docker" ["--context=default", "restart", "openpanel_bind9"])
    (if env.dockerRestartFails then act (.cmd "service" ["bind9", "restart"]) else pure ())
    (if c.Debug then say "- Restarted DNS server\n" else pure ())
  else pure ()

/-- `dropRedisCache`. -/
def dropRedisCache : Run Unit :=
  act (.start "docker" ["--context=default", "exec", "openpanel_redis", "bash", "-c",
    "redis-cli --raw KEYS 'flask_cache_*' | xargs -r redis-cli DEL"])

/-- The loop of `main` over the arguments: the flags and the positional arguments. -/
def parseArgs (args : List Str) : Config × List Str :=
  args.foldl (fun (acc : Config × List Str) arg =>
    if arg = "--debug".toList then ({ acc.1 with Debug := true }, acc.2)
    else if arg = "-y".toList then ({ acc.1 with ConfirmFlag := true }, acc.2)
    else (acc.1, acc.2 ++ [arg])) ({}, [])

/-- `printUsage`. -/
def printUsage : Run Unit := do
  say "Usage: opencli user-ip <USERNAME> <ACTION> [ -y ] [--debug]\n"
  say "\n"
  say "Assign Dedicated IP to a user: opencli user-ip <USERNAME> <IP_ADDRESS> [ -y ] [--debug]\n"
  say "Remove Dedicated IP from user: opencli user-ip <USERNAME> delete [ -y ] [--debug]\n"

/-- `main` of `user/ip.go`. -/
def main (env : Env) (args : List Str) : Run Unit := do
  let parsed := parseArgs args
  if parsed.2.length < 1 then
    printUsage
    exit 1
  else
    let c : Config := { parsed.1 with Username := parsed.2.getD 0 [],
                                      Action := parsed.2.getD 1 [] }
    let serverIP ← getServerIP env
    let allowed ← getAllowedIPs env
    let c : Config := { c with ServerIP := serverIP, AllowedIPs := allowed }
    ensureJQInstalled env
    if c.Action = [] then
      let cur ← getCurrentIP env c
      say (cur ++ "\n".toList)
      exit 0
    else if env.toLower c.Action = "delete".toList then
      deleteIPConfig env c
      editDomainFiles env c c.ServerIP
      removeFile env (ipFileOf c.Username)
      say ("IP successfully changed for user ".toList ++ c.Username ++
        " to shared IP address: ".toList ++ c.ServerIP ++ "\n".toList)
      dropRedisCache
    else
      checkIPValidity env c c.Action
      checkIPUsage env c c.Action
      editDomainFiles env c c.Action
      let failed ← createIPFile env c c.Action
      if failed then
        say ("Failed to set dedicated IP address for user ".toList ++ c.Username ++ ".\n".toList)
        exit 1
      else
        say ("IP successfully changed for user ".toList ++ c.Username ++
          " to dedicated IP address: ".toList ++ c.Action ++ "\n".toList)
        dropRedisCache

end Ip

namespace Ip

/-- The text after the first occurrence of `pat`. -/
def afterFirst (pat : Str) : Str → Option Str
  | [] => if pat = [] then some [] else none
  | c :: cs => if pat.isPrefixOf (c :: cs) then some ((c :: cs).drop pat.length)
               else afterFirst pat cs

/-- What `json.Unmarshal` reads as field `ip` from the texts that `createIPFile`
writes, of the form `\x7b "ip": "..." \x7d`. -/
def sampleUnmarshalIP (text : Str) : Option Str :=
  (afterFirst "\"ip\": \"".toList text).map (fun rest => rest.takeWhile (fun ch => ch ≠ '"'))

/-- A server with addresses 198.51.100.1 and 198.51.100.9 where `jq` is installed and user
`alice` owns the domain `example.com`. -/
def sampleEnv : Env where
  hostnameI := some "198.51.100.1 198.51.100.9 172.17.0.1 \n".toList
  lookPath := fun name => name = "jq".toList
  jqAfterInstall := true
  domainsUser := fun user => if user = "alice".toList then "example.com\n".toList else []
  unmarshalIP := sampleUnmarshalIP
  parseIP := goParseIP
  toLower := fun s => s.map Char.toLower
  readDir := fun _ => none
  stdinLine := []
  dockerRestartFails := false
  writeFails := fun _ => false
  removeFails := fun _ => false

/-- The zone file of `example.com` with every address equal to `ip`. -/
def zoneText (ip : Str) : Str :=
  "example.com. IN A ".toList ++ ip ++ "\nwww IN A ".toList ++ ip ++ "\n".toList

/-- The Caddy file of `example.com` bound to `ip`. -/
def caddyText (ip : Str) : Str :=
  "http://example.com, http://*.example.com \x7b\n    bind ".toList ++ ip ++
  "\n\x7d\nhttps://example.com, https://*.example.com \x7b\n    bind ".toList ++ ip ++
  "\n\x7d\n".toList

/-- The files of user `alice` with dedicated address `ip`. -/
def dedicatedFiles (ip : Str) : Files :=
  [(ipFileOf "alice".toList, "\x7b \"ip\": \"".toList ++ ip ++ "\" \x7d\n".toList),
   ("/etc/bind/zones/example.com.zone".toList, zoneText ip),
   ("/etc/openpanel/caddy/domains/example.com.conf".toList, caddyText ip)]

/-- The files when the run of `main` ends. -/
def filesAfter (env : Env) (args : List Str) (fs : Files) : Files :=
  (main env args { files := fs, trace := [] }).2.files

/-- How the run of `main` ends. -/
def outcomeOf (env : Env) (args : List Str) (fs : Files) : Outcome Unit :=
  (main env args { files := fs, trace := [] }).1

end Ip

/-! ## The ports an environment file records, read as `runDocker` writes them -/

/-- The host port of a port binding `[address:]host:container`, or the number
of a value without a colon; `none` when that part is not a decimal number. -/
def hostPortOf (value : Str) : Option Nat :=
  let host : Str :=
    match (splitOnChar ':' value).reverse with
    | [p] => p
    | _ :: h :: _ => h
    | [] => []
  if !host.isEmpty && host.all isAsciiDigit then some (decimalValue host) else none

/-- The port a line of an environment file records: the line starts with an
entry `NAME_PORT=value`, the value with or without double quotes, and the
value is a port binding. Lines that are commented out record nothing. -/
def recordedHostPort (line : Str) : Option Nat :=
  let run := line.takeWhile isUpperOrUnderscore
  let rest := line.dropWhile isUpperOrUnderscore
  if decide (run.length ≥ 6) && endsWith run "_PORT" then
    match rest with
    | '=' :: v => hostPortOf (v.filter (fun ch => ch ≠ '"'))
    | _ => none
  else none

/-- The ports an environment file records, line by line. -/
def recordedHostPorts (data : Str) : List Nat := (splitLines data).filterMap recordedHostPort

/-- The highest port an environment file records, 0 when it records none. -/
def highestHostPort (data : Str) : Nat := (recordedHostPorts data).foldr max 0

/-- The `.env` file `runDocker` writes for `alice`, the first tenant of the
server, from the sample template. -/
def aliceEnvFile : Str :=
  renderEnv (List.range 18) aliceRendered [32769, 32770, 32771, 32772, 32773, 32774, 32775]
    "AAAAAAAAAAAA".toList "BBBBBBBBBBBB".toList "CCCCCCCCCCCC".toList sampleTemplate

/-- The environment in which every step succeeds except the compose smoke
test `docker --context=<user> compose version`. -/
def smokeTestFailsWorld : World :=
  { happyWorld with
    cmd := fun tr name args =>
      if name = "docker".toList ∧ args.getD 1 [] = "compose".toList then ([], true)
      else happyWorld.cmd tr name args }

/-! ## Theorems -/

theorem utf8Size_of_alnum {c : Char} (h : isAsciiAlnum c = true) : c.utf8Size = 1 := by
  have hc : c.toNat ≤ 127 := by
    simp only [isAsciiAlnum, isAsciiLetter, isAsciiDigit, Bool.or_eq_true, Bool.and_eq_true,
      decide_eq_true_eq] at h
    omega
  have hv : c.val ≤ 127 := by
    rw [UInt32.le_def]
    exact hc
  simp [Char.utf8Size, hv]

theorem goLen_eq_length_of_alnum (u : Str) (h : ∀ c ∈ u, isAsciiAlnum c = true) :
    goLen u = u.length := by
  induction u with
  | nil => rfl
  | cons c t ih =>
    have hc := utf8Size_of_alnum (h c (List.mem_cons_self c t))
    have ht := ih (fun d hd => h d (List.mem_cons_of_mem c hd))
    simp only [goLen, List.map_cons, List.sum_cons, List.length_cons] at ht ⊢
    omega

theorem containsAny_false_of_alnum (u : Str) (h : ∀ c ∈ u, isAsciiAlnum c = true) :
    containsAny u [' ', '\t', '-', '_'] = false := by
  rw [containsAny, List.any_eq_false]
  intro c hc hmem
  have hal := h c hc
  simp only [List.contains_eq_any_beq, List.any_cons, List.any_nil, Bool.or_false,
    Bool.or_eq_true, beq_iff_eq] at hmem
  rcases hmem with rfl | rfl | rfl | rfl <;> revert hal <;> decide

theorem containsAny_split (u : Str) :
    containsAny u [' ', '\t', '-', '_'] =
      (containsAny u [' ', '\t'] || containsAny u ['-', '_']) := by
  induction u with
  | nil => rfl
  | cons c t ih =>
    simp only [containsAny, List.any_cons] at ih ⊢
    rw [ih]
    simp only [List.contains_eq_any_beq, List.any_cons, List.any_nil, Bool.or_false]
    cases (c == ' ') <;> cases (c == '\t') <;> cases (c == '-') <;> cases (c == '_') <;>
      cases (t.any fun c => [' ', '\t'].any fun x => c == x) <;> simp

theorem matchAlnumPlus_iff (u : Str) :
    matchAlnumPlus u = true ↔ u ≠ [] ∧ ∀ c ∈ u, isAsciiAlnum c = true := by
  cases u <;> simp [matchAlnumPlus]

theorem matchDigitsPlus_iff (u : Str) :
    matchDigitsPlus u = true ↔ u ≠ [] ∧ ∀ c ∈ u, isAsciiDigit c = true := by
  cases u <;> simp [matchDigitsPlus]

/-- The six syntactic rules of `user/add.go`, as one condition. -/
theorem add_rules_pass_iff (u : Str) :
    (containsAny u [' ', '\t'] = false ∧ containsAny u ['-', '_'] = false ∧
      matchAlnumPlus u = true ∧ matchDigitsPlus u = false ∧ ¬ goLen u < 3 ∧ ¬ goLen u > 20) ↔
    (u ≠ [] ∧ (∀ c ∈ u, isAsciiAlnum c = true) ∧ ¬ (∀ c ∈ u, isAsciiDigit c = true) ∧
      3 ≤ u.length ∧ u.length ≤ 20) := by
  constructor
  · rintro ⟨_, _, h3, h4, h5, h6⟩
    obtain ⟨hne, hal⟩ := (matchAlnumPlus_iff u).mp h3
    have hlen := goLen_eq_length_of_alnum u hal
    refine ⟨hne, hal, ?_, by omega, by omega⟩
    intro hd
    have := (matchDigitsPlus_iff u).mpr ⟨hne, hd⟩
    rw [h4] at this
    exact Bool.false_ne_true this
  · rintro ⟨hne, hal, hnd, h3, h20⟩
    have hlen := goLen_eq_length_of_alnum u hal
    have hsep := containsAny_false_of_alnum u hal
    rw [containsAny_split, Bool.or_eq_false_iff] at hsep
    refine ⟨hsep.1, hsep.2, (matchAlnumPlus_iff u).mpr ⟨hne, hal⟩, ?_, by omega, by omega⟩
    cases hm : matchDigitsPlus u with
    | false => rfl
    | true => exact absurd ((matchDigitsPlus_iff u).mp hm).2 hnd

/-- C1. Provisioning's `checkUsernameIsValid` accepts a username (returns without
exiting) if and only if the username is non-empty, consists only of ASCII
letters and digits, is not made up entirely of digits, has between 3 and 20
characters, and is not equal under case folding to any whitespace-trimmed line
of the forbidden-usernames list (the empty list when the file cannot be
opened). -/
theorem checkUsernameIsValid_accepts_iff (equalFold : Str → Str → Bool)
    (forbiddenFile : Option (List Str)) (u : Str) :
    checkUsernameIsValid equalFold forbiddenFile u = Outcome.ok () ↔
      (u ≠ [] ∧ (∀ c ∈ u, isAsciiAlnum c = true) ∧ ¬ (∀ c ∈ u, isAsciiDigit c = true) ∧
        3 ≤ u.length ∧ u.length ≤ 20 ∧
        ∀ line ∈ forbiddenFile.getD [], equalFold u (trimSpace line) = false) := by
  have hrules := add_rules_pass_iff u
  have hforb : ∀ lines : List Str, inForbiddenList equalFold u lines = false ↔
      ∀ line ∈ lines, equalFold u (trimSpace line) = false := by
    intro lines
    simp [inForbiddenList, List.any_eq_false]
  constructor
  · intro h
    unfold checkUsernameIsValid at h
    split at h
    · cases h
    split at h
    · cases h
    split at h
    · cases h
    split at h
    · cases h
    split at h
    · cases h
    split at h
    · cases h
    rename_i h1 h2 h3 h4 h5 h6
    have hr := hrules.mp ⟨by simpa using h1, by simpa using h2, by simpa using h3,
      by simpa using h4, h5, h6⟩
    obtain ⟨a, b, c, d, e⟩ := hr
    refine ⟨a, b, c, d, e, ?_⟩
    cases forbiddenFile with
    | none => intro line hl; simp at hl
    | some lines =>
      simp only at h
      split at h
      · cases h
      · rename_i hf
        exact (hforb lines).mp (by simpa using hf)
  · rintro ⟨a, b, c, d, e, f⟩
    obtain ⟨h1, h2, h3, h4, h5, h6⟩ := hrules.mpr ⟨a, b, c, d, e⟩
    unfold checkUsernameIsValid
    rw [if_neg (by simp [h1]), if_neg (by simp [h2]), if_neg (by simp [h3]),
      if_neg (by simp [h4]), if_neg h5, if_neg h6]
    cases forbiddenFile with
    | none => rfl
    | some lines =>
      have := (hforb lines).mpr f
      simp [this]

/-- C2 (evaluation at the failing input). With no forbidden-usernames file,
rename's `checkUsernameIsValid` accepts the all-digit username `12345`, which
provisioning's `checkUsernameIsValid` rejects with `os.Exit(1)`. -/
theorem rename_accepts_all_digit_username (equalFold : Str → Str → Bool) :
    renameCheckUsernameIsValid equalFold none "12345".toList = Outcome.ok () ∧
      checkUsernameIsValid equalFold none "12345".toList = Outcome.exit 1 := by
  constructor <;> rfl

/-- C3 (evaluation at the failing input). For the six-field plan row
`2 2g 10GB 100000 100 1` the guard `len(fields) < 6` passes and the read of
`fields[6]` panics. -/
theorem parsePlanRow_six_fields_panics :
    (fields "2 2g 10GB 100000 100 1".toList).length = 6 ∧
      parsePlanRow "2 2g 10GB 100000 100 1".toList false = Outcome.panic := by
  constructor <;> rfl

/-- For a row of at least seven fields plan resolution returns the plan. -/
theorem parsePlanRow_of_seven_fields (out : Str) (hne : (trimSpace out).isEmpty = false)
    (h7 : 7 ≤ (fields out).length) : ∃ p, parsePlanRow out false = Outcome.ok p := by
  rcases hfs : fields out with _ | ⟨a, _ | ⟨b, _ | ⟨c, _ | ⟨d, _ | ⟨e, _ | ⟨f, _ | ⟨g, rest⟩⟩⟩⟩⟩⟩⟩
  all_goals rw [hfs] at h7
  all_goals simp only [List.length_cons, List.length_nil] at h7
  all_goals try omega
  refine ⟨PlanInfo.mk a b (atoi (removeChar ' ' (removeChar 'B' c))) (atoi e) f g, ?_⟩
  simp only [parsePlanRow, hne, hfs, Bool.false_or, Bool.false_eq_true, if_false,
    List.length_cons]
  rw [if_neg (by omega)]
  rfl

/-- For a row of exactly six fields plan resolution panics. -/
theorem parsePlanRow_of_six_fields (out : Str) (hne : (trimSpace out).isEmpty = false)
    (h6 : (fields out).length = 6) : parsePlanRow out false = Outcome.panic := by
  rcases hfs : fields out with _ | ⟨a, _ | ⟨b, _ | ⟨c, _ | ⟨d, _ | ⟨e, _ | ⟨f, _ | ⟨g, rest⟩⟩⟩⟩⟩⟩⟩
  all_goals rw [hfs] at h6
  all_goals simp only [List.length_cons, List.length_nil] at h6
  all_goals try omega
  simp only [parsePlanRow, hne, hfs, Bool.false_or, Bool.false_eq_true, if_false,
    List.length_cons, List.length_nil]
  rfl

/-! ### Quota encoding -/

theorem wrapInt_of_inRange (x : Int) (hlo : minInt ≤ x) (hhi : x ≤ maxInt) : wrapInt x = x := by
  unfold wrapInt
  unfold minInt at hlo
  unfold maxInt at hhi
  omega

/-- C7 (counterexample). For the disk limit 9007199254741 and inode limit
100000 the product with 1,024,000 is 9223372036854784000, outside the 64-bit
range: the quota applied has -9223372036854767616 blocks, not that product. -/
theorem setUserQuota_overflow_counterexample :
    setUserQuotaArgs "alice".toList 9007199254741 100000 =
        ["-u".toList, "alice".toList, "-9223372036854767616".toList,
          "-9223372036854767616".toList, "100000".toList, "100000".toList, "/".toList] ∧
      itoa (9007199254741 * 1024000) = "9223372036854784000".toList ∧
      (setUserQuotaArgs "alice".toList 9007199254741 100000 ==
        ["-u".toList, "alice".toList, itoa (9007199254741 * 1024000),
          itoa (9007199254741 * 1024000), itoa 100000, itoa 100000, "/".toList]) = false := by
  refine ⟨?_, ?_, ?_⟩ <;> decide

/-- C7 (amended). For a disk limit `d` whose product with 1,024,000 fits a
64-bit integer, `setUserQuota` applies soft = hard = `d * 1024000` blocks and
soft = hard = `n` inodes when `d ≠ 0`, and the all-zero quota when `d = 0`. -/
theorem setUserQuota_encoding (u : Str) (d n : Int)
    (hlo : minInt ≤ d * 1024000) (hhi : d * 1024000 ≤ maxInt) :
    (d ≠ 0 → setUserQuotaArgs u d n =
        ["-u".toList, u, itoa (d * 1024000), itoa (d * 1024000), itoa n, itoa n, "/".toList]) ∧
    (d = 0 → setUserQuotaArgs u d n =
        ["-u".toList, u, "0".toList, "0".toList, "0".toList, "0".toList, "/".toList]) := by
  constructor
  · intro hd
    simp only [setUserQuotaArgs, if_pos hd, wrapInt_of_inRange _ hlo hhi]
  · intro hd
    subst hd
    rfl

/-- C7 (witness). A plan with d = 10 and n = 100000: 10,240,000 blocks and
100,000 inodes. -/
theorem setUserQuota_encoding_witness :
    setUserQuotaArgs "alice".toList 10 100000 =
      ["-u".toList, "alice".toList, "10240000".toList, "10240000".toList,
        "100000".toList, "100000".toList, "/".toList] :=
  (setUserQuota_encoding "alice".toList 10 100000 (by decide) (by decide)).1 (by decide)

/-- C8 (evaluation at the failing input). For a plan with disk limit 0 and
inode limit 100000, resize issues `setquota -u alice 0 0 100000 100000 /`
while provisioning issues the all-zero quota. -/
theorem changePlan_zero_disk_keeps_inodes :
    changePlanQuotaArgs "alice".toList 0 100000 =
        ["-u".toList, "alice".toList, "0".toList, "0".toList,
          "100000".toList, "100000".toList, "/".toList] ∧
      setUserQuotaArgs "alice".toList 0 100000 =
        ["-u".toList, "alice".toList, "0".toList, "0".toList,
          "0".toList, "0".toList, "/".toList] := by
  constructor <;> decide

/-- For a non-zero disk limit the two programs issue the same arguments. -/
theorem changePlan_quota_eq_of_disk_ne_zero (u : Str) (d n : Int) (hd : d ≠ 0) :
    changePlanQuotaArgs u d n = setUserQuotaArgs u d n := by
  simp only [changePlanQuotaArgs, updateDiskAndInodesArgs, storageBlocks, setUserQuotaArgs,
    if_pos hd]

/-! ### Port allocation -/

theorem le_foldl_digits (ds : Str) (n : Nat) :
    n ≤ ds.foldl (fun n c => n * 10 + (c.toNat - 48)) n := by
  induction ds generalizing n with
  | nil => exact Nat.le_refl n
  | cons c cs ih =>
    simp only [List.foldl_cons]
    have := ih (n * 10 + (c.toNat - 48))
    omega

theorem parseUintLoop_of_digits (ds : Str) (n : Nat)
    (hd : ∀ c ∈ ds, isAsciiDigit c = true)
    (hv : ds.foldl (fun n c => n * 10 + (c.toNat - 48)) n ≤ 18446744073709551615) :
    parseUintLoop ds n = some (ds.foldl (fun n c => n * 10 + (c.toNat - 48)) n) := by
  induction ds generalizing n with
  | nil => rfl
  | cons c cs ih =>
    simp only [List.foldl_cons] at hv ⊢
    have hc := hd c (List.mem_cons_self c cs)
    have hle := le_foldl_digits cs (n * 10 + (c.toNat - 48))
    have hnot : ¬ (n * 10 + (c.toNat - 48) > 18446744073709551615) := by omega
    simp only [parseUintLoop, hc, if_true, if_neg hnot]
    exact ih _ (fun d hdm => hd d (List.mem_cons_of_mem c hdm)) hv

theorem atoi_of_digits (ds : Str) (hne : ds ≠ []) (hd : ∀ c ∈ ds, isAsciiDigit c = true)
    (hv : (decimalValue ds : Int) ≤ maxInt) : atoi ds = (decimalValue ds : Int) := by
  cases ds with
  | nil => exact absurd rfl hne
  | cons c cs =>
    have hc := hd c (List.mem_cons_self c cs)
    have h1 : c ≠ '-' := by rintro rfl; revert hc; decide
    have h2 : c ≠ '+' := by rintro rfl; revert hc; decide
    unfold maxInt at hv
    have hv' : decimalValue (c :: cs) ≤ 9223372036854775807 := by exact_mod_cast hv
    have hp := parseUintLoop_of_digits (c :: cs) 0 hd (by unfold decimalValue at hv'; omega)
    simp only [atoi, if_neg h1, if_neg h2, parseSigned, List.isEmpty_cons, hp]
    have hge : ¬ (decimalValue (c :: cs) ≥ 9223372036854775808) := by omega
    simp [decimalValue] at hge ⊢
    omega
theorem portMatch_digits {line ds : Str} (h : portMatch line = some ds) :
    ds ≠ [] ∧ ∀ c ∈ ds, isAsciiDigit c = true := by
  unfold portMatch at h
  simp only at h
  split at h
  · split at h
    · rename_i r _
      split at h
      · cases h
      · rename_i hne
        simp only [Option.some.injEq] at h
        subst h
        refine ⟨by simpa using hne, fun c hc => ?_⟩
        exact (List.mem_takeWhile_imp hc)
    · cases h
  · cases h

theorem portMatches_digits {data ds : Str} (h : ds ∈ portMatches data) :
    ds ≠ [] ∧ ∀ c ∈ ds, isAsciiDigit c = true := by
  unfold portMatches at h
  obtain ⟨line, _, hl⟩ := List.mem_filterMap.mp h
  exact portMatch_digits hl

theorem le_foldr_max (l : List Nat) {x : Nat} (h : x ∈ l) : x ≤ l.foldr max 0 := by
  induction l with
  | nil => cases h
  | cons a t ih =>
    simp only [List.foldr_cons]
    rcases List.mem_cons.mp h with rfl | ht
    · exact Nat.le_max_left _ _
    · exact le_trans (ih ht) (Nat.le_max_right _ _)

theorem highestPort_foldl_eq (ms : List Str) (a : Nat)
    (hms : ∀ m ∈ ms, atoi m = (decimalValue m : Int)) :
    ms.foldl (fun highest m => if atoi m > highest then atoi m else highest) (a : Int) =
      ((max a ((ms.map decimalValue).foldr max 0) : Nat) : Int) := by
  induction ms generalizing a with
  | nil => simp
  | cons m t ih =>
    have hm := hms m (List.mem_cons_self m t)
    have ht := fun x hx => hms x (List.mem_cons_of_mem m hx)
    simp only [List.foldl_cons, List.map_cons, List.foldr_cons, hm]
    by_cases hgt : (decimalValue m : Int) > (a : Int)
    · rw [if_pos hgt, ih _ ht]
      have : a < decimalValue m := by exact_mod_cast hgt
      congr 1
      omega
    · rw [if_neg hgt, ih _ ht]
      have : decimalValue m ≤ a := by
        have := not_lt.mp hgt
        exact_mod_cast this
      congr 1
      omega

theorem highestPort_eq_highestRecorded (data : Str)
    (hv : (highestRecorded data : Int) ≤ maxInt) :
    highestPort (portMatches data) = (highestRecorded data : Int) := by
  have hms : ∀ m ∈ portMatches data, atoi m = (decimalValue m : Int) := by
    intro m hm
    obtain ⟨hne, hd⟩ := portMatches_digits hm
    refine atoi_of_digits m hne hd ?_
    have hle : decimalValue m ≤ highestRecorded data :=
      le_foldr_max _ (List.mem_map_of_mem decimalValue hm)
    have : (decimalValue m : Int) ≤ (highestRecorded data : Int) := by exact_mod_cast hle
    exact le_trans this hv
  have := highestPort_foldl_eq (portMatches data) 0 hms
  simp only [Nat.cast_zero, Nat.zero_max] at this
  exact this

theorem portBlock_of_inRange (m : Int) (hlo : 0 ≤ m) (hhi : m + 7 ≤ maxInt) :
    portBlock m = [m + 1, m + 2, m + 3, m + 4, m + 5, m + 6, m + 7] := by
  have hw : ∀ x : Int, 0 ≤ x → x ≤ m + 7 → wrapInt x = x := by
    intro x h0 h7
    apply wrapInt_of_inRange
    · unfold minInt; omega
    · omega
  have hr : List.range 7 = [0, 1, 2, 3, 4, 5, 6] := by decide
  simp only [portBlock, hr, List.map_cons, List.map_nil]
  simp only [Nat.cast_zero, Nat.cast_one, Nat.cast_ofNat, add_zero]
  rw [hw m hlo (by omega), hw (m + 1) (by omega) (by omega), hw (m + 2) (by omega) (by omega),
    hw (m + 3) (by omega) (by omega), hw (m + 4) (by omega) (by omega),
    hw (m + 5) (by omega) (by omega), hw (m + 6) (by omega) (by omega)]
  rw [hw (m + 1 + 1) (by omega) (by omega),
    hw (m + 2 + 1) (by omega) (by omega),
    hw (m + 3 + 1) (by omega) (by omega), hw (m + 4 + 1) (by omega) (by omega),
    hw (m + 5 + 1) (by omega) (by omega), hw (m + 6 + 1) (by omega) (by omega)]
  simp only [add_assoc]
  norm_num

theorem findAvailablePorts_default (out : Str) (fileExists : Str → Bool) (readFile : Str → Str)
    (h : trimSpace out = [] ∨ fileExists (envFileOf (trimSpace out)) = false ∨
      recordedPorts (readFile (envFileOf (trimSpace out))) = []) :
    findAvailablePorts out fileExists readFile =
      [32769, 32770, 32771, 32772, 32773, 32774, 32775] := by
  have hb : portBlock 32768 = [32769, 32770, 32771, 32772, 32773, 32774, 32775] := by decide
  unfold findAvailablePorts
  simp only
  rcases h with h | h | h
  · simp [h, hb]
  · by_cases he : (trimSpace out).isEmpty = true
    · simp [he, hb]
    · simp [he, h, hb]
  · have hm : portMatches (readFile (envFileOf (trimSpace out))) = [] := by
      simpa [recordedPorts] using h
    by_cases he : (trimSpace out).isEmpty = true
    · simp [he, hb]
    · by_cases hf : fileExists (envFileOf (trimSpace out)) = true
      · simp [he, hf, hm, highestPort, hb]
      · simp [he, hf, hb]

theorem findAvailablePorts_of_recorded (out : Str) (fileExists : Str → Bool)
    (readFile : Str → Str) (P : Nat) (hu : trimSpace out ≠ [])
    (hf : fileExists (envFileOf (trimSpace out)) = true)
    (hP : highestRecorded (readFile (envFileOf (trimSpace out))) = P) (hpos : 0 < P)
    (hhi : (P : Int) + 7 ≤ maxInt) :
    findAvailablePorts out fileExists readFile =
      [(P : Int) + 1, P + 2, P + 3, P + 4, P + 5, P + 6, P + 7] := by
  have hh : highestPort (portMatches (readFile (envFileOf (trimSpace out)))) = (P : Int) := by
    rw [highestPort_eq_highestRecorded _ (by rw [hP]; omega), hP]
  have he : (trimSpace out).isEmpty = false := by
    cases h : trimSpace out with
    | nil => exact absurd h hu
    | cons _ _ => rfl
  unfold findAvailablePorts
  simp only [he, hf, hh, Bool.not_false, if_true]
  have hgt : (P : Int) > 0 := by exact_mod_cast hpos
  rw [if_pos hgt]
  exact portBlock_of_inRange _ (by omega) hhi

/-- An environment file with the entry `HTTP_PORT=9223372036854775807`: the
block wraps around to negative numbers, so it is not P+1, ..., P+7 and does
not lie above P. -/
theorem findAvailablePorts_overflow_counterexample :
    highestRecorded "HTTP_PORT=9223372036854775807".toList = 9223372036854775807 ∧
      findAvailablePorts "bob".toList (fun _ => true)
          (fun _ => "HTTP_PORT=9223372036854775807".toList) =
        [-9223372036854775808, -9223372036854775807, -9223372036854775806,
          -9223372036854775805, -9223372036854775804, -9223372036854775803,
          -9223372036854775802] := by
  constructor <;> decide

/-- The block in terms of what the pattern of `findAvailablePorts` matches.
When the most recently created tenant's environment file exists and the
highest number in its entries of the unquoted form `NAME_PORT=<digits>` is P
with 0 < P and P + 7 within the 64-bit range, the returned block is P+1, ...,
P+7: its ports are pairwise distinct and all strictly above P. When there is
no previous tenant, no environment file or no entry of that form, the block is
32769, ..., 32775. -/
theorem findAvailablePorts_block (out : Str) (fileExists : Str → Bool) (readFile : Str → Str) :
    (∀ P : Nat, trimSpace out ≠ [] → fileExists (envFileOf (trimSpace out)) = true →
        highestRecorded (readFile (envFileOf (trimSpace out))) = P → 0 < P →
        (P : Int) + 7 ≤ maxInt →
        findAvailablePorts out fileExists readFile =
            [(P : Int) + 1, P + 2, P + 3, P + 4, P + 5, P + 6, P + 7] ∧
          (findAvailablePorts out fileExists readFile).Nodup ∧
          ∀ p ∈ findAvailablePorts out fileExists readFile, (P : Int) < p) ∧
    ((trimSpace out = [] ∨ fileExists (envFileOf (trimSpace out)) = false ∨
        recordedPorts (readFile (envFileOf (trimSpace out))) = []) →
      findAvailablePorts out fileExists readFile =
        [32769, 32770, 32771, 32772, 32773, 32774, 32775]) := by
  refine ⟨?_, findAvailablePorts_default out fileExists readFile⟩
  intro P hu hf hP hpos hhi
  have h := findAvailablePorts_of_recorded out fileExists readFile P hu hf hP hpos hhi
  rw [h]
  refine ⟨rfl, ?_, ?_⟩
  · simp [List.nodup_cons]
  · intro p hp
    simp only [List.mem_cons, List.mem_singleton, List.not_mem_nil, or_false] at hp
    omega

/-- The last tenant `bob` has an environment file with the unquoted entries
`MYSQL_PORT=32770` and `HTTP_PORT=32775`: the next block is 32776, ..., 32782. -/
theorem findAvailablePorts_block_witness :
    findAvailablePorts "bob".toList (fun _ => true)
        (fun _ => "MYSQL_PORT=32770\nHTTP_PORT=32775\n".toList) =
      [32776, 32777, 32778, 32779, 32780, 32781, 32782] :=
  ((findAvailablePorts_block "bob".toList (fun _ => true)
      (fun _ => "MYSQL_PORT=32770\nHTTP_PORT=32775\n".toList)).1 32775
    (by decide) rfl (by decide) (by decide) (by decide)).1

/-- C10 (counterexample). An environment file recording port 80: the block
returned is 81, ..., 87, below the base 32768. -/
theorem findAvailablePorts_below_base_counterexample :
    findAvailablePorts "bob".toList (fun _ => true) (fun _ => "HTTP_PORT=80\n".toList) =
        [81, 82, 83, 84, 85, 86, 87] ∧
      (findAvailablePorts "bob".toList (fun _ => true)
          (fun _ => "HTTP_PORT=80\n".toList)).all (fun p => decide ((32768 : Int) ≤ p)) =
        false := by
  constructor <;> decide

/-- C10 (amended). When the highest port recorded in the most recent tenant's
environment file is 0 (none recorded) or lies between 32767 and 2^63 - 8,
every port of the returned block is at least 32768. -/
theorem findAvailablePorts_ge_base (out : Str) (fileExists : Str → Bool) (readFile : Str → Str)
    (h : highestRecorded (readFile (envFileOf (trimSpace out))) = 0 ∨
      (32767 ≤ highestRecorded (readFile (envFileOf (trimSpace out))) ∧
        (highestRecorded (readFile (envFileOf (trimSpace out))) : Int) + 7 ≤ maxInt)) :
    ∀ p ∈ findAvailablePorts out fileExists readFile, (32768 : Int) ≤ p := by
  by_cases hd : trimSpace out = [] ∨ fileExists (envFileOf (trimSpace out)) = false
  · rw [findAvailablePorts_default out fileExists readFile
      (hd.elim Or.inl (fun x => Or.inr (Or.inl x)))]
    decide
  · have hu : trimSpace out ≠ [] := fun e => hd (Or.inl e)
    have hf : fileExists (envFileOf (trimSpace out)) = true := by
      cases hfe : fileExists (envFileOf (trimSpace out)) with
      | true => rfl
      | false => exact absurd (Or.inr hfe) hd
    rcases h with h0 | ⟨hlo, hhi⟩
    · have hh : highestPort (portMatches (readFile (envFileOf (trimSpace out)))) = 0 := by
        rw [highestPort_eq_highestRecorded _ (by rw [h0]; decide), h0]
        rfl
      have he : (trimSpace out).isEmpty = false := by
        cases ht : trimSpace out with
        | nil => exact absurd ht hu
        | cons _ _ => rfl
      have : findAvailablePorts out fileExists readFile = portBlock 32768 := by
        unfold findAvailablePorts
        simp [he, hf, hh]
      rw [this]
      decide
    · rw [findAvailablePorts_of_recorded out fileExists readFile _ hu hf rfl (by omega) hhi]
      intro p hp
      simp only [List.mem_cons, List.mem_singleton, List.not_mem_nil, or_false] at hp
      omega

/-- C10 (witness). A file recording port 32775 gives a block above the base. -/
theorem findAvailablePorts_ge_base_witness :
    (findAvailablePorts "bob".toList (fun _ => true)
        (fun _ => "HTTP_PORT=32775\n".toList)).all (fun p => decide ((32768 : Int) ≤ p)) =
      true :=
  List.all_eq_true.mpr (fun p hp => decide_eq_true
    (findAvailablePorts_ge_base "bob".toList (fun _ => true)
      (fun _ => "HTTP_PORT=32775\n".toList) (Or.inr ⟨by decide, by decide⟩) p hp))

/-! ### The provisioning process -/

theorem bind_apply {α β : Type} (x : Proc α) (f : α → Proc β) (tr : List Event) :
    (x >>= f) tr = match x tr with
      | ⟨.ok a, tr1⟩ => f a tr1
      | ⟨.exit code, tr1⟩ => ⟨.exit code, tr1⟩
      | ⟨.panic, tr1⟩ => ⟨.panic, tr1⟩ := rfl

theorem pure_apply {α : Type} (a : α) (tr : List Event) :
    (pure a : Proc α) tr = ⟨.ok a, tr⟩ := rfl

theorem runCmd_bind {β : Type} (w : World) (name : Str) (args : List Str)
    (f : Str × Bool → Proc β) (tr : List Event) :
    (runCmd w name args >>= f) tr =
      f (trimSpace (w.cmd tr name args).1, (w.cmd tr name args).2) (tr ++ [.cmd name args]) := rfl

theorem runCmdSilent_bind {β : Type} (w : World) (name : Str) (args : List Str)
    (f : Bool → Proc β) (tr : List Event) :
    (runCmdSilent w name args >>= f) tr =
      f (w.cmd tr name args).2 (tr ++ [.cmd name args]) := rfl

theorem mysqlQuery_bind {β : Type} (w : World) (q : Str)
    (f : Str × Bool → Proc β) (tr : List Event) :
    (mysqlQuery w q >>= f) tr =
      f (trimSpace (w.sql tr q).1, (w.sql tr q).2) (tr ++ [.sql q]) := rfl

theorem emit_bind {β : Type} (e : Event) (f : Unit → Proc β) (tr : List Event) :
    (emit e >>= f) tr = f () (tr ++ [e]) := rfl

theorem ask_bind {α β : Type} (q : List Event → α) (f : α → Proc β) (tr : List Event) :
    (ask q >>= f) tr = f (q tr) tr := rfl

theorem pure_bind_apply {α β : Type} (a : α) (f : α → Proc β) (tr : List Event) :
    ((pure a : Proc α) >>= f) tr = f a tr := rfl

theorem osExit_apply {α : Type} (code : Nat) (tr : List Event) :
    (osExit code : Proc α) tr = ⟨.exit code, tr⟩ := rfl

theorem osExit_bind {α β : Type} (code : Nat) (f : α → Proc β) (tr : List Event) :
    ((osExit code : Proc α) >>= f) tr = ⟨.exit code, tr⟩ := rfl

theorem hardCleanup_apply {α : Type} (w : World) (c : Config) (tr : List Event) :
    (hardCleanup w c : Proc α) tr = ⟨Outcome.exit 1, tr ++ hardCleanupEvents c⟩ := by
  simp only [hardCleanup, runCmdSilent_bind, runCmd_bind, emit_bind, osExit_apply,
    List.append_assoc, List.cons_append, List.nil_append, hardCleanupEvents]

/-- C6. `hardCleanup` is best-effort: whatever the commands answer, it attempts
each step once, in the order kill the user's processes, remove the OS account
with its home directory, remove the user's core configuration directory, remove
the docker context, force a quota recheck (then refreshes the quota report),
and always ends the process with exit status 1. -/
theorem hardCleanup_attempts_all_steps (w : World) (c : Config) (tr : List Event) :
    (hardCleanup w c : Proc Unit) tr =
      ⟨Outcome.exit 1, tr ++
        [ Event.cmd "killall".toList ["-u".toList, c.Username, "-9".toList],
          Event.cmd "deluser".toList ["--remove-home".toList, c.Username],
          Event.removeAll ("/etc/openpanel/openpanel/core/users/".toList ++ c.Username),
          Event.cmd "docker".toList ["context".toList, "rm".toList, c.Username],
          Event.cmd "quotacheck".toList ["-avm".toList],
          Event.mkdirAll "/etc/openpanel/openpanel/core/users/".toList,
          Event.cmd "bash".toList ["-c".toList,
            "repquota -u / > /etc/openpanel/openpanel/core/users/repquota".toList] ]⟩ := by
  simp only [hardCleanup, runCmdSilent_bind, runCmd_bind, emit_bind, osExit_apply,
    List.append_assoc, List.cons_append, List.nil_append, coreUserDir]

theorem emitsOnly_pure {α : Type} (P : Event → Prop) (a : α) : EmitsOnly P (pure a : Proc α) :=
  fun _ h => h

theorem emitsOnly_osExit {α : Type} (P : Event → Prop) (code : Nat) :
    EmitsOnly P (osExit code : Proc α) := fun _ h => h

theorem emitsOnly_ask {α : Type} (P : Event → Prop) (q : List Event → α) :
    EmitsOnly P (ask q) := fun _ h => h

theorem emitsOnly_liftOutcome {α : Type} (P : Event → Prop) (o : Outcome α) :
    EmitsOnly P (liftOutcome o) := fun _ h => h

theorem emitsOnly_emit (P : Event → Prop) (e : Event) (he : P e) : EmitsOnly P (emit e) := by
  intro tr h x hx
  rcases List.mem_append.mp hx with h1 | h1
  · exact h x h1
  · rw [List.mem_singleton.mp h1]; exact he

theorem emitsOnly_runCmd (P : Event → Prop) (w : World) (name : Str) (args : List Str)
    (he : P (.cmd name args)) : EmitsOnly P (runCmd w name args) := by
  intro tr h x hx
  rcases List.mem_append.mp hx with h1 | h1
  · exact h x h1
  · rw [List.mem_singleton.mp h1]; exact he

theorem emitsOnly_mysqlQuery (P : Event → Prop) (w : World) (q : Str)
    (he : P (.sql q)) : EmitsOnly P (mysqlQuery w q) := by
  intro tr h x hx
  rcases List.mem_append.mp hx with h1 | h1
  · exact h x h1
  · rw [List.mem_singleton.mp h1]; exact he

theorem emitsOnly_bind {α β : Type} (P : Event → Prop) (x : Proc α) (f : α → Proc β)
    (hx : EmitsOnly P x) (hf : ∀ a, EmitsOnly P (f a)) : EmitsOnly P (x >>= f) := by
  intro tr h
  have h1 := hx tr h
  rw [bind_apply]
  rcases hxt : x tr with ⟨o, tr1⟩
  rw [hxt] at h1
  cases o with
  | ok a => exact hf a tr1 h1
  | exit code => exact h1
  | panic => exact h1

theorem emitsOnly_readConfigValue (P : Event → Prop) (w : World) (file key : Str) :
    EmitsOnly P (readConfigValue w file key) := by
  unfold readConfigValue
  refine emitsOnly_bind P _ _ (emitsOnly_ask P _) (fun f => ?_)
  cases f <;> exact emitsOnly_pure P _

theorem emitsOnly_readConfigValueINI (P : Event → Prop) (w : World) (file key : Str) :
    EmitsOnly P (readConfigValueINI w file key) := by
  unfold readConfigValueINI
  refine emitsOnly_bind P _ _ (emitsOnly_ask P _) (fun f => ?_)
  cases f with
  | none => exact emitsOnly_pure P _
  | some lines =>
    simp only
    split <;> exact emitsOnly_pure P _

theorem sshArgs_getLast (kf u cmd : Str) :
    ((sshArgs kf u cmd).getLast?).getD [] = cmd := by
  simp [sshArgs]

theorem emitsOnly_sshRun (w : World) (kf u cmd : Str) (h : startsWith cmd "useradd".toList = false) :
    EmitsOnly (fun e => isAccountEvent e = false) (sshRun w kf u cmd) := by
  unfold sshRun
  apply emitsOnly_runCmd
  simp only [isAccountEvent, sshArgs_getLast, h]
  decide

theorem emitsOnly_ite {α : Type} (P : Event → Prop) {c : Prop} [Decidable c] {x y : Proc α}
    (hx : EmitsOnly P x) (hy : EmitsOnly P y) : EmitsOnly P (if c then x else y) := by
  split
  · exact hx
  · exact hy

theorem emitsOnly_validatePasswordInLists (w : World) (password : Str) :
    EmitsOnly (fun e => isAccountEvent e = false) (validatePasswordInLists w password) := by
  unfold validatePasswordInLists
  refine emitsOnly_bind _ _ _ (emitsOnly_readConfigValue _ _ _ _) (fun v => ?_)
  simp only
  refine emitsOnly_ite _ (emitsOnly_pure _ _) ?_
  · refine emitsOnly_bind _ _ _ (emitsOnly_runCmd _ _ _ _ ?_) (fun r => ?_)
    · decide
    refine emitsOnly_bind _ _ _ (emitsOnly_ask _ _) (fun ex => ?_)
    split
    · exact emitsOnly_pure _ _
    · refine emitsOnly_bind _ _ _ (emitsOnly_ask _ _) (fun f => ?_)
      cases f with
      | none => exact emitsOnly_emit _ _ rfl
      | some lines =>
        simp only
        split
        · exact emitsOnly_osExit _ _
        · exact emitsOnly_emit _ _ rfl

theorem emitsOnly_getSlaveIfSet (w : World) (c : Config) :
    EmitsOnly (fun e => isAccountEvent e = false) (getSlaveIfSet w c) := by
  unfold getSlaveIfSet
  split
  · exact emitsOnly_bind _ _ _ (emitsOnly_ask _ _) (fun _ => emitsOnly_pure _ _)
  · split
    · exact emitsOnly_osExit _ _
    · refine emitsOnly_bind _ _ _ (emitsOnly_sshRun _ _ _ _ (by decide)) (fun r => ?_)
      split
      · exact emitsOnly_osExit _ _
      · exact emitsOnly_pure _ _

theorem startsWith_select (rest : Str) :
    startsWith ("SELECT ".toList ++ rest) "INSERT".toList = false := by
  rfl

theorem emitsOnly_getExistingUsersCount (w : World) (c : Config) :
    EmitsOnly (fun e => isAccountEvent e = false) (getExistingUsersCount w c) := by
  unfold getExistingUsersCount
  split
  · exact emitsOnly_pure _ _
  · split
    · exact emitsOnly_bind _ _ _ (emitsOnly_emit _ _ rfl)
        (fun _ => emitsOnly_bind _ _ _ (emitsOnly_emit _ _ rfl) (fun _ => emitsOnly_osExit _ _))
    · refine emitsOnly_bind _ _ _ (emitsOnly_mysqlQuery _ _ _ (by decide)) (fun r => ?_)
      split
      · exact emitsOnly_osExit _ _
      · split
        · exact emitsOnly_osExit _ _
        · refine emitsOnly_bind _ _ _ (emitsOnly_mysqlQuery _ _ _ (by rfl)) (fun r2 => ?_)
          split
          · exact emitsOnly_osExit _ _
          · split
            · exact emitsOnly_osExit _ _
            · exact emitsOnly_pure _ _

theorem emitsOnly_validateAndLock (w : World) (args : List Str) :
    EmitsOnly (fun e => isAccountEvent e = false) (validateAndLock w args) := by
  unfold validateAndLock
  split
  · exact emitsOnly_osExit _ _
  · refine emitsOnly_bind _ _ _ ?_ (fun c => ?_)
    · unfold checkEnterprise
      exact emitsOnly_bind _ _ _ (emitsOnly_readConfigValue _ _ _ _) (fun _ => emitsOnly_pure _ _)
    refine emitsOnly_bind _ _ _ ?_ (fun _ => ?_)
    · unfold setupLock
      split
      · exact emitsOnly_osExit _ _
      · split
        · exact emitsOnly_osExit _ _
        · exact emitsOnly_pure _ _
    refine emitsOnly_bind _ _ _ ?_ (fun c1 => ?_)
    · unfold getHostnameOfMaster
      refine emitsOnly_bind _ _ _ (emitsOnly_ask _ _) (fun h => ?_)
      cases h <;> exact emitsOnly_pure _ _
    refine emitsOnly_bind _ _ _ ?_ (fun _ => ?_)
    · unfold checkUsernameIsValidStep
      exact emitsOnly_bind _ _ _ (emitsOnly_ask _ _) (fun _ => emitsOnly_liftOutcome _ _)
    refine emitsOnly_bind _ _ _ (emitsOnly_validatePasswordInLists _ _) (fun _ => ?_)
    refine emitsOnly_bind _ _ _ ?_ (fun c2 => ?_)
    · unfold checkIfDefaultSlaveServerIsSet
      refine emitsOnly_bind _ _ _ (emitsOnly_readConfigValueINI _ _ _ _) (fun d => ?_)
      split
      · exact emitsOnly_pure _ _
      · refine emitsOnly_bind _ _ _ (emitsOnly_readConfigValueINI _ _ _ _) (fun k => ?_)
        split <;> exact emitsOnly_pure _ _
    refine emitsOnly_bind _ _ _ (emitsOnly_getSlaveIfSet _ _) (fun c3 => ?_)
    exact emitsOnly_bind _ _ _ (emitsOnly_getExistingUsersCount _ _) (fun _ => emitsOnly_pure _ _)

theorem emitsOnly_resolvePlan (w : World) (c : Config) :
    EmitsOnly (fun e => isAccountEvent e = false) (resolvePlan w c) := by
  unfold resolvePlan
  refine emitsOnly_bind _ _ _ (emitsOnly_mysqlQuery _ _ _ (by rfl)) (fun r => ?_)
  exact emitsOnly_bind _ _ _ (emitsOnly_liftOutcome _ _) (fun _ => emitsOnly_pure _ _)

theorem emitsOnly_askCores (w : World) (c : Config) :
    EmitsOnly (fun e => isAccountEvent e = false) (askCores w c) := by
  unfold askCores
  split
  · exact emitsOnly_bind _ _ _ (emitsOnly_sshRun _ _ _ _ (by decide)) (fun _ => emitsOnly_pure _ _)
  · exact emitsOnly_bind _ _ _ (emitsOnly_runCmd _ _ _ _ (by decide)) (fun _ => emitsOnly_pure _ _)

theorem emitsOnly_askMemory (w : World) (c : Config) :
    EmitsOnly (fun e => isAccountEvent e = false) (askMemory w c) := by
  unfold askMemory
  split
  · exact emitsOnly_bind _ _ _ (emitsOnly_sshRun _ _ _ _ (by decide)) (fun _ => emitsOnly_pure _ _)
  · exact emitsOnly_bind _ _ _ (emitsOnly_runCmd _ _ _ _ (by decide)) (fun _ => emitsOnly_pure _ _)

theorem emitsOnly_checkCapacity (w : World) (c : Config) :
    EmitsOnly (fun e => isAccountEvent e = false) (checkCapacity w c) := by
  unfold checkCapacity
  refine emitsOnly_bind _ _ _ (emitsOnly_askCores _ _) (fun s => ?_)
  split
  · exact emitsOnly_osExit _ _
  · refine emitsOnly_bind _ _ _ (emitsOnly_askMemory _ _) (fun m => ?_)
    split
    · exact emitsOnly_osExit _ _
    · exact emitsOnly_pure _ _


theorem checkCapacity_over (w : World) (c : Config) (tr : List Event) (cores mem : Str)
    (hcores : (askCores w c tr).out = Outcome.ok cores)
    (hmem : (askMemory w c (askCores w c tr).trace).out = Outcome.ok mem)
    (hover : atoi c.CPU > atoi (trimSpace cores) ∨
      atoi (trimSuffixChar 'g' c.RAM) > atoi (trimSpace mem)) :
    (checkCapacity w c tr).out = Outcome.exit 1 := by
  have h1 : askCores w c tr = ⟨Outcome.ok cores, (askCores w c tr).trace⟩ := by
    rw [← hcores]
  have h2 : askMemory w c (askCores w c tr).trace =
      ⟨Outcome.ok mem, (askMemory w c (askCores w c tr).trace).trace⟩ := by
    rw [← hmem]
  unfold checkCapacity
  rw [bind_apply, h1]
  simp only
  by_cases hc : atoi c.CPU > atoi (trimSpace cores)
  · rw [if_pos hc]; rfl
  · rw [if_neg hc, bind_apply, h2]
    simp only
    have hr := hover.resolve_left hc
    rw [if_pos hr]; rfl

theorem main_eq_of_capacity_exit (w : World) (args : List Str) (c : Config) (tr : List Event)
    (hpre : (validateAndLock w args >>= resolvePlan w) [] = ⟨Outcome.ok c, tr⟩)
    (hexit : (checkCapacity w c tr).out = Outcome.exit 1) :
    main w args [] = ⟨Outcome.exit 1, (checkCapacity w c tr).trace⟩ := by
  rw [bind_apply] at hpre
  unfold main getPlanInfoAndCheckRequirements
  rw [bind_apply]
  rcases hv : validateAndLock w args [] with ⟨o0, t0⟩
  rw [hv] at hpre
  cases o0 with
  | ok c0 =>
    simp only at hpre ⊢
    rw [bind_apply, bind_apply, hpre]
    simp only
    rw [bind_apply]
    rcases hk : checkCapacity w c tr with ⟨o1, t1⟩
    rw [hk] at hexit
    simp only at hexit
    subst hexit
    rfl
  | exit code => simp at hpre
  | panic => simp at hpre

/-- C4. When the steps of `main` up to the plan query have returned (with the
plan's limits in the configuration) and the plan's CPU limit exceeds the core
count the target reports, or its RAM limit exceeds the memory size in GB the
target reports, the capacity check of `getPlanInfoAndCheckRequirements` ends
the process with exit status 1: the run stops there, before `createLocalUser`,
`setUserQuota` and `saveUserToDB`, and its trace has no event that creates an
OS account, sets a quota or inserts a row. -/
theorem over_capacity_plan_exits_before_account (w : World) (args : List Str) (c : Config)
    (tr : List Event) (cores mem : Str)
    (hpre : (validateAndLock w args >>= resolvePlan w) [] = ⟨Outcome.ok c, tr⟩)
    (hcores : (askCores w c tr).out = Outcome.ok cores)
    (hmem : (askMemory w c (askCores w c tr).trace).out = Outcome.ok mem)
    (hover : atoi c.CPU > atoi (trimSpace cores) ∨
      atoi (trimSuffixChar 'g' c.RAM) > atoi (trimSpace mem)) :
    (checkCapacity w c tr).out = Outcome.exit 1 ∧
      main w args [] = ⟨Outcome.exit 1, (checkCapacity w c tr).trace⟩ ∧
      ∀ e ∈ (main w args []).trace, isAccountEvent e = false := by
  have hexit := checkCapacity_over w c tr cores mem hcores hmem hover
  have hmain := main_eq_of_capacity_exit w args c tr hpre hexit
  refine ⟨hexit, hmain, ?_⟩
  rw [hmain]
  have h0 : ∀ e ∈ ((validateAndLock w args >>= resolvePlan w) []).trace,
      isAccountEvent e = false :=
    emitsOnly_bind _ _ _ (emitsOnly_validateAndLock w args) (emitsOnly_resolvePlan w) []
      (fun e he => absurd he (List.not_mem_nil e))
  rw [hpre] at h0
  exact emitsOnly_checkCapacity w c tr h0

/-- C4 (witness). For `alice` with a plan of 8 CPUs on a target of 4 cores
the run ends with exit status 1 and no account event. -/
theorem over_capacity_plan_exits_before_account_witness :
    (main (sampleWorld "8 2g 10 GB 100000 100 1".toList false) sampleArgs []).out =
        Outcome.exit 1 ∧
      (main (sampleWorld "8 2g 10 GB 100000 100 1".toList false) sampleArgs []).trace.any
        isAccountEvent = false := by
  have h := over_capacity_plan_exits_before_account
    (sampleWorld "8 2g 10 GB 100000 100 1".toList false) sampleArgs
    { Username := "alice".toList, Password := "secret123".toList,
      Email := "alice@example.com".toList, PlanName := "starter".toList,
      Hostname := "panel".toList, CPU := "8".toList, RAM := "2g".toList, DiskLimit := 10,
      Inodes := 100000, Bandwidth := "100".toList, PlanID := "1".toList }
    [ Event.sql "SELECT COUNT(*) FROM users".toList,
      Event.sql "SELECT COUNT(*) FROM users WHERE username = 'alice'".toList,
      Event.sql
        "SELECT cpu, ram, disk_limit, inodes_limit, bandwidth, id FROM plans WHERE name = 'starter'".toList ]
    "4".toList "8".toList rfl rfl rfl (Or.inl (by decide))
  refine ⟨?_, ?_⟩
  · rw [h.2.1]
  · rw [List.any_eq_false]
    intro e he
    simp [h.2.2 e he]


theorem sshRun_bind {β : Type} (w : World) (kf u cmd : Str) (f : Str × Bool → Proc β)
    (tr : List Event) :
    (sshRun w kf u cmd >>= f) tr =
      f (trimSpace (w.cmd tr "ssh".toList (sshArgs kf u cmd)).1,
          (w.cmd tr "ssh".toList (sshArgs kf u cmd)).2)
        (tr ++ [.cmd "ssh".toList (sshArgs kf u cmd)]) := rfl

theorem sshRunSilent_bind {β : Type} (w : World) (kf u cmd : Str) (f : Bool → Proc β)
    (tr : List Event) :
    (sshRunSilent w kf u cmd >>= f) tr =
      f (w.cmd tr "ssh".toList (sshArgs kf u cmd)).2
        (tr ++ [.cmd "ssh".toList (sshArgs kf u cmd)]) := rfl

theorem liftOutcome_ok_bind {α β : Type} (a : α) (f : α → Proc β) (tr : List Event) :
    (liftOutcome (Outcome.ok a) >>= f) tr = f a tr := rfl

theorem createLocalUser_uid_failure (w : World) (c : Config) (tr : List Event)
    (hadd : (w.cmd tr "useradd".toList
      ["-m".toList, "-d".toList, "/home/".toList ++ c.Username, c.Username]).2 = false)
    (hid : (w.cmd (tr ++ [Event.cmd "useradd".toList
        ["-m".toList, "-d".toList, "/home/".toList ++ c.Username, c.Username]])
      "id".toList ["-u".toList, c.Username]).2 = true) :
    createLocalUser w c tr = ⟨Outcome.exit 1, tr ++
      [ Event.cmd "useradd".toList
          ["-m".toList, "-d".toList, "/home/".toList ++ c.Username, c.Username],
        Event.cmd "id".toList ["-u".toList, c.Username] ]⟩ := by
  simp only [createLocalUser, runCmdSilent_bind, runCmd_bind, hadd, hid, osExit_apply,
    List.append_assoc, List.cons_append, List.nil_append, if_true, Bool.false_eq_true, if_false]

theorem testCompose_failure (w : World) (c : Config) (tr : List Event)
    (h : (w.cmd tr "docker".toList
      ["--context=".toList ++ c.Username, "compose".toList, "version".toList]).2 = true) :
    testComposeCommandForUser w c tr = ⟨Outcome.exit 1, tr ++
      Event.cmd "docker".toList
        ["--context=".toList ++ c.Username, "compose".toList, "version".toList] ::
      hardCleanupEvents c⟩ := by
  simp only [testComposeCommandForUser, runCmd_bind, h, if_true, hardCleanup_apply,
    List.append_assoc, List.cons_append, List.nil_append]

theorem saveUserToDB_failure (w : World) (c : Config) (tr : List Event)
    (h : (w.sql tr (insertUserStatement c)).2 = true) :
    saveUserToDB w c tr = ⟨Outcome.exit 1, tr ++
      Event.sql (insertUserStatement c) :: hardCleanupEvents c⟩ := by
  simp only [saveUserToDB, mysqlQuery_bind, h, if_true, hardCleanup_apply,
    List.append_assoc, List.cons_append, List.nil_append]

theorem createRemoteUser_failure (w : World) (c : Config) (providedID : Str) (tr : List Event)
    (hn : c.NodeIPAddress ≠ [])
    (hid : (w.cmd (tr ++ [Event.cmd "ssh".toList
        (sshArgs c.KeyFlag ("root@".toList ++ c.NodeIPAddress) (remoteUseraddCommand c providedID))])
      "ssh".toList
      (sshArgs c.KeyFlag ("root@".toList ++ c.NodeIPAddress) ("id -u ".toList ++ c.Username))).2
        = true) :
    createRemoteUser w c providedID tr = ⟨Outcome.exit 1, tr ++
      [ Event.cmd "ssh".toList
          (sshArgs c.KeyFlag ("root@".toList ++ c.NodeIPAddress)
            (remoteUseraddCommand c providedID)),
        Event.cmd "ssh".toList
          (sshArgs c.KeyFlag ("root@".toList ++ c.NodeIPAddress)
            ("id -u ".toList ++ c.Username)) ]⟩ := by
  simp only [createRemoteUser, if_neg hn, sshRunSilent_bind, sshRun_bind, hid, osExit_apply,
    List.append_assoc, List.cons_append, List.nil_append, if_true]

theorem setupSSHKey_failure (w : World) (c : Config) (tr : List Event)
    (hn : c.NodeIPAddress ≠ [])
    (hssh : (setupSSHKey w c tr).out ≠ Outcome.ok ()) :
    (setupSSHKey w c tr).out = Outcome.exit 1 ∧
      ∃ pub : Str, (setupSSHKey w c tr).trace = tr ++
        [ Event.cmd "ssh-keygen".toList ["-y".toList, "-f".toList, c.Key],
          Event.cmd "ssh".toList (sshArgs c.KeyFlag ("root@".toList ++ c.NodeIPAddress)
            ("script:authorized-keys ".toList ++ c.Username ++ " ".toList ++ pub)),
          Event.mkdirAll (w.getenv "HOME".toList ++ "/.ssh".toList),
          Event.cmd "cp".toList
            [c.Key, w.getenv "HOME".toList ++ "/.ssh/".toList ++ c.NodeIPAddress],
          Event.chmod (w.getenv "HOME".toList ++ "/.ssh/".toList ++ c.NodeIPAddress),
          Event.mkdirAll (w.getenv "HOME".toList ++ "/.ssh/cm_socket".toList),
          Event.appendFile (w.getenv "HOME".toList ++ "/.ssh/config".toList),
          Event.cmd "ssh".toList (sshArgs [] c.Username "exit".toList) ] := by
  simp only [setupSSHKey, if_neg hn, sshRunSilent_bind, sshRun_bind, runCmd_bind,
    runCmdSilent_bind, emit_bind, List.append_assoc, List.cons_append, List.nil_append] at hssh ⊢
  split at hssh
  · rename_i h
    simp only [h, if_true, osExit_apply, true_and]
    exact ⟨_, rfl⟩
  · exact absurd rfl hssh

theorem materialize_template_missing (w : World) (c : Config) (tr : List Event)
    (h : w.fileExists tr composeTemplate = false) :
    materialize w c tr = ⟨Outcome.exit 1, tr⟩ := by
  simp only [materialize, ask_bind, h, Bool.not_false, if_true, osExit_apply]

theorem materialize_required_empty (w : World) (c : Config) (tr : List Event) (p1 p2 p3 : Str)
    (h : w.fileExists tr composeTemplate = true)
    (h1 : randomBase64 (w.randomBytes 0 12) 12 = Outcome.ok p1)
    (h2 : randomBase64 (w.randomBytes 1 12) 12 = Outcome.ok p2)
    (h3 : randomBase64 (w.randomBytes 2 12) 12 = Outcome.ok p3)
    (hreq : (requiredVariables c p1 p2).any (fun v => decide (v = [])) = true) :
    materialize w c tr = ⟨Outcome.exit 1, tr ++
      [Event.writeFile ("/home/".toList ++ c.Username ++ "/docker-compose.yml".toList)]⟩ := by
  simp only [materialize, ask_bind, h, Bool.not_true, Bool.false_eq_true, if_false, emit_bind,
    h1, h2, h3, liftOutcome_ok_bind, hreq, if_true, osExit_apply]

theorem materialize_env_not_written (w : World) (c : Config) (tr : List Event) (p1 p2 p3 : Str)
    (h : w.fileExists tr composeTemplate = true)
    (h1 : randomBase64 (w.randomBytes 0 12) 12 = Outcome.ok p1)
    (h2 : randomBase64 (w.randomBytes 1 12) 12 = Outcome.ok p2)
    (h3 : randomBase64 (w.randomBytes 2 12) 12 = Outcome.ok p3)
    (hreq : (requiredVariables c p1 p2).any (fun v => decide (v = [])) = false)
    (hw : w.fileExists (tr ++
      [ Event.writeFile ("/home/".toList ++ c.Username ++ "/docker-compose.yml".toList),
        Event.writeFile (envFileOf c.Username) ]) (envFileOf c.Username) = false) :
    materialize w c tr = ⟨Outcome.exit 1, tr ++
      [ Event.writeFile ("/home/".toList ++ c.Username ++ "/docker-compose.yml".toList),
        Event.writeFile (envFileOf c.Username) ]⟩ := by
  simp only [List.append_assoc] at hw
  simp only [materialize, ask_bind, h, Bool.not_true, Bool.false_eq_true, if_false, emit_bind,
    h1, h2, h3, liftOutcome_ok_bind, hreq, List.append_assoc, List.cons_append,
    List.nil_append, hw, Bool.not_false, if_true, osExit_apply]

theorem generateUserPasswordHash_failure (w : World) (c : Config) (tr : List Event)
    (h : (w.cmd tr (pythonPath (w.fileExists tr "/usr/local/admin/venv/bin/python3".toList))
        ["-c".toList, hashScript (if c.Password = "generate".toList then generatePassword w
          else c.Password)]).2 = true ∨
      trimSpace (w.cmd tr (pythonPath (w.fileExists tr "/usr/local/admin/venv/bin/python3".toList))
        ["-c".toList, hashScript (if c.Password = "generate".toList then generatePassword w
          else c.Password)]).1 = []) :
    generateUserPasswordHash w c tr = ⟨Outcome.exit 1, tr ++
      [Event.cmd (pythonPath (w.fileExists tr "/usr/local/admin/venv/bin/python3".toList))
        ["-c".toList, hashScript (if c.Password = "generate".toList then generatePassword w
          else c.Password)]]⟩ := by
  have hc : (if c.Password = "generate".toList then { c with Password := generatePassword w }
      else c).Password =
      (if c.Password = "generate".toList then generatePassword w else c.Password) := by
    split <;> rfl
  have hb : ((w.cmd tr (pythonPath (w.fileExists tr "/usr/local/admin/venv/bin/python3".toList))
        ["-c".toList, hashScript (if c.Password = "generate".toList then generatePassword w
          else c.Password)]).2 ||
      decide (trimSpace (w.cmd tr
        (pythonPath (w.fileExists tr "/usr/local/admin/venv/bin/python3".toList))
        ["-c".toList, hashScript (if c.Password = "generate".toList then generatePassword w
          else c.Password)]).1 = [])) = true := by
    rw [Bool.or_eq_true]
    rcases h with h | h
    · exact Or.inl h
    · exact Or.inr (decide_eq_true h)
  simp only [generateUserPasswordHash, ask_bind, runCmd_bind, hc, hb, if_true, osExit_apply]

/-- C5 (evaluation at the failing input). `alice` is created by `useradd`,
then `id -u alice` fails: the process exits with status 1 right there. The
trace ends with the `id` command; no step of `hardCleanup` (no `killall`, no
`deluser`) was run, and the account stays. On the sibling path, where
everything succeeds up to the compose smoke test and that test fails, the run
ends with the seven steps of `hardCleanup` and exit status 1. -/
theorem uid_failure_exits_without_cleanup :
    ((sampleWorld "1 1g 10 GB 100000 100 1".toList true).cmd [] "useradd".toList
        ["-m".toList, "-d".toList, "/home/alice".toList, "alice".toList]).2 = false ∧
      main (sampleWorld "1 1g 10 GB 100000 100 1".toList true) sampleArgs [] =
        ⟨Outcome.exit 1,
          [ Event.sql "SELECT COUNT(*) FROM users".toList,
            Event.sql "SELECT COUNT(*) FROM users WHERE username = 'alice'".toList,
            Event.sql
              "SELECT cpu, ram, disk_limit, inodes_limit, bandwidth, id FROM plans WHERE name = 'starter'".toList,
            Event.cmd "nproc".toList [],
            Event.cmd "bash".toList ["-c".toList,
              "free -m | awk '/^Mem:/ \x7bprintf \"%d\\n\", ($2+512)/1024 \x7d'".toList],
            Event.cmd "useradd".toList
              ["-m".toList, "-d".toList, "/home/alice".toList, "alice".toList],
            Event.cmd "id".toList ["-u".toList, "alice".toList] ]⟩ ∧
      (main (sampleWorld "1 1g 10 GB 100000 100 1".toList true) sampleArgs []).trace.all
        (fun e => !(hardCleanupEvents { Username := "alice".toList }).contains e) = true ∧
      (main smokeTestFailsWorld sampleArgs []).out = Outcome.exit 1 ∧
      (main smokeTestFailsWorld sampleArgs []).trace.drop 35 =
        Event.cmd "docker".toList ["--context=alice".toList, "compose".toList, "version".toList] ::
          hardCleanupEvents { Username := "alice".toList } := by
  refine ⟨by rfl, by rfl, by rfl, by rfl, by rfl⟩

/-- The nine fatal failures at or after the creation of the OS account, site
by site. The compose smoke-test failure and the database insert failure run
`hardCleanup` before the process exits with status 1. The failure to read the
new uid, the remote account creation failure, the SSH-to-new-user failure, a
missing compose template, an empty required variable, an environment file that
was not written and the password-hash failure end the process with status 1
at once, without any step of `hardCleanup`. -/
theorem fatal_failures_after_account_creation (w : World) (c : Config) (tr : List Event) :
    -- compose smoke test
    ((w.cmd tr "docker".toList
        ["--context=".toList ++ c.Username, "compose".toList, "version".toList]).2 = true →
      testComposeCommandForUser w c tr = ⟨Outcome.exit 1, tr ++
        Event.cmd "docker".toList
          ["--context=".toList ++ c.Username, "compose".toList, "version".toList] ::
        hardCleanupEvents c⟩) ∧
    -- database insert
    ((w.sql tr (insertUserStatement c)).2 = true →
      saveUserToDB w c tr = ⟨Outcome.exit 1, tr ++
        Event.sql (insertUserStatement c) :: hardCleanupEvents c⟩) ∧
    -- reading the new uid
    ((w.cmd tr "useradd".toList
        ["-m".toList, "-d".toList, "/home/".toList ++ c.Username, c.Username]).2 = false →
      (w.cmd (tr ++ [Event.cmd "useradd".toList
          ["-m".toList, "-d".toList, "/home/".toList ++ c.Username, c.Username]])
        "id".toList ["-u".toList, c.Username]).2 = true →
      createLocalUser w c tr = ⟨Outcome.exit 1, tr ++
        [ Event.cmd "useradd".toList
            ["-m".toList, "-d".toList, "/home/".toList ++ c.Username, c.Username],
          Event.cmd "id".toList ["-u".toList, c.Username] ]⟩) ∧
    -- remote account creation
    (∀ providedID : Str, c.NodeIPAddress ≠ [] →
      (w.cmd (tr ++ [Event.cmd "ssh".toList
          (sshArgs c.KeyFlag ("root@".toList ++ c.NodeIPAddress)
            (remoteUseraddCommand c providedID))])
        "ssh".toList
        (sshArgs c.KeyFlag ("root@".toList ++ c.NodeIPAddress)
          ("id -u ".toList ++ c.Username))).2 = true →
      createRemoteUser w c providedID tr = ⟨Outcome.exit 1, tr ++
        [ Event.cmd "ssh".toList
            (sshArgs c.KeyFlag ("root@".toList ++ c.NodeIPAddress)
              (remoteUseraddCommand c providedID)),
          Event.cmd "ssh".toList
            (sshArgs c.KeyFlag ("root@".toList ++ c.NodeIPAddress)
              ("id -u ".toList ++ c.Username)) ]⟩) ∧
    -- SSH to the new user
    (c.NodeIPAddress ≠ [] → (setupSSHKey w c tr).out ≠ Outcome.ok () →
      (setupSSHKey w c tr).out = Outcome.exit 1 ∧
        ∃ pub : Str, (setupSSHKey w c tr).trace = tr ++
          [ Event.cmd "ssh-keygen".toList ["-y".toList, "-f".toList, c.Key],
            Event.cmd "ssh".toList (sshArgs c.KeyFlag ("root@".toList ++ c.NodeIPAddress)
              ("script:authorized-keys ".toList ++ c.Username ++ " ".toList ++ pub)),
            Event.mkdirAll (w.getenv "HOME".toList ++ "/.ssh".toList),
            Event.cmd "cp".toList
              [c.Key, w.getenv "HOME".toList ++ "/.ssh/".toList ++ c.NodeIPAddress],
            Event.chmod (w.getenv "HOME".toList ++ "/.ssh/".toList ++ c.NodeIPAddress),
            Event.mkdirAll (w.getenv "HOME".toList ++ "/.ssh/cm_socket".toList),
            Event.appendFile (w.getenv "HOME".toList ++ "/.ssh/config".toList),
            Event.cmd "ssh".toList (sshArgs [] c.Username "exit".toList) ]) ∧
    -- missing compose template
    (w.fileExists tr composeTemplate = false →
      materialize w c tr = ⟨Outcome.exit 1, tr⟩) ∧
    -- empty required variable
    (∀ p1 p2 p3 : Str, w.fileExists tr composeTemplate = true →
      randomBase64 (w.randomBytes 0 12) 12 = Outcome.ok p1 →
      randomBase64 (w.randomBytes 1 12) 12 = Outcome.ok p2 →
      randomBase64 (w.randomBytes 2 12) 12 = Outcome.ok p3 →
      (requiredVariables c p1 p2).any (fun v => decide (v = [])) = true →
      materialize w c tr = ⟨Outcome.exit 1, tr ++
        [Event.writeFile ("/home/".toList ++ c.Username ++ "/docker-compose.yml".toList)]⟩) ∧
    -- environment file not written
    (∀ p1 p2 p3 : Str, w.fileExists tr composeTemplate = true →
      randomBase64 (w.randomBytes 0 12) 12 = Outcome.ok p1 →
      randomBase64 (w.randomBytes 1 12) 12 = Outcome.ok p2 →
      randomBase64 (w.randomBytes 2 12) 12 = Outcome.ok p3 →
      (requiredVariables c p1 p2).any (fun v => decide (v = [])) = false →
      w.fileExists (tr ++
        [ Event.writeFile ("/home/".toList ++ c.Username ++ "/docker-compose.yml".toList),
          Event.writeFile (envFileOf c.Username) ]) (envFileOf c.Username) = false →
      materialize w c tr = ⟨Outcome.exit 1, tr ++
        [ Event.writeFile ("/home/".toList ++ c.Username ++ "/docker-compose.yml".toList),
          Event.writeFile (envFileOf c.Username) ]⟩) ∧
    -- password hash
    (((w.cmd tr (pythonPath (w.fileExists tr "/usr/local/admin/venv/bin/python3".toList))
          ["-c".toList, hashScript (if c.Password = "generate".toList then generatePassword w
            else c.Password)]).2 = true ∨
        trimSpace (w.cmd tr
          (pythonPath (w.fileExists tr "/usr/local/admin/venv/bin/python3".toList))
          ["-c".toList, hashScript (if c.Password = "generate".toList then generatePassword w
            else c.Password)]).1 = []) →
      generateUserPasswordHash w c tr = ⟨Outcome.exit 1, tr ++
        [Event.cmd (pythonPath (w.fileExists tr "/usr/local/admin/venv/bin/python3".toList))
          ["-c".toList, hashScript (if c.Password = "generate".toList then generatePassword w
            else c.Password)]]⟩) :=
  ⟨testCompose_failure w c tr, saveUserToDB_failure w c tr,
    createLocalUser_uid_failure w c tr,
    fun providedID => createRemoteUser_failure w c providedID tr,
    setupSSHKey_failure w c tr,
    materialize_template_missing w c tr,
    fun p1 p2 p3 => materialize_required_empty w c tr p1 p2 p3,
    fun p1 p2 p3 => materialize_env_not_written w c tr p1 p2 p3,
    generateUserPasswordHash_failure w c tr⟩

/-- In the sample environment with `id -u` failing, `createLocalUser` for
`alice` exits with status 1 after `useradd` and `id`. -/
theorem fatal_failures_after_account_creation_witness :
    createLocalUser (sampleWorld "1 1g 10 GB 100000 100 1".toList true)
        { Username := "alice".toList } [] =
      ⟨Outcome.exit 1,
        [ Event.cmd "useradd".toList
            ["-m".toList, "-d".toList, "/home/".toList ++ "alice".toList, "alice".toList],
          Event.cmd "id".toList ["-u".toList, "alice".toList] ]⟩ :=
  (fatal_failures_after_account_creation (sampleWorld "1 1g 10 GB 100000 100 1".toList true)
    { Username := "alice".toList } []).2.2.1 rfl rfl


/-! ### Secrets, arguments, uniqueness -/

/-- When `randomBase64` returns, the string has exactly `n` characters, all of
them ASCII letters or digits. -/
theorem randomBase64_ok (bytes : List Nat) (n : Nat) (s : Str)
    (h : randomBase64 bytes n = Outcome.ok s) :
    s.length = n ∧ ∀ c ∈ s, isAsciiAlnum c = true := by
  unfold randomBase64 at h
  simp only at h
  split at h
  · cases h
  · rename_i hlen
    simp only [Outcome.ok.injEq] at h
    subst h
    refine ⟨?_, ?_⟩
    · rw [List.length_take]; omega
    · intro c hc
      have := List.mem_of_mem_take hc
      exact (List.mem_filter.mp this).2

/-- C12 (evaluation at the failing input). When the random source delivers
twelve bytes 0xFF, the base64 text is sixteen `/` characters, nothing is left
after the filter and the slice `[:12]` panics. -/
theorem randomBase64_panics_on_ff_bytes :
    base64Encode (List.replicate 12 255) = "////////////////".toList ∧
      randomBase64 (List.replicate 12 255) 12 = Outcome.panic := by
  constructor <;> decide

/-- C18 (evaluation at the failing input). The four positional arguments with
all eight documented flags are twelve arguments: the argument-count check
`len(args) > 11` ends the run with the usage message and exit status 1,
before any flag is parsed. -/
theorem all_documented_flags_rejected :
    allFlagsArgs.length = 12 ∧
      main (sampleWorld "1 1g 10 GB 100000 100 1".toList false) allFlagsArgs [] =
        ⟨Outcome.exit 1, []⟩ := by
  constructor <;> rfl

/-- With a license key `getExistingUsersCount` returns at once: no query is
sent to the users table. -/
theorem getExistingUsersCount_with_key (w : World) (c : Config) (tr : List Event)
    (hk : c.KeyValue ≠ []) : getExistingUsersCount w c tr = ⟨Outcome.ok (), tr⟩ := by
  simp only [getExistingUsersCount, if_pos hk]
  rfl

/-- C15 (evaluation at the failing input). On an installation with a license
key, with `alice` already in the users table (every `COUNT(*)` query answers
1), the run sends no uniqueness query and goes on to `useradd`. -/
theorem existing_username_reaches_useradd_with_key :
    main enterpriseWorld sampleArgs [] =
      ⟨Outcome.exit 1,
        [ Event.sql
            "SELECT cpu, ram, disk_limit, inodes_limit, bandwidth, id FROM plans WHERE name = 'starter'".toList,
          Event.cmd "nproc".toList [],
          Event.cmd "bash".toList ["-c".toList,
            "free -m | awk '/^Mem:/ \x7bprintf \"%d\\n\", ($2+512)/1024 \x7d'".toList],
          Event.cmd "useradd".toList
            ["-m".toList, "-d".toList, "/home/alice".toList, "alice".toList],
          Event.cmd "id".toList ["-u".toList, "alice".toList] ]⟩ := by
  rfl


/-! ### Environment materialization -/

theorem copyIfExists_bind {β : Type} (w : World) (src dst : Str) (f : Unit → Proc β)
    (tr : List Event) :
    (copyIfExists w src dst >>= f) tr =
      f () (tr ++ (if (w.readFile tr src).isSome then [Event.writeFile dst] else [])) := by
  unfold copyIfExists
  rw [bind_apply, ask_bind]
  cases h : w.readFile tr src with
  | none => simp [pure_apply]
  | some d => simp [emit]

theorem runDocker_eq (w : World) (c : Config) (tr : List Event) :
    runDocker w c tr = materialize w (withPorts w c tr)
      (tr ++ [Event.sql "SELECT server FROM users ORDER BY id DESC LIMIT 1".toList]) := rfl


theorem materialize_completes (w : World) (c : Config) (tr : List Event) (p1 p2 p3 : Str)
    (h : w.fileExists tr composeTemplate = true)
    (h1 : randomBase64 (w.randomBytes 0 12) 12 = Outcome.ok p1)
    (h2 : randomBase64 (w.randomBytes 1 12) 12 = Outcome.ok p2)
    (h3 : randomBase64 (w.randomBytes 2 12) 12 = Outcome.ok p3)
    (hreq : (requiredVariables c p1 p2).any (fun v => decide (v = [])) = false)
    (hw : w.fileExists (tr ++
      [ Event.writeFile ("/home/".toList ++ c.Username ++ "/docker-compose.yml".toList),
        Event.writeFile (envFileOf c.Username) ]) (envFileOf c.Username) = true) :
    (materialize w c tr).out = Outcome.ok c := by
  simp only [List.append_assoc] at hw
  simp only [materialize, ask_bind, h, Bool.not_true, Bool.false_eq_true, if_false, emit_bind,
    h1, h2, h3, liftOutcome_ok_bind, hreq, List.append_assoc, List.cons_append,
    List.nil_append, hw, runCmdSilent_bind, copyIfExists_bind]
  rfl

/-- C13 (amended). In a run of `runDocker` where the compose template exists
and the three secrets are generated, the process exits with status 1 at the
check of the required variables, before any write of the `.env` file is
attempted, if and only if one of the fourteen required variables (username,
uid, cpu, ram, the seven port bindings, the default PHP version, the Postgres
password, the MySQL root password) is the empty string. -/
theorem runDocker_required_check (w : World) (c : Config) (tr : List Event) (p1 p2 p3 : Str)
    (h : w.fileExists (tr ++ [Event.sql "SELECT server FROM users ORDER BY id DESC LIMIT 1".toList])
      composeTemplate = true)
    (h1 : randomBase64 (w.randomBytes 0 12) 12 = Outcome.ok p1)
    (h2 : randomBase64 (w.randomBytes 1 12) 12 = Outcome.ok p2)
    (h3 : randomBase64 (w.randomBytes 2 12) 12 = Outcome.ok p3) :
    runDocker w c tr = ⟨Outcome.exit 1,
        tr ++ [ Event.sql "SELECT server FROM users ORDER BY id DESC LIMIT 1".toList,
          Event.writeFile ("/home/".toList ++ c.Username ++ "/docker-compose.yml".toList) ]⟩ ↔
      (requiredVariables (withPorts w c tr) p1 p2).any (fun v => decide (v = [])) = true := by
  rw [runDocker_eq]
  constructor
  · intro hrun
    by_contra hne
    rw [Bool.not_eq_true] at hne
    cases hw : w.fileExists (tr ++ [Event.sql "SELECT server FROM users ORDER BY id DESC LIMIT 1".toList] ++
      [ Event.writeFile ("/home/".toList ++ (withPorts w c tr).Username ++ "/docker-compose.yml".toList),
        Event.writeFile (envFileOf (withPorts w c tr).Username) ]) (envFileOf (withPorts w c tr).Username) with
    | false =>
      rw [materialize_env_not_written w _ _ p1 p2 p3 h h1 h2 h3 hne hw] at hrun
      have := congrArg (fun r => r.trace.length) hrun
      simp at this
    | true =>
      have := materialize_completes w _ _ p1 p2 p3 h h1 h2 h3 hne hw
      rw [hrun] at this
      cases this
  · intro hreq
    rw [materialize_required_empty w _ _ p1 p2 p3 h h1 h2 h3 hreq]
    simp [withPorts]


/-- C13 (witness). With the compose template in place and the uid of `alice`
empty, `runDocker` exits with status 1 right after copying the compose file. -/
theorem runDocker_required_check_witness :
    runDocker templateWorld { aliceConfig with UserID := [] } [] = ⟨Outcome.exit 1,
      [ Event.sql "SELECT server FROM users ORDER BY id DESC LIMIT 1".toList,
        Event.writeFile "/home/alice/docker-compose.yml".toList ]⟩ :=
  (runDocker_required_check templateWorld { aliceConfig with UserID := [] } []
    "AAAAAAAAAAAA".toList "AAAAAAAAAAAA".toList "AAAAAAAAAAAA".toList
    (by decide) (by decide) (by decide) (by decide)).2 (by decide)

/-- C13 (counterexample). Without the compose template, `runDocker` for a
complete configuration exits with status 1 before the `.env` file is written,
although none of the fourteen required variables is empty (the two passwords
are the ones this environment would generate). -/
theorem runDocker_template_missing_counterexample :
    runDocker (sampleWorld "1 1g 10 GB 100000 100 1".toList false) aliceConfig [] =
        ⟨Outcome.exit 1, [Event.sql "SELECT server FROM users ORDER BY id DESC LIMIT 1".toList]⟩ ∧
      randomBase64 ((sampleWorld "1 1g 10 GB 100000 100 1".toList false).randomBytes 0 12) 12 =
        Outcome.ok "AAAAAAAAAAAA".toList ∧
      randomBase64 ((sampleWorld "1 1g 10 GB 100000 100 1".toList false).randomBytes 1 12) 12 =
        Outcome.ok "AAAAAAAAAAAA".toList ∧
      (requiredVariables (withPorts (sampleWorld "1 1g 10 GB 100000 100 1".toList false) aliceConfig [])
        "AAAAAAAAAAAA".toList "AAAAAAAAAAAA".toList).any (fun v => decide (v = [])) = false := by
  refine ⟨?_, by decide, by decide, by decide⟩
  rw [runDocker_eq]
  exact materialize_template_missing _ _ _ rfl


/-! ### Reseller checks -/

theorem emitsOnly_getPlanInfoAndCheckRequirements (w : World) (c : Config) :
    EmitsOnly (fun e => isAccountEvent e = false) (getPlanInfoAndCheckRequirements w c) := by
  unfold getPlanInfoAndCheckRequirements
  refine emitsOnly_bind _ _ _ (emitsOnly_resolvePlan w c) (fun c1 => ?_)
  exact emitsOnly_bind _ _ _ (emitsOnly_checkCapacity w c1) (fun _ => emitsOnly_pure _ _)

theorem getExistingUsersCount_reseller_without_key (w : World) (c : Config) (tr : List Event)
    (hk : c.KeyValue = []) (hr : c.Reseller ≠ []) :
    getExistingUsersCount w c tr = ⟨Outcome.exit 1, tr ++
      [ Event.print "[✘] ERROR: Resellers feature requires the Enterprise edition.\n".toList,
        Event.print ("If you require reseller accounts, please consider purchasing the " ++
          "Enterprise version that allows unlimited number of users and resellers.\n").toList ]⟩ := by
  simp only [getExistingUsersCount, hk, ne_eq, not_true_eq_false, if_false, hr, not_false_eq_true,
    if_true, emit_bind, osExit_apply, List.append_assoc, List.cons_append, List.nil_append]
  rfl

theorem checkIfReseller_not_registered (w : World) (c : Config) (tr : List Event)
    (hr : c.Reseller ≠ [])
    (hn : atoi (trimSpace (trimSpace (w.cmd tr "sqlite3".toList [adminDBFile,
      "SELECT COUNT(*) FROM user WHERE username='".toList ++ c.Reseller ++
        "' AND role='reseller';".toList]).1)) < 1) :
    checkIfReseller w c tr = ⟨Outcome.exit 1, tr ++
      [ Event.cmd "sqlite3".toList [adminDBFile,
          "SELECT COUNT(*) FROM user WHERE username='".toList ++ c.Reseller ++
            "' AND role='reseller';".toList],
        Event.print ("ERROR: User '".toList ++ c.Reseller ++
          "' is not a reseller or not allowed to create new users. Contact support.\n".toList) ]⟩ := by
  simp only [checkIfReseller, hr, if_false, runCmd_bind, hn, if_true, emit_bind, osExit_apply]
  simp only [List.append_assoc, List.cons_append, List.nil_append]

theorem main_eq_of_reseller_exit (w : World) (args : List Str) (c : Config) (tr tr1 : List Event)
    (hpre : (validateAndLock w args >>= getPlanInfoAndCheckRequirements w) [] =
      ⟨Outcome.ok c, tr⟩)
    (hexit : checkIfReseller w c tr = ⟨Outcome.exit 1, tr1⟩) :
    main w args [] = ⟨Outcome.exit 1, tr1⟩ := by
  rw [bind_apply] at hpre
  unfold main
  rw [bind_apply]
  rcases hv : validateAndLock w args [] with ⟨o0, t0⟩
  rw [hv] at hpre
  cases o0 with
  | ok c0 =>
    simp only at hpre ⊢
    rw [bind_apply, hpre]
    simp only
    rw [bind_apply, hexit]
  | exit code => simp at hpre
  | panic => simp at hpre


theorem proc_bind_assoc {α β γ : Type} (x : Proc α) (f : α → Proc β) (g : β → Proc γ) :
    (x >>= f) >>= g = x >>= fun a => f a >>= g := by
  funext tr
  simp only [bind_apply]
  rcases x tr with ⟨o, t⟩
  cases o <;> rfl

theorem validateAndLock_eq (w : World) (args : List Str) :
    validateAndLock w args =
      validateBeforeCount w args >>= fun c => getExistingUsersCount w c >>= fun _ => pure c := by
  unfold validateAndLock validateBeforeCount
  split
  · funext tr; rfl
  · simp only [proc_bind_assoc]

theorem emitsOnly_validateBeforeCount (w : World) (args : List Str) :
    EmitsOnly (fun e => isAccountEvent e = false) (validateBeforeCount w args) := by
  unfold validateBeforeCount
  split
  · exact emitsOnly_osExit _ _
  · refine emitsOnly_bind _ _ _ ?_ (fun c => ?_)
    · unfold checkEnterprise
      exact emitsOnly_bind _ _ _ (emitsOnly_readConfigValue _ _ _ _) (fun _ => emitsOnly_pure _ _)
    refine emitsOnly_bind _ _ _ ?_ (fun _ => ?_)
    · unfold setupLock
      split
      · exact emitsOnly_osExit _ _
      · split
        · exact emitsOnly_osExit _ _
        · exact emitsOnly_pure _ _
    refine emitsOnly_bind _ _ _ ?_ (fun c1 => ?_)
    · unfold getHostnameOfMaster
      refine emitsOnly_bind _ _ _ (emitsOnly_ask _ _) (fun h => ?_)
      cases h <;> exact emitsOnly_pure _ _
    refine emitsOnly_bind _ _ _ ?_ (fun _ => ?_)
    · unfold checkUsernameIsValidStep
      exact emitsOnly_bind _ _ _ (emitsOnly_ask _ _) (fun _ => emitsOnly_liftOutcome _ _)
    refine emitsOnly_bind _ _ _ (emitsOnly_validatePasswordInLists _ _) (fun _ => ?_)
    refine emitsOnly_bind _ _ _ ?_ (fun c2 => ?_)
    · unfold checkIfDefaultSlaveServerIsSet
      refine emitsOnly_bind _ _ _ (emitsOnly_readConfigValueINI _ _ _ _) (fun d => ?_)
      split
      · exact emitsOnly_pure _ _
      · refine emitsOnly_bind _ _ _ (emitsOnly_readConfigValueINI _ _ _ _) (fun k => ?_)
        split <;> exact emitsOnly_pure _ _
    exact emitsOnly_getSlaveIfSet _ _

theorem main_eq_of_count_exit (w : World) (args : List Str) (c : Config) (tr tr1 : List Event)
    (hpre : validateBeforeCount w args [] = ⟨Outcome.ok c, tr⟩)
    (hexit : getExistingUsersCount w c tr = ⟨Outcome.exit 1, tr1⟩) :
    main w args [] = ⟨Outcome.exit 1, tr1⟩ := by
  unfold main
  rw [validateAndLock_eq]
  simp only [proc_bind_assoc]
  rw [bind_apply, hpre]
  simp only
  rw [bind_apply, hexit]

/-- C17 (counterexample). On an installation without a license key, the run
`alice secret123 alice@example.com starter --reseller=acme` ends with exit
status 1 inside `validateAndLock`, at the reseller test of
`getExistingUsersCount`: the two lines about the Enterprise edition are all it
prints and no command was run, so the lookup of `checkIfReseller` was never
reached and the "is not a reseller" line is not printed. -/
theorem reseller_flag_without_key_exits_early :
    main (sampleWorld "1 1g 10 GB 100000 100 1".toList false)
        (sampleArgs ++ ["--reseller=acme".toList]) [] =
      ⟨Outcome.exit 1,
        [ Event.print "[✘] ERROR: Resellers feature requires the Enterprise edition.\n".toList,
          Event.print ("If you require reseller accounts, please consider purchasing the " ++
            "Enterprise version that allows unlimited number of users and resellers.\n").toList ]⟩ ∧
      (validateAndLock (sampleWorld "1 1g 10 GB 100000 100 1".toList false)
        (sampleArgs ++ ["--reseller=acme".toList]) []).out = Outcome.exit 1 ∧
      Event.print ("ERROR: User 'acme' is not a reseller or not allowed to create new users. " ++
          "Contact support.\n").toList ∉
        (main (sampleWorld "1 1g 10 GB 100000 100 1".toList false)
          (sampleArgs ++ ["--reseller=acme".toList]) []).trace := by
  refine ⟨by rfl, by rfl, by decide⟩

/-- C17 (amended). In a run with a reseller whose steps before
`getExistingUsersCount` have returned, an installation without a license key
ends the process with exit status 1 in `getExistingUsersCount`, right after
the two lines of the message that the resellers feature requires the
Enterprise edition, before any query of the users table and without the
reseller lookup. In a run whose steps up to the capacity check have returned
(so with a license key), a reseller for which the `sqlite3` lookup counts less
than one row makes `checkIfReseller` end the process with exit status 1 right
after that lookup and the "is not a reseller" line. In both cases the trace of
the run has no event that creates an OS account, sets a quota or inserts a
row. -/
theorem unregistered_reseller_exits_before_insert (w : World) (args : List Str) (c : Config)
    (tr : List Event) :
    (validateBeforeCount w args [] = ⟨Outcome.ok c, tr⟩ → c.KeyValue = [] → c.Reseller ≠ [] →
      main w args [] = ⟨Outcome.exit 1, tr ++
        [ Event.print "[✘] ERROR: Resellers feature requires the Enterprise edition.\n".toList,
          Event.print ("If you require reseller accounts, please consider purchasing the " ++
            "Enterprise version that allows unlimited number of users and resellers.\n").toList ]⟩ ∧
      ∀ e ∈ (main w args []).trace, isAccountEvent e = false) ∧
    ((validateAndLock w args >>= getPlanInfoAndCheckRequirements w) [] = ⟨Outcome.ok c, tr⟩ →
      c.Reseller ≠ [] →
      atoi (trimSpace (trimSpace (w.cmd tr "sqlite3".toList [adminDBFile,
        "SELECT COUNT(*) FROM user WHERE username='".toList ++ c.Reseller ++
          "' AND role='reseller';".toList]).1)) < 1 →
      main w args [] = ⟨Outcome.exit 1, tr ++
        [ Event.cmd "sqlite3".toList [adminDBFile,
            "SELECT COUNT(*) FROM user WHERE username='".toList ++ c.Reseller ++
              "' AND role='reseller';".toList],
          Event.print ("ERROR: User '".toList ++ c.Reseller ++
            "' is not a reseller or not allowed to create new users. Contact support.\n".toList) ]⟩ ∧
      ∀ e ∈ (main w args []).trace, isAccountEvent e = false) := by
  refine ⟨fun hpre hk hr => ?_, fun hpre hr hn => ?_⟩
  · have hmain := main_eq_of_count_exit w args c tr _ hpre
      (getExistingUsersCount_reseller_without_key w c tr hk hr)
    refine ⟨hmain, ?_⟩
    rw [hmain]
    have h0 : ∀ e ∈ (validateBeforeCount w args []).trace, isAccountEvent e = false :=
      emitsOnly_validateBeforeCount w args [] (fun e he => absurd he (List.not_mem_nil e))
    rw [hpre] at h0
    intro e he
    rcases List.mem_append.mp he with h1 | h1
    · exact h0 e h1
    · rcases List.mem_cons.mp h1 with h2 | h2
      · rw [h2]; rfl
      · rw [List.mem_singleton.mp h2]; rfl
  · have hmain := main_eq_of_reseller_exit w args c tr _ hpre
      (checkIfReseller_not_registered w c tr hr hn)
    refine ⟨hmain, ?_⟩
    rw [hmain]
    have h0 : ∀ e ∈ ((validateAndLock w args >>= getPlanInfoAndCheckRequirements w) []).trace,
        isAccountEvent e = false :=
      emitsOnly_bind _ _ _ (emitsOnly_validateAndLock w args)
        (emitsOnly_getPlanInfoAndCheckRequirements w) []
        (fun e he => absurd he (List.not_mem_nil e))
    rw [hpre] at h0
    intro e he
    rcases List.mem_append.mp he with h1 | h1
    · exact h0 e h1
    · rcases List.mem_cons.mp h1 with h2 | h2
      · rw [h2]; rfl
      · rw [List.mem_singleton.mp h2]; rfl

/-- C17 (witness). Without a license key the run
`alice secret123 alice@example.com starter --reseller=acme` ends with exit
status 1 right after the two lines about the Enterprise edition. With a
license key and no reseller `acme` registered it ends with exit status 1 right
after the `sqlite3` lookup and the "is not a reseller" line. -/
theorem unregistered_reseller_exits_before_insert_witness :
    main (sampleWorld "1 1g 10 GB 100000 100 1".toList false)
        (sampleArgs ++ ["--reseller=acme".toList]) [] =
      ⟨Outcome.exit 1,
        [ Event.print "[✘] ERROR: Resellers feature requires the Enterprise edition.\n".toList,
          Event.print ("If you require reseller accounts, please consider purchasing the " ++
            "Enterprise version that allows unlimited number of users and resellers.\n").toList ]⟩ ∧
    main enterpriseWorld (sampleArgs ++ ["--reseller=acme".toList]) [] =
      ⟨Outcome.exit 1,
        [ Event.sql
            "SELECT cpu, ram, disk_limit, inodes_limit, bandwidth, id FROM plans WHERE name = 'starter'".toList,
          Event.cmd "nproc".toList [],
          Event.cmd "bash".toList ["-c".toList,
            "free -m | awk '/^Mem:/ \x7bprintf \"%d\\n\", ($2+512)/1024 \x7d'".toList],
          Event.cmd "sqlite3".toList ["/etc/openpanel/openadmin/users.db".toList,
            "SELECT COUNT(*) FROM user WHERE username='acme' AND role='reseller';".toList],
          Event.print ("ERROR: User 'acme' is not a reseller or not allowed to create new users. " ++
            "Contact support.\n").toList ]⟩ :=
  ⟨((unregistered_reseller_exits_before_insert (sampleWorld "1 1g 10 GB 100000 100 1".toList false)
      (sampleArgs ++ ["--reseller=acme".toList])
      { Username := "alice".toList, Password := "secret123".toList,
        Email := "alice@example.com".toList, PlanName := "starter".toList,
        Reseller := "acme".toList, Hostname := "panel".toList }
      []).1 rfl rfl (by decide)).1,
   ((unregistered_reseller_exits_before_insert enterpriseWorld
      (sampleArgs ++ ["--reseller=acme".toList])
      { Username := "alice".toList, Password := "secret123".toList,
        Email := "alice@example.com".toList, PlanName := "starter".toList,
        Reseller := "acme".toList, KeyValue := "ENT-1".toList,
        Hostname := "panel".toList, CPU := "1".toList, RAM := "1g".toList, DiskLimit := 10,
        Inodes := 100000, Bandwidth := "100".toList, PlanID := "1".toList }
      [ Event.sql
          "SELECT cpu, ram, disk_limit, inodes_limit, bandwidth, id FROM plans WHERE name = 'starter'".toList,
        Event.cmd "nproc".toList [],
        Event.cmd "bash".toList ["-c".toList,
          "free -m | awk '/^Mem:/ \x7bprintf \"%d\\n\", ($2+512)/1024 \x7d'".toList] ]).2
      rfl (by decide) (by decide)).1⟩


/-! ### The email argument -/

theorem main_eq_preflight (w : World) (args : List Str) :
    main w args = preflight w args >>= provision w := by
  unfold main preflight
  simp only [proc_bind_assoc]
  rfl

theorem frame_bind (e : Str) (f : Config → Proc Config) (g : Config → Proc Config)
    (hf : ∀ c tr, f (setEmail e c) tr = Res.map (setEmail e) (f c tr))
    (hg : ∀ c tr, g (setEmail e c) tr = Res.map (setEmail e) (g c tr)) (c : Config)
    (tr : List Event) :
    (f (setEmail e c) >>= g) tr = Res.map (setEmail e) ((f c >>= g) tr) := by
  simp only [bind_apply, hf]
  rcases f c tr with ⟨o, t⟩
  cases o with
  | ok a => exact hg a t
  | exit code => rfl
  | panic => rfl

theorem checkEnterprise_setEmail (w : World) (e : Str) (c : Config) (tr : List Event) :
    checkEnterprise w (setEmail e c) tr = Res.map (setEmail e) (checkEnterprise w c tr) := by
  unfold checkEnterprise
  simp only [bind_apply]
  rcases readConfigValue w panelConfigFile "key".toList tr with ⟨o, t⟩
  cases o <;> rfl

theorem parseFlag_setEmail (e : Str) (c : Config) (arg : Str) :
    parseFlag (setEmail e c) arg = setEmail e (parseFlag c arg) := by
  unfold parseFlag
  repeat (first | rfl | split)

theorem parseFlags_setEmail (e : Str) (args : List Str) (c : Config) :
    parseFlags (setEmail e c) args = setEmail e (parseFlags c args) := by
  unfold parseFlags
  induction args generalizing c with
  | nil => rfl
  | cons a rest ih => simp only [List.foldl_cons, parseFlag_setEmail, ih]

theorem getHostnameOfMaster_setEmail (w : World) (e : Str) (c : Config) (tr : List Event) :
    getHostnameOfMaster w (setEmail e c) tr =
      Res.map (setEmail e) (getHostnameOfMaster w c tr) := by
  unfold getHostnameOfMaster
  simp only [ask_bind]
  cases w.hostname tr <;> rfl

theorem checkIfDefaultSlaveServerIsSet_setEmail (w : World) (e : Str) (c : Config)
    (tr : List Event) :
    checkIfDefaultSlaveServerIsSet w (setEmail e c) tr =
      Res.map (setEmail e) (checkIfDefaultSlaveServerIsSet w c tr) := by
  unfold checkIfDefaultSlaveServerIsSet
  simp only [bind_apply]
  rcases readConfigValueINI w adminConfigFile "default_node".toList tr with ⟨o, t⟩
  cases o with
  | ok a =>
    simp only
    split
    · rfl
    · simp only [bind_apply]
      rcases readConfigValueINI w adminConfigFile "default_ssh_key_path".toList t with ⟨o2, t2⟩
      cases o2 with
      | ok b =>
        simp only
        have : (setEmail e c).Server = c.Server := rfl
        rw [this]
        split <;> rfl
      | exit code => rfl
      | panic => rfl
  | exit code => rfl
  | panic => rfl


theorem getSlaveIfSet_setEmail (w : World) (e : Str) (c : Config) (tr : List Event) :
    getSlaveIfSet w (setEmail e c) tr = Res.map (setEmail e) (getSlaveIfSet w c tr) := by
  unfold getSlaveIfSet
  have hs : (setEmail e c).Server = c.Server := rfl
  have hk : (setEmail e c).KeyFlag = c.KeyFlag := rfl
  rw [hs, hk]
  split
  · rfl
  · split
    · rfl
    · simp only [sshRun_bind]
      split <;> rfl

theorem resolvePlan_setEmail (w : World) (e : Str) (c : Config) (tr : List Event) :
    resolvePlan w (setEmail e c) tr = Res.map (setEmail e) (resolvePlan w c tr) := by
  unfold resolvePlan
  have hp : (setEmail e c).PlanName = c.PlanName := rfl
  rw [hp]
  simp only [bind_apply, mysqlQuery, liftOutcome]
  generalize parsePlanRow _ _ = o
  cases o <;> rfl

theorem getPlanInfoAndCheckRequirements_setEmail (w : World) (e : Str) (c : Config)
    (tr : List Event) :
    getPlanInfoAndCheckRequirements w (setEmail e c) tr =
      Res.map (setEmail e) (getPlanInfoAndCheckRequirements w c tr) := by
  unfold getPlanInfoAndCheckRequirements
  refine frame_bind e (resolvePlan w) _ (resolvePlan_setEmail w e) (fun c1 tr1 => ?_) c tr
  have hc : checkCapacity w (setEmail e c1) = checkCapacity w c1 := rfl
  rw [hc]
  simp only [bind_apply]
  rcases checkCapacity w c1 tr1 with ⟨o, t⟩
  cases o <;> rfl


theorem checkIfReseller_setEmail (w : World) (e : Str) (c : Config) (tr : List Event) :
    checkIfReseller w (setEmail e c) tr = Res.map (setEmail e) (checkIfReseller w c tr) := by
  unfold checkIfReseller
  have hr : (setEmail e c).Reseller = c.Reseller := rfl
  have hp : (setEmail e c).PlanID = c.PlanID := rfl
  rw [hr]
  simp only [hp]
  repeat (first | rfl | split | simp only [runCmd_bind, ask_bind, mysqlQuery_bind, runCmdSilent_bind])

theorem frame_then (e : Str) (s : Proc Unit) (x y : Proc Config)
    (h : ∀ tr, x tr = Res.map (setEmail e) (y tr)) (tr : List Event) :
    (s >>= fun _ => x) tr = Res.map (setEmail e) ((s >>= fun _ => y) tr) := by
  simp only [bind_apply]
  rcases s tr with ⟨o, t⟩
  cases o with
  | ok a => exact h t
  | exit code => rfl
  | panic => rfl

theorem frame_last (e : Str) (s : Proc Unit) (c : Config) (tr : List Event) :
    (s >>= fun _ => pure (setEmail e c)) tr =
      Res.map (setEmail e) ((s >>= fun _ => (pure c : Proc Config)) tr) := by
  simp only [bind_apply]
  rcases s tr with ⟨o, t⟩
  cases o <;> rfl

theorem validateAndLock_setEmail (w : World) (u p m e : Str) (rest : List Str) (tr : List Event) :
    validateAndLock w (u :: p :: e :: rest) tr =
      Res.map (setEmail e) (validateAndLock w (u :: p :: m :: rest) tr) := by
  unfold validateAndLock
  simp only [List.length_cons]
  split
  · rfl
  · simp only [List.getD_cons_zero, List.getD_cons_succ, List.drop_succ_cons]
    generalize hc : ({ Username := w.toLower u, Password := p, Email := m, PlanName := rest.getD 0 [] } : Config) = c0
    have h0 : ({ Username := w.toLower u, Password := p, Email := e, PlanName := rest.getD 0 [] } : Config) = setEmail e c0 := by
      rw [← hc]; rfl
    rw [h0]
    refine frame_bind e (checkEnterprise w) _ (checkEnterprise_setEmail w e) (fun c1 tr1 => ?_) c0 tr
    refine frame_then e (setupLock w) _ _ (fun t => ?_) tr1
    rw [parseFlags_setEmail]
    refine frame_bind e (getHostnameOfMaster w) _ (getHostnameOfMaster_setEmail w e)
      (fun c2 tr2 => ?_) _ t
    refine frame_then e (checkUsernameIsValidStep w c2) _ _ (fun t3 => ?_) tr2
    refine frame_then e (validatePasswordInLists w c2.Password) _ _ (fun t4 => ?_) t3
    refine frame_bind e (checkIfDefaultSlaveServerIsSet w) _
      (checkIfDefaultSlaveServerIsSet_setEmail w e) (fun c5 tr5 => ?_) c2 t4
    refine frame_bind e (getSlaveIfSet w) _ (getSlaveIfSet_setEmail w e)
      (fun c6 tr6 => ?_) c5 tr5
    exact frame_last e (getExistingUsersCount w c6) c6 tr6

theorem preflight_setEmail (w : World) (u p m e : Str) (rest : List Str) (tr : List Event) :
    preflight w (u :: p :: e :: rest) tr =
      Res.map (setEmail e) (preflight w (u :: p :: m :: rest) tr) := by
  unfold preflight
  simp only [bind_apply, validateAndLock_setEmail w u p m e rest tr]
  rcases validateAndLock w (u :: p :: m :: rest) tr with ⟨o, t⟩
  cases o with
  | ok c =>
    refine frame_bind e (getPlanInfoAndCheckRequirements w) _
      (getPlanInfoAndCheckRequirements_setEmail w e) (fun c1 tr1 => ?_) c t
    refine frame_bind e (checkIfReseller w) _ (checkIfReseller_setEmail w e)
      (fun c2 tr2 => ?_) c1 tr1
    exact frame_last e (validateSSHLogin w c2) c2 tr2
  | exit code => rfl
  | panic => rfl


/-- C16 (counterexample). In an environment where every step succeeds, the run
`alice secret123 not-an-email starter` ends with exit status 0 after creating
the account, setting the quota and inserting the row, although `isValidEmail`
is false for `not-an-email`. -/
theorem invalid_email_run_creates_account :
    isValidEmail "not-an-email".toList = false ∧
      (main happyWorld ["alice".toList, "secret123".toList, "not-an-email".toList,
        "starter".toList] []).out = Outcome.exit 0 ∧
      ((main happyWorld ["alice".toList, "secret123".toList, "not-an-email".toList,
        "starter".toList] []).trace.filter isAccountEvent) =
        [ Event.cmd "useradd".toList
            ["-m".toList, "-d".toList, "/home/alice".toList, "alice".toList],
          Event.cmd "setquota".toList ["-u".toList, "alice".toList, "10240000".toList,
            "10240000".toList, "100000".toList, "100000".toList, "/".toList],
          Event.sql ("INSERT INTO users (username, password, email, plan_id, server) VALUES " ++
            "('alice', 'ok', 'not-an-email', '1', 'alice');").toList ] := by
  refine ⟨by decide, by rfl, by rfl⟩


/-- C16 (amended). The email argument is not validated before the account is
created. `main` is the steps before `createUserSetQuotaAndPassword` followed
by the provisioning steps, and those first steps do the same actions and end
the same way whatever the email argument is: only the `Email` field of the
configuration they return differs. An email for which `isValidEmail` is false
only makes `sendEmailToNewUser` return without running a command. -/
theorem email_not_validated_before_account (w : World) (u p m e : Str) (rest : List Str)
    (c : Config) (tr : List Event) (h : isValidEmail c.Email = false) :
    main w (u :: p :: e :: rest) = preflight w (u :: p :: e :: rest) >>= provision w ∧
      preflight w (u :: p :: e :: rest) [] =
        Res.map (setEmail e) (preflight w (u :: p :: m :: rest) []) ∧
      sendEmailToNewUser w c tr = ⟨Outcome.ok (), tr⟩ := by
  refine ⟨main_eq_preflight w _, preflight_setEmail w u p m e rest [], ?_⟩
  unfold sendEmailToNewUser
  split
  · rfl
  · simp only [h, Bool.not_false, if_true]
    rfl

/-- C16 (witness). In the sample environment the steps before the account
creation return for `not-an-email` what they return for `alice@example.com`,
up to the `Email` field, and `sendEmailToNewUser` with `--send-email` and the
email `not-an-email` runs no command. -/
theorem email_not_validated_before_account_witness :
    isValidEmail "not-an-email".toList = false ∧
      preflight (sampleWorld "1 1g 10 GB 100000 100 1".toList false)
          ["alice".toList, "secret123".toList, "not-an-email".toList, "starter".toList] [] =
        Res.map (setEmail "not-an-email".toList)
          (preflight (sampleWorld "1 1g 10 GB 100000 100 1".toList false) sampleArgs []) ∧
      sendEmailToNewUser (sampleWorld "1 1g 10 GB 100000 100 1".toList false)
        { Email := "not-an-email".toList, SendEmail := true } [] = ⟨Outcome.ok (), []⟩ :=
  ⟨by decide,
    (email_not_validated_before_account (sampleWorld "1 1g 10 GB 100000 100 1".toList false)
      "alice".toList "secret123".toList "alice@example.com".toList "not-an-email".toList
      ["starter".toList] { Email := "not-an-email".toList, SendEmail := true } []
      (by decide)).2⟩


/-! ### The text of the `.env` file -/

theorem takeWhile_append_stop {α : Type} (p : α → Bool) (k : List α) (c : α) (r : List α)
    (hk : ∀ x ∈ k, p x = true) (hc : p c = false) :
    (k ++ c :: r).takeWhile p = k ∧ (k ++ c :: r).dropWhile p = c :: r := by
  induction k with
  | nil => simp [List.takeWhile, List.dropWhile, hc]
  | cons a t ih =>
    have ha : p a = true := hk a (List.mem_cons_self _ _)
    have ht := ih (fun x hx => hk x (List.mem_cons_of_mem _ hx))
    simp [List.takeWhile, List.dropWhile, ha, ht.1, ht.2]

/-- An entry of the form `KEY="..."`, as the substitutions of `runDocker`
write it, is not matched by the pattern of `findAvailablePorts`, whatever the
key and the value are. -/
theorem portMatch_quoted (key value : Str) (hk : ∀ x ∈ key, isUpperOrUnderscore x = true) :
    portMatch (key ++ '=' :: '"' :: value) = none := by
  have h := takeWhile_append_stop isUpperOrUnderscore key '=' ('"' :: value) hk (by decide)
  unfold portMatch
  simp only [h.1, h.2]
  split
  · simp [List.takeWhile, isAsciiDigit]
  · rfl

set_option maxRecDepth 100000

/-- C11 (evaluation at the failing input). The first tenant `alice` gets the
block 32769, ..., 32775 and `runDocker` writes her `.env` file from a template
of quoted entries. Read back by `findAvailablePorts` for the next tenant, that
file has no match of the port pattern, and the next tenant gets the block
32769, ..., 32775 again. -/
theorem next_tenant_gets_same_block :
    findAvailablePorts [] (fun _ => false) (fun _ => []) =
        [32769, 32770, 32771, 32772, 32773, 32774, 32775] ∧
      renderEnv (List.range 18) aliceRendered [32769, 32770, 32771, 32772, 32773, 32774, 32775]
          "AAAAAAAAAAAA".toList "BBBBBBBBBBBB".toList "CCCCCCCCCCCC".toList sampleTemplate =
        ("USERNAME=\"alice\"\nUSER_ID=\"1001\"\nCONTEXT=\"alice\"\nTOTAL_CPU=\"1\"\n" ++
         "TOTAL_RAM=\"1g\"\nHTTP_PORT=\"127.0.0.1:32773:80\"\nHTTPS_PORT=\"127.0.0.1:32774:443\"\n" ++
         "PGADMIN_PORT=\"32769:80\"\nPOSTGRES_PORT=\"127.0.0.1:32771:5432\"\n" ++
         "PMA_PORT=\"32772:80\"\nMYSQL_PORT=\"127.0.0.1:32770:3306\"\n" ++
         "#PROXY_HTTP_PORT=\"127.0.0.1:32775:80\"\nDEFAULT_PHP_VERSION=\"8.4\"\n" ++
         "POSTGRES_PASSWORD=\"AAAAAAAAAAAA\"\nMYSQL_ROOT_PASSWORD=\"BBBBBBBBBBBB\"\n" ++
         "WEB_SERVER=\"nginx\"\nMYSQL_TYPE=\"mysql\"\n").toList ∧
      portMatches (renderEnv (List.range 18) aliceRendered
        [32769, 32770, 32771, 32772, 32773, 32774, 32775]
        "AAAAAAAAAAAA".toList "BBBBBBBBBBBB".toList "CCCCCCCCCCCC".toList sampleTemplate) = [] ∧
      findAvailablePorts "alice".toList (fun _ => true) (fun _ =>
        renderEnv (List.range 18) aliceRendered [32769, 32770, 32771, 32772, 32773, 32774, 32775]
          "AAAAAAAAAAAA".toList "BBBBBBBBBBBB".toList "CCCCCCCCCCCC".toList sampleTemplate) =
        [32769, 32770, 32771, 32772, 32773, 32774, 32775] := by
  refine ⟨by rfl, by rfl, by rfl, by rfl⟩


/-- A web-server value that is neither of the `varnish+X` form nor in the
allow-list leaves the text unchanged. -/
theorem webserverSection_invalid (webserver env : Str) (hv : matchVarnish webserver = none)
    (hw : validWS webserver = false) : webserverSection webserver env = env := by
  unfold webserverSection
  split
  · simp only [hv, hw, Bool.false_eq_true, if_false]
  · rfl

/-- C14 (evaluation at the failing input). With `--webserver=varnish+foo`, the
entry `WEB_SERVER="nginx"` of the template is written as `WEB_SERVER="foo"`,
and `foo` is neither the template default nor in the allow-list. -/
theorem varnish_form_skips_allow_list :
    validWS "foo".toList = false ∧
      matchVarnish "varnish+foo".toList = some "foo".toList ∧
      webserverSection "varnish+foo".toList
          "WEB_SERVER=\"nginx\"\n#PROXY_HTTP_PORT=\"127.0.0.1:32775:80\"\n".toList =
        "WEB_SERVER=\"foo\"\nPROXY_HTTP_PORT=\"127.0.0.1:32775:80\"\n".toList ∧
      renderEnv (List.range 18) { aliceRendered with Webserver := "varnish+foo".toList }
          [32769, 32770, 32771, 32772, 32773, 32774, 32775]
          "AAAAAAAAAAAA".toList "BBBBBBBBBBBB".toList "CCCCCCCCCCCC".toList sampleTemplate =
        ("USERNAME=\"alice\"\nUSER_ID=\"1001\"\nCONTEXT=\"alice\"\nTOTAL_CPU=\"1\"\n" ++
         "TOTAL_RAM=\"1g\"\nHTTP_PORT=\"127.0.0.1:32773:80\"\nHTTPS_PORT=\"127.0.0.1:32774:443\"\n" ++
         "PGADMIN_PORT=\"32769:80\"\nPOSTGRES_PORT=\"127.0.0.1:32771:5432\"\n" ++
         "PMA_PORT=\"32772:80\"\nMYSQL_PORT=\"127.0.0.1:32770:3306\"\n" ++
         "PROXY_HTTP_PORT=\"127.0.0.1:32775:80\"\nDEFAULT_PHP_VERSION=\"8.4\"\n" ++
         "POSTGRES_PASSWORD=\"AAAAAAAAAAAA\"\nMYSQL_ROOT_PASSWORD=\"BBBBBBBBBBBB\"\n" ++
         "WEB_SERVER=\"foo\"\nMYSQL_TYPE=\"mysql\"\n").toList := by
  refine ⟨by decide, by rfl, by rfl, by rfl⟩


/-! ### Plan change -/

theorem bind_eq_ok {α β : Type} (x : Proc α) (f : α → Proc β) (tr tr2 : List Event) (b : β)
    (h : (x >>= f) tr = ⟨Outcome.ok b, tr2⟩) :
    ∃ a tr1, x tr = ⟨Outcome.ok a, tr1⟩ ∧ f a tr1 = ⟨Outcome.ok b, tr2⟩ := by
  rw [bind_apply] at h
  rcases hx : x tr with ⟨o, t⟩
  rw [hx] at h
  cases o with
  | ok a => exact ⟨a, t, rfl, h⟩
  | exit code => simp at h
  | panic => simp at h

theorem getPlanLimit_apply (w : World) (planID resource : Str) (tr : List Event) :
    ChangePlan.getPlanLimit w planID resource tr =
      ⟨Outcome.ok (trimSpace (trimSpace (w.sql tr ("SELECT ".toList ++ resource ++
          " FROM plans WHERE id = '".toList ++ planID ++ "'".toList)).1)),
        tr ++ [Event.sql ("SELECT ".toList ++ resource ++ " FROM plans WHERE id = '".toList ++
          planID ++ "'".toList)]⟩ := rfl

theorem getPlanLimit_bind {β : Type} (w : World) (planID resource : Str) (f : Str → Proc β)
    (tr : List Event) :
    (ChangePlan.getPlanLimit w planID resource >>= f) tr =
      f (trimSpace (trimSpace (w.sql tr ("SELECT ".toList ++ resource ++
          " FROM plans WHERE id = '".toList ++ planID ++ "'".toList)).1))
        (tr ++ [Event.sql ("SELECT ".toList ++ resource ++ " FROM plans WHERE id = '".toList ++
          planID ++ "'".toList)]) := rfl

theorem getCurrentPlanID_keeps (w : World) (c c1 : ChangePlan.Config) (tr tr1 : List Event)
    (h : ChangePlan.getCurrentPlanID w c tr = ⟨Outcome.ok c1, tr1⟩) :
    c1.FailureCount = c.FailureCount := by
  have h1 := congrArg (fun r => match r.out with
    | Outcome.ok c => c.FailureCount
    | _ => c.FailureCount) h
  simp only at h1
  rw [← h1]
  unfold ChangePlan.getCurrentPlanID
  simp only [mysqlQuery_bind]
  split_ifs <;> rfl

theorem loadNewPlanLimits_keeps (w : World) (c c1 : ChangePlan.Config) (tr tr1 : List Event)
    (h : ChangePlan.loadNewPlanLimits w c tr = ⟨Outcome.ok c1, tr1⟩) :
    c1.FailureCount = c.FailureCount := by
  unfold ChangePlan.loadNewPlanLimits at h
  simp only [getPlanLimit_bind, pure_apply] at h
  cases h
  simp only
  split <;> rfl

theorem loadServerCaps_keeps (w : World) (c c1 : ChangePlan.Config) (tr tr1 : List Event)
    (h : ChangePlan.loadServerCaps w c tr = ⟨Outcome.ok c1, tr1⟩) :
    c1.FailureCount = c.FailureCount := by
  unfold ChangePlan.loadServerCaps at h
  simp only [runCmd_bind, pure_apply] at h
  cases h
  rfl

theorem loadOldLimits_keeps (w : World) (c c1 : ChangePlan.Config) (tr tr1 : List Event)
    (h : ChangePlan.loadOldLimits w c tr = ⟨Outcome.ok c1, tr1⟩) :
    c1.FailureCount = c.FailureCount := by
  unfold ChangePlan.loadOldLimits at h
  simp only [ask_bind] at h
  obtain ⟨c2, tr2, h2, h3⟩ := bind_eq_ok _ _ _ _ _ h
  have hc2 : c2.FailureCount = c.FailureCount := by
    split at h2
    · simp only [ChangePlan.say, emit_bind, getPlanLimit_bind, pure_apply] at h2
      cases h2; rfl
    · cases h2; rfl
  simp only [ask_bind] at h3
  split at h3
  · simp only [ChangePlan.say, emit_bind, getPlanLimit_bind, pure_apply] at h3
    cases h3; exact hc2
  · cases h3; exact hc2


theorem getCurrentPlanName_keeps (w : World) (c c1 : ChangePlan.Config) (tr tr1 : List Event)
    (h : ChangePlan.getCurrentPlanName w c tr = ⟨Outcome.ok c1, tr1⟩) :
    c1.FailureCount = c.FailureCount := by
  unfold ChangePlan.getCurrentPlanName at h
  simp only [mysqlQuery_bind, pure_apply] at h
  cases h
  rfl

theorem getNewPlanID_keeps (w : World) (c c1 : ChangePlan.Config) (tr tr1 : List Event)
    (h : ChangePlan.getNewPlanID w c tr = ⟨Outcome.ok c1, tr1⟩) :
    c1.FailureCount = c.FailureCount := by
  unfold ChangePlan.getNewPlanID at h
  simp only [mysqlQuery_bind, pure_apply] at h
  cases h
  rfl

theorem debugFlags_failureCount (l : List Str) (c0 : ChangePlan.Config) :
    (l.foldl (fun c a => if a = "--debug".toList then { c with Debug := true } else c)
      c0).FailureCount = c0.FailureCount := by
  induction l generalizing c0 with
  | nil => rfl
  | cons a t ih =>
    rw [List.foldl_cons, ih]
    split <;> rfl

theorem load_failureCount (w : World) (args : List Str) (c : ChangePlan.Config)
    (tr0 tr : List Event) (h : ChangePlan.load w args tr0 = ⟨Outcome.ok c, tr⟩) :
    c.FailureCount = 0 := by
  unfold ChangePlan.load at h
  split at h
  · simp [ChangePlan.say, emit_bind, osExit_apply] at h
  · simp only [ask_bind] at h
    split at h
    · simp [ChangePlan.say, emit_bind, osExit_apply] at h
    · obtain ⟨c1, t1, h1, h⟩ := bind_eq_ok _ _ _ _ _ h
      have e1 := getCurrentPlanID_keeps w _ c1 _ t1 h1
      simp only [debugFlags_failureCount] at e1
      obtain ⟨c2, t2, h2, h⟩ := bind_eq_ok _ _ _ _ _ h
      have e2 := getCurrentPlanName_keeps w _ _ _ _ h2
      obtain ⟨c3, t3, h3, h⟩ := bind_eq_ok _ _ _ _ _ h
      have e3 := getNewPlanID_keeps w _ _ _ _ h3
      split at h
      · simp [ChangePlan.say, emit_bind, osExit_apply] at h
      · obtain ⟨b1, t4, _, h⟩ := bind_eq_ok _ _ _ _ _ h
        split at h
        · simp [ChangePlan.say, emit_bind, osExit_apply] at h
        · obtain ⟨b2, t5, _, h⟩ := bind_eq_ok _ _ _ _ _ h
          split at h
          · simp [ChangePlan.say, emit_bind, osExit_apply] at h
          · obtain ⟨c4, t6, h4, h⟩ := bind_eq_ok _ _ _ _ _ h
            obtain ⟨c5, t7, h5, h⟩ := bind_eq_ok _ _ _ _ _ h
            rw [loadOldLimits_keeps w c5 c _ _ h, loadServerCaps_keeps w c4 c5 _ _ h5,
              loadNewPlanLimits_keeps w _ c4 _ _ h4, e3, e2]
            exact e1


theorem failedUpdates_cons (w : World) (pre : List Event) (e : Event) (rest : List Event) :
    ChangePlan.failedUpdates w pre (e :: rest) =
      (match e with
        | .cmd name args =>
          if ChangePlan.isUpdateCommand e && (w.cmd pre name args).2 then 1 else 0
        | _ => 0) + ChangePlan.failedUpdates w (pre ++ [e]) rest := rfl

theorem failedUpdates_print (w : World) (pre : List Event) (s : Str) (rest : List Event) :
    ChangePlan.failedUpdates w pre (Event.print s :: rest) =
      ChangePlan.failedUpdates w (pre ++ [Event.print s]) rest := by
  rw [failedUpdates_cons]
  simp only [zero_add]

theorem failedUpdates_failed (w : World) (pre : List Event) (name : Str) (args : List Str)
    (rest : List Event) (hu : ChangePlan.isUpdateCommand (Event.cmd name args) = true)
    (hf : (w.cmd pre name args).2 = true) :
    ChangePlan.failedUpdates w pre (Event.cmd name args :: rest) =
      1 + ChangePlan.failedUpdates w (pre ++ [Event.cmd name args]) rest := by
  rw [failedUpdates_cons]
  simp only [hu, hf, Bool.and_self, if_true]

theorem failedUpdates_other (w : World) (pre : List Event) (name : Str) (args : List Str)
    (rest : List Event)
    (h : ChangePlan.isUpdateCommand (Event.cmd name args) = false ∨
      (w.cmd pre name args).2 = false) :
    ChangePlan.failedUpdates w pre (Event.cmd name args :: rest) =
      ChangePlan.failedUpdates w (pre ++ [Event.cmd name args]) rest := by
  rw [failedUpdates_cons]
  rcases h with h | h <;> simp [h]

theorem failedUpdates_append (w : World) (pre a b : List Event) :
    ChangePlan.failedUpdates w pre (a ++ b) =
      ChangePlan.failedUpdates w pre a + ChangePlan.failedUpdates w (pre ++ a) b := by
  induction a generalizing pre with
  | nil => simp [ChangePlan.failedUpdates]
  | cons e t ih =>
    have e1 : pre ++ e :: t = (pre ++ [e]) ++ t := by simp
    rw [List.cons_append, failedUpdates_cons, failedUpdates_cons, ih, e1, add_assoc]

theorem isUpdateCommand_opencli (args : List Str) :
    ChangePlan.isUpdateCommand (Event.cmd "opencli".toList args) = true := rfl

theorem isUpdateCommand_setquota (args : List Str) :
    ChangePlan.isUpdateCommand (Event.cmd "setquota".toList args) = true := rfl

theorem updateContainerCPU_counts (w : World) (c : ChangePlan.Config) (tr : List Event)
    (h : c.NCPU ≤ c.MaxCPU) :
    ∃ c1 ev, ChangePlan.updateContainerCPU w c tr = ⟨Outcome.ok c1, tr ++ ev⟩ ∧
      c1.FailureCount = c.FailureCount + ChangePlan.failedUpdates w tr ev ∧
      c1 = { c with FailureCount := c1.FailureCount, SuccessCount := c1.SuccessCount } ∧
      ev.filter ChangePlan.isUpdateCommand =
        [Event.cmd "opencli".toList ["user-resources".toList, c.ContainerName,
          "--update_cpu=".toList ++ itoa c.NCPU]] := by
  unfold ChangePlan.updateContainerCPU
  rw [if_neg (not_lt.mpr h)]
  cases hd : c.Debug <;>
  · simp only [Bool.false_eq_true, if_false, if_true, ChangePlan.say, emit_bind, runCmd_bind,
      pure_bind_apply]
    split <;>
    · rename_i hr
      try simp only [List.append_assoc] at hr
      simp only [emit_bind, pure_apply, List.append_assoc, List.cons_append, List.nil_append]
      refine ⟨_, _, rfl, ?_, rfl, rfl⟩
      simp only [ChangePlan.failedUpdates, isUpdateCommand_opencli, hr, Bool.true_and, if_true,
        Bool.false_eq_true, if_false, add_zero, zero_add, List.append_assoc, List.cons_append,
        List.nil_append]


theorem updateContainerRAM_counts (w : World) (c : ChangePlan.Config) (tr : List Event) :
    ∃ c1 ev, ChangePlan.updateContainerRAM w c tr = ⟨Outcome.ok c1, tr ++ ev⟩ ∧
      c1.FailureCount = c.FailureCount + ChangePlan.failedUpdates w tr ev ∧
      c1 = { c with FailureCount := c1.FailureCount, SuccessCount := c1.SuccessCount } ∧
      ev.filter ChangePlan.isUpdateCommand =
        (if c.NRAMNum > c.MaxRAM then []
         else [Event.cmd "opencli".toList ["user-resources".toList, c.ContainerName,
          "--update_ram=".toList ++ c.NRAM]]) := by
  unfold ChangePlan.updateContainerRAM
  split
  · rename_i hram
    simp only [ChangePlan.say, emit_bind, pure_apply]
    refine ⟨_, _, rfl, ?_, rfl, ?_⟩
    · simp only [ChangePlan.failedUpdates, add_zero]
    · rfl
  · rename_i hram
    cases hd : c.Debug <;>
    · simp only [Bool.false_eq_true, if_false, if_true, ChangePlan.say, emit_bind, runCmd_bind,
        pure_bind_apply]
      split <;>
      · rename_i hr
        try simp only [List.append_assoc, List.cons_append, List.nil_append] at hr
        simp only [emit_bind, pure_apply, List.append_assoc, List.cons_append, List.nil_append]
        refine ⟨_, _, rfl, ?_, rfl, rfl⟩
        simp only [ChangePlan.failedUpdates, isUpdateCommand_opencli, hr, Bool.true_and, if_true,
          Bool.false_eq_true, if_false, add_zero, zero_add, List.append_assoc, List.cons_append,
          List.nil_append]

theorem isUpdateCommand_quotacheck (args : List Str) :
    ChangePlan.isUpdateCommand (Event.cmd "quotacheck".toList args) = false := rfl

theorem isUpdateCommand_bash (args : List Str) :
    ChangePlan.isUpdateCommand (Event.cmd "bash".toList args) = false := rfl

theorem updateDiskAndInodes_counts (w : World) (c : ChangePlan.Config) (tr : List Event) :
    ∃ c1 ev, ChangePlan.updateDiskAndInodes w c tr = ⟨Outcome.ok c1, tr ++ ev⟩ ∧
      c1.FailureCount = c.FailureCount + ChangePlan.failedUpdates w tr ev ∧
      c1 = { c with FailureCount := c1.FailureCount, SuccessCount := c1.SuccessCount } ∧
      ev.filter ChangePlan.isUpdateCommand =
        [Event.cmd "setquota".toList
          (updateDiskAndInodesArgs c.ContainerName c.StorageBlocks c.NInodes)] := by
  unfold ChangePlan.updateDiskAndInodes
  cases hd : c.Debug <;>
  · simp only [Bool.false_eq_true, if_false, if_true, ChangePlan.say, emit_bind, runCmd_bind,
      pure_bind_apply]
    split <;>
    · rename_i hr
      try simp only [List.append_assoc, List.cons_append, List.nil_append] at hr
      simp only [proc_bind_assoc, emit_bind, pure_apply, pure_bind_apply, runCmdSilent_bind, runCmd_bind,
        List.append_assoc, List.cons_append, List.nil_append]
      refine ⟨_, _, rfl, ?_, rfl, rfl⟩
      simp only [ChangePlan.failedUpdates, isUpdateCommand_setquota, isUpdateCommand_quotacheck,
        isUpdateCommand_bash, hr, Bool.true_and, Bool.false_and, if_true,
        Bool.false_eq_true, if_false, add_zero, zero_add, List.append_assoc, List.cons_append,
        List.nil_append]


theorem updates_counts (w : World) (c : ChangePlan.Config) (tr : List Event)
    (h : c.NCPU ≤ c.MaxCPU) :
    ∃ c1 ev, ChangePlan.updates w c tr = ⟨Outcome.ok c1, tr ++ ev⟩ ∧
      c1.FailureCount = c.FailureCount + ChangePlan.failedUpdates w tr ev ∧
      c1 = { c with FailureCount := c1.FailureCount, SuccessCount := c1.SuccessCount } ∧
      ev.filter ChangePlan.isUpdateCommand =
        Event.cmd "opencli".toList ["user-resources".toList, c.ContainerName,
          "--update_cpu=".toList ++ itoa c.NCPU] ::
        ((if c.NRAMNum > c.MaxRAM then []
          else [Event.cmd "opencli".toList ["user-resources".toList, c.ContainerName,
            "--update_ram=".toList ++ c.NRAM]]) ++
         [Event.cmd "setquota".toList
            (updateDiskAndInodesArgs c.ContainerName c.StorageBlocks c.NInodes)]) := by
  obtain ⟨c1, ev1, h1, f1, s1, u1⟩ := updateContainerCPU_counts w c tr h
  obtain ⟨c2, ev2, h2, f2, s2, u2⟩ := updateContainerRAM_counts w c1 (tr ++ ev1)
  obtain ⟨c3, ev3, h3, f3, s3, u3⟩ := updateDiskAndInodes_counts w c2 (tr ++ ev1 ++ ev2)
  refine ⟨c3, ev1 ++ (ev2 ++ ev3), ?_, ?_, ?_, ?_⟩
  · unfold ChangePlan.updates
    rw [bind_apply, h1]
    simp only
    rw [bind_apply, h2]
    simp only
    rw [h3]
    simp only [List.append_assoc]
  · rw [failedUpdates_append, failedUpdates_append, f3, f2, f1]
    simp only [List.append_assoc]
    omega
  · rw [s3, s2, s1]
  · rw [List.filter_append, List.filter_append, u1, u2, u3, s2, s1]
    rfl

theorem resize_eq (w : World) (c c1 : ChangePlan.Config) (tr tr1 : List Event)
    (h : ChangePlan.updates w c tr = ⟨Outcome.ok c1, tr1⟩) :
    ChangePlan.resize w c tr =
      (ChangePlan.changePlanNameInDB w c1 >>= fun _ =>
        ChangePlan.dropRedisCache >>= fun _ => ChangePlan.tada w c1 >>= fun _ => osExit 0) tr1 := by
  unfold ChangePlan.resize
  rw [bind_apply, h]

theorem tada_exit (w : World) (c : ChangePlan.Config) (tr : List Event) :
    ∃ ev, (ChangePlan.tada w c >>= fun _ => (osExit 0 : Proc Unit)) tr =
      ⟨Outcome.exit 0, tr ++ ev⟩ := by
  unfold ChangePlan.tada
  split
  · simp only [ChangePlan.say, proc_bind_assoc, emit_bind]
    split
    · simp only [proc_bind_assoc, ask_bind, emit_bind, osExit_apply, List.append_assoc]
      exact ⟨_, rfl⟩
    · simp only [pure_bind_apply, osExit_apply, List.append_assoc]
      exact ⟨_, rfl⟩
  · exact ⟨[], by simp [pure_bind_apply, osExit_apply]⟩


theorem resize_tail (w : World) (c : ChangePlan.Config) (t : List Event) :
    ∃ dbg post,
      (ChangePlan.changePlanNameInDB w c >>= fun _ =>
        ChangePlan.dropRedisCache >>= fun _ => ChangePlan.tada w c >>= fun _ =>
          (osExit 0 : Proc Unit)) t =
        ⟨Outcome.exit 0,
          (t ++ dbg) ++ Event.cmd "bash".toList ["-c".toList, ChangePlan.updatePlanScript w c] ::
            post⟩ ∧
      ((w.cmd (t ++ dbg) "bash".toList ["-c".toList, ChangePlan.updatePlanScript w c]).2 = false →
        Event.print (ChangePlan.planChangedReport c) ∈ post) ∧
      dbg.filter ChangePlan.isUpdateCommand = [] := by
  have key : ∀ t1 : List Event, ∃ post,
      ((runCmd w "bash".toList ["-c".toList, ChangePlan.updatePlanScript w c] >>= fun r =>
          if r.2 = true then
            ChangePlan.say "Error changing plan id in the database for user - is mysql service running?\n".toList
          else ChangePlan.say (ChangePlan.planChangedReport c)) >>= fun _ =>
        ChangePlan.dropRedisCache >>= fun _ => ChangePlan.tada w c >>= fun _ =>
          (osExit 0 : Proc Unit)) t1 =
        ⟨Outcome.exit 0,
          t1 ++ Event.cmd "bash".toList ["-c".toList, ChangePlan.updatePlanScript w c] :: post⟩ ∧
      ((w.cmd t1 "bash".toList ["-c".toList, ChangePlan.updatePlanScript w c]).2 = false →
        Event.print (ChangePlan.planChangedReport c) ∈ post) := by
    intro t1
    unfold ChangePlan.dropRedisCache
    generalize Event.start _ _ = D
    simp only [proc_bind_assoc, runCmd_bind]
    split
    · rename_i hr
      simp only [ChangePlan.say, emit_bind]
      obtain ⟨ev, he⟩ := tada_exit w c (t1 ++ [Event.cmd "bash".toList
        ["-c".toList, ChangePlan.updatePlanScript w c]] ++
        [Event.print "Error changing plan id in the database for user - is mysql service running?\n".toList]
        ++ [D])
      refine ⟨Event.print
        "Error changing plan id in the database for user - is mysql service running?\n".toList ::
        D :: ev, ?_, fun hf => ?_⟩
      · rw [he]
        simp only [List.append_assoc, List.cons_append, List.nil_append]
      · rw [hf] at hr; cases hr
    · simp only [ChangePlan.say, emit_bind]
      obtain ⟨ev, he⟩ := tada_exit w c (t1 ++ [Event.cmd "bash".toList
        ["-c".toList, ChangePlan.updatePlanScript w c]] ++
        [Event.print (ChangePlan.planChangedReport c)] ++ [D])
      refine ⟨Event.print (ChangePlan.planChangedReport c) :: D :: ev, ?_, fun _ => ?_⟩
      · rw [he]
        simp only [List.append_assoc, List.cons_append, List.nil_append]
      · exact List.mem_cons_self _ _
  unfold ChangePlan.changePlanNameInDB
  cases hd : c.Debug
  · obtain ⟨post, h1, h2⟩ := key t
    refine ⟨[], post, ?_, ?_, rfl⟩
    · simp only [List.append_nil]
      rw [← h1]
      rfl
    · simpa using h2
  · obtain ⟨post, h1, h2⟩ := key (t ++ [Event.print ("Changing plan name for user from '".toList ++
      c.CurrentPlanName ++ "' to: '".toList ++ c.NewPlanName ++ "'\n".toList)])
    refine ⟨_, post, ?_, h2, rfl⟩
    rw [← h1]
    rfl


theorem changePlan_main_eq (w : World) (args : List Str) (c : ChangePlan.Config)
    (tr : List Event) (hload : ChangePlan.load w args [] = ⟨Outcome.ok c, tr⟩) :
    ChangePlan.main w args [] = ChangePlan.resize w c tr := by
  unfold ChangePlan.main
  rw [bind_apply, hload]

theorem resize_result (w : World) (c : ChangePlan.Config) (tr : List Event)
    (hcpu : c.NCPU ≤ c.MaxCPU) :
    ∃ c1 ev dbg post,
      ChangePlan.updates w c tr = ⟨Outcome.ok c1, tr ++ ev⟩ ∧
      c1.FailureCount = c.FailureCount + ChangePlan.failedUpdates w tr ev ∧
      c1 = { c with FailureCount := c1.FailureCount, SuccessCount := c1.SuccessCount } ∧
      ChangePlan.resize w c tr = ⟨Outcome.exit 0, (tr ++ ev ++ dbg) ++
        Event.cmd "bash".toList ["-c".toList, ChangePlan.updatePlanScript w c] :: post⟩ ∧
      ((w.cmd (tr ++ ev ++ dbg) "bash".toList
          ["-c".toList, ChangePlan.updatePlanScript w c]).2 = false →
        Event.print (ChangePlan.planChangedReport c1) ∈ post) ∧
      ev.filter ChangePlan.isUpdateCommand =
        Event.cmd "opencli".toList ["user-resources".toList, c.ContainerName,
          "--update_cpu=".toList ++ itoa c.NCPU] ::
        ((if c.NRAMNum > c.MaxRAM then []
          else [Event.cmd "opencli".toList ["user-resources".toList, c.ContainerName,
            "--update_ram=".toList ++ c.NRAM]]) ++
         [Event.cmd "setquota".toList
            (updateDiskAndInodesArgs c.ContainerName c.StorageBlocks c.NInodes)]) ∧
      dbg.filter ChangePlan.isUpdateCommand = [] := by
  obtain ⟨c1, ev, h1, f1, s1, u1⟩ := updates_counts w c tr hcpu
  obtain ⟨dbg, post, h2, h3, hdbg⟩ := resize_tail w c1 (tr ++ ev)
  have hs : ChangePlan.updatePlanScript w c1 = ChangePlan.updatePlanScript w c := by
    rw [s1]; rfl
  rw [hs] at h2 h3
  exact ⟨c1, ev, dbg, post, h1, f1, s1, by rw [resize_eq w c c1 tr _ h1, h2], h3, u1, hdbg⟩

/-- C19. In every run of `user-change-plan` whose limits were loaded and whose
new CPU limit is within the server's cores, the three updates return whatever
commands fail. The update commands they run (`opencli user-resources`,
`setquota`) are exactly, in this order, the CPU update, the RAM update unless
the new RAM limit exceeds the server's memory, and `setquota` with the new
blocks and inodes; `FailureCount` is then the number of these commands that
returned an error. The `UPDATE` of the plan id is run after them, with no
update command in between, and the process ends with exit status 0; when the
`UPDATE` succeeds and `FailureCount` is at least 1, the report printed after
it names that count. -/
theorem resize_is_best_effort (w : World) (args : List Str) (c : ChangePlan.Config)
    (tr : List Event) (hload : ChangePlan.load w args [] = ⟨Outcome.ok c, tr⟩)
    (hcpu : c.NCPU ≤ c.MaxCPU) :
    ∃ c1 ev dbg post,
      ChangePlan.updates w c tr = ⟨Outcome.ok c1, tr ++ ev⟩ ∧
      ev.filter ChangePlan.isUpdateCommand =
        Event.cmd "opencli".toList ["user-resources".toList, c.ContainerName,
          "--update_cpu=".toList ++ itoa c.NCPU] ::
        ((if c.NRAMNum > c.MaxRAM then []
          else [Event.cmd "opencli".toList ["user-resources".toList, c.ContainerName,
            "--update_ram=".toList ++ c.NRAM]]) ++
         [Event.cmd "setquota".toList
            (updateDiskAndInodesArgs c.ContainerName c.StorageBlocks c.NInodes)]) ∧
      dbg.filter ChangePlan.isUpdateCommand = [] ∧
      c1.FailureCount = ChangePlan.failedUpdates w tr ev ∧
      ChangePlan.main w args [] = ⟨Outcome.exit 0, (tr ++ ev ++ dbg) ++
        Event.cmd "bash".toList ["-c".toList, ChangePlan.updatePlanScript w c] :: post⟩ ∧
      ((w.cmd (tr ++ ev ++ dbg) "bash".toList
          ["-c".toList, ChangePlan.updatePlanScript w c]).2 = false →
        0 < c1.FailureCount →
        Event.print ("Plan changed successfuly for user ".toList ++ c.ContainerName ++
          " from ".toList ++ c.CurrentPlanName ++ " to ".toList ++ c.NewPlanName ++
          " - (".toList ++ itoa c1.FailureCount ++ " warnings)\n".toList) ∈ post) := by
  obtain ⟨c1, ev, dbg, post, h1, f1, s1, h2, h3, u1, hdbg⟩ := resize_result w c tr hcpu
  refine ⟨c1, ev, dbg, post, h1, u1, hdbg, ?_, ?_, fun hf hpos => ?_⟩
  · rw [f1, load_failureCount w args c [] tr hload, zero_add]
  · rw [changePlan_main_eq w args c tr hload, h2]
  · have h4 := h3 hf
    have h5 : ChangePlan.planChangedReport c1 =
        "Plan changed successfuly for user ".toList ++ c.ContainerName ++
          " from ".toList ++ c.CurrentPlanName ++ " to ".toList ++ c.NewPlanName ++
          " - (".toList ++ itoa c1.FailureCount ++ " warnings)\n".toList := by
      unfold ChangePlan.planChangedReport
      rw [if_pos hpos, s1]
    rw [← h5]
    exact h4


/-- C19 (witness). For `alice pro` on a server where the CPU update fails and
every other command succeeds, the limits are loaded, the new CPU limit 2 is
within the 4 cores, the CPU, RAM and disk updates are all attempted, and the
run ends with exit status 0 after printing the report with 1 warning. -/
theorem resize_is_best_effort_witness :
    (ChangePlan.main ChangePlan.resizeWorld ["alice".toList, "pro".toList] []).out =
        Outcome.exit 0 ∧
      Event.print "Plan changed successfuly for user alice from starter to pro - (1 warnings)\n".toList ∈
        (ChangePlan.main ChangePlan.resizeWorld ["alice".toList, "pro".toList] []).trace ∧
      (ChangePlan.main ChangePlan.resizeWorld ["alice".toList, "pro".toList] []).trace.filter
          ChangePlan.isUpdateCommand =
        [ Event.cmd "opencli".toList
            ["user-resources".toList, "alice".toList, "--update_cpu=2".toList],
          Event.cmd "opencli".toList
            ["user-resources".toList, "alice".toList, "--update_ram=2g".toList],
          Event.cmd "setquota".toList ["-u".toList, "alice".toList, "20480000".toList,
            "20480000".toList, "200000".toList, "200000".toList, "/".toList] ] := by
  refine (fun h => ⟨h.1, h.2, by rfl⟩ : _ ∧ _ → _ ∧ _ ∧ _) ?_
  obtain ⟨c1, ev, dbg, post, h1, _, _, _, hm, hr⟩ :=
    resize_is_best_effort ChangePlan.resizeWorld ["alice".toList, "pro".toList]
      ChangePlan.aliceLoaded ChangePlan.aliceLoadTrace rfl (by decide)
  have e1 : (match (ChangePlan.updates ChangePlan.resizeWorld ChangePlan.aliceLoaded
      ChangePlan.aliceLoadTrace).out with
    | Outcome.ok c => c.FailureCount
    | _ => 0) = 1 := by rfl
  rw [h1] at e1
  simp only at e1
  have h2 := hr rfl (by rw [e1]; decide)
  rw [e1] at h2
  rw [hm]
  refine ⟨rfl, ?_⟩
  simp only [List.mem_append, List.mem_cons]
  exact Or.inr (Or.inr h2)


/-- Once the limits are loaded, the exit status of `user-change-plan` depends
only on the CPU check: 0 when the new CPU limit is within the server's cores,
whatever the update commands and the `UPDATE` of the plan id return, and 1,
before any update, when it exceeds them. -/
theorem changePlan_exit_code (w : World) (args : List Str) (c : ChangePlan.Config)
    (tr : List Event) (hload : ChangePlan.load w args [] = ⟨Outcome.ok c, tr⟩) :
    (c.NCPU ≤ c.MaxCPU → (ChangePlan.main w args []).out = Outcome.exit 0) ∧
    (c.MaxCPU < c.NCPU → ChangePlan.main w args [] = ⟨Outcome.exit 1, tr ++
      [Event.print ("Error: New CPU value exceeds the server limit, not enough CPU cores - ".toList
        ++ itoa c.NCPU ++ " > ".toList ++ itoa c.MaxCPU ++ ".\n".toList)]⟩) := by
  rw [changePlan_main_eq w args c tr hload]
  constructor
  · intro hcpu
    obtain ⟨c1, ev, dbg, post, _, _, _, h2, _, _, _⟩ := resize_result w c tr hcpu
    rw [h2]
  · intro hcpu
    unfold ChangePlan.resize ChangePlan.updates ChangePlan.updateContainerCPU
    simp only [gt_iff_lt, hcpu, if_true, ChangePlan.say, proc_bind_assoc, emit_bind, osExit_bind]

/-- C20 (evaluation at the failing input). For `alice pro` on a server where
every update command succeeds and the database refuses the `UPDATE` of the
plan id, the run prints the error about the plan id and ends with exit
status 0. -/
theorem failed_plan_update_exits_zero :
    (ChangePlan.updateFailsWorld.cmd [] "bash".toList ["-c".toList,
        ChangePlan.updatePlanScript ChangePlan.updateFailsWorld ChangePlan.aliceLoaded]).2 = true ∧
      ChangePlan.main ChangePlan.updateFailsWorld ["alice".toList, "pro".toList] [] =
        ⟨Outcome.exit 0, ChangePlan.aliceLoadTrace ++
          [ Event.cmd "opencli".toList
              ["user-resources".toList, "alice".toList, "--update_cpu=2".toList],
            Event.print "[✔] Total CPU limit (2) changed successfully for container.\n".toList,
            Event.cmd "opencli".toList
              ["user-resources".toList, "alice".toList, "--update_ram=2g".toList],
            Event.print "[✔] Total Memory limit 2g changed successfully for user\n".toList,
            Event.cmd "setquota".toList ["-u".toList, "alice".toList, "20480000".toList,
              "20480000".toList, "200000".toList, "200000".toList, "/".toList],
            Event.print
              "[✔] Disk usage limit: 20 and inodes limit: 200000 applied successfully to the user.\n".toList,
            Event.cmd "quotacheck".toList ["-avm".toList],
            Event.cmd "bash".toList ["-c".toList,
              "repquota -u / > /etc/openpanel/openpanel/core/users/repquota".toList],
            Event.cmd "bash".toList ["-c".toList,
              ("source /usr/local/opencli/db.sh && mysql -D \"$mysql_database\" -N -B -e " ++
                "UPDATE users SET plan_id = 2 WHERE username = 'alice';").toList],
            Event.print
              "Error changing plan id in the database for user - is mysql service running?\n".toList,
            Event.start "docker".toList ["--context=default".toList, "exec".toList,
              "openpanel_redis".toList, "bash".toList, "-c".toList,
              "redis-cli --raw KEYS 'flask_cache_*' | xargs -r redis-cli DEL".toList] ]⟩ := by
  refine ⟨by rfl, by rfl⟩


/-! ### Deprovisioning -/

theorem stages_nil {α : Type} (lo hi : Nat) (x : Proc α) (h : ∀ tr, (x tr).trace = tr) :
    Delete.Stages lo hi x := by
  intro tr
  refine ⟨[], by simp [h], by simp, ?_⟩
  simp [Delete.InOrder]

theorem stages_pure {α : Type} (lo hi : Nat) (a : α) : Delete.Stages lo hi (pure a : Proc α) :=
  stages_nil lo hi _ (fun _ => rfl)

theorem stages_osExit {α : Type} (lo hi : Nat) (code : Nat) :
    Delete.Stages lo hi (osExit code : Proc α) :=
  stages_nil lo hi _ (fun _ => rfl)

theorem stages_ask {α : Type} (lo hi : Nat) (q : List Event → α) :
    Delete.Stages lo hi (ask q) :=
  stages_nil lo hi _ (fun _ => rfl)

theorem stages_one {α : Type} (lo hi : Nat) (x : Proc α) (e : Event)
    (h : ∀ tr, (x tr).trace = tr ++ [e])
    (he : ∀ k, Delete.stageOf e = some k → lo ≤ k ∧ k ≤ hi) : Delete.Stages lo hi x := by
  intro tr
  refine ⟨[e], h tr, ?_, ?_⟩
  · intro e1 h1 k hk
    rw [List.mem_singleton.mp h1] at hk
    exact he k hk
  · unfold Delete.InOrder
    cases hs : Delete.stageOf e <;> simp [List.filterMap, hs]

theorem stages_say (lo hi : Nat) (text : Str) : Delete.Stages lo hi (Delete.say text) :=
  stages_one lo hi _ (Event.print text) (fun _ => rfl) (fun k hk => by simp [Delete.stageOf] at hk)

theorem stages_emit (lo hi : Nat) (e : Event)
    (he : ∀ k, Delete.stageOf e = some k → lo ≤ k ∧ k ≤ hi) : Delete.Stages lo hi (emit e) :=
  stages_one lo hi _ e (fun _ => rfl) he

theorem stages_runCmd (lo hi : Nat) (w : World) (name : Str) (args : List Str)
    (he : ∀ k, Delete.stageOf (Event.cmd name args) = some k → lo ≤ k ∧ k ≤ hi) :
    Delete.Stages lo hi (runCmd w name args) :=
  stages_one lo hi _ _ (fun _ => rfl) he

theorem stages_runCmdSilent (lo hi : Nat) (w : World) (name : Str) (args : List Str)
    (he : ∀ k, Delete.stageOf (Event.cmd name args) = some k → lo ≤ k ∧ k ≤ hi) :
    Delete.Stages lo hi (runCmdSilent w name args) :=
  stages_one lo hi _ _ (fun _ => rfl) he

theorem stages_mysqlQuery (lo hi : Nat) (w : World) (q : Str)
    (he : ∀ k, Delete.stageOf (Event.sql q) = some k → lo ≤ k ∧ k ≤ hi) :
    Delete.Stages lo hi (mysqlQuery w q) :=
  stages_one lo hi _ _ (fun _ => rfl) he

theorem stages_bind {α β : Type} (lo mid hi : Nat) (x : Proc α) (f : α → Proc β)
    (h1 : lo ≤ mid) (h2 : mid ≤ hi)
    (hx : Delete.Stages lo mid x) (hf : ∀ a, Delete.Stages mid hi (f a)) :
    Delete.Stages lo hi (x >>= f) := by
  intro tr
  obtain ⟨ev1, t1, b1, o1⟩ := hx tr
  rw [bind_apply]
  rcases hxt : x tr with ⟨o, tr1⟩
  rw [hxt] at t1
  simp only at t1
  have wide : ∀ e ∈ ev1, ∀ k, Delete.stageOf e = some k → lo ≤ k ∧ k ≤ hi :=
    fun e he k hk => ⟨(b1 e he k hk).1, le_trans (b1 e he k hk).2 h2⟩
  cases o with
  | ok a =>
    obtain ⟨ev2, t2, b2, o2⟩ := hf a tr1
    refine ⟨ev1 ++ ev2, ?_, ?_, ?_⟩
    · simp only
      rw [t2, t1, List.append_assoc]
    · intro e he k hk
      rcases List.mem_append.mp he with h | h
      · exact wide e h k hk
      · exact ⟨le_trans h1 (b2 e h k hk).1, (b2 e h k hk).2⟩
    · unfold Delete.InOrder at o1 o2 ⊢
      rw [List.filterMap_append, List.pairwise_append]
      refine ⟨o1, o2, ?_⟩
      intro a ha b hb
      obtain ⟨ea, hea, hsa⟩ := List.mem_filterMap.mp ha
      obtain ⟨eb, heb, hsb⟩ := List.mem_filterMap.mp hb
      exact le_trans (b1 ea hea a hsa).2 (b2 eb heb b hsb).1
  | exit code => exact ⟨ev1, t1, wide, o1⟩
  | panic => exact ⟨ev1, t1, wide, o1⟩

theorem stages_bind_same {α β : Type} (lo hi : Nat) (x : Proc α) (f : α → Proc β)
    (k : Nat) (hk1 : lo ≤ k) (hk2 : k ≤ hi)
    (hx : Delete.Stages k k x) (hf : ∀ a, Delete.Stages k hi (f a)) :
    Delete.Stages lo hi (x >>= f) := by
  have h := stages_bind k k hi x f (le_refl k) hk2 hx hf
  intro tr
  obtain ⟨ev, t, b, o⟩ := h tr
  exact ⟨ev, t, fun e he j hj => ⟨le_trans hk1 (b e he j hj).1, (b e he j hj).2⟩, o⟩

theorem stages_ite {α : Type} (lo hi : Nat) (p : Prop) [Decidable p] (x y : Proc α)
    (hx : Delete.Stages lo hi x) (hy : Delete.Stages lo hi y) :
    Delete.Stages lo hi (if p then x else y) := by
  split
  · exact hx
  · exact hy

theorem stages_forEach {α : Type} (k : Nat) (xs : List α) (f : α → Proc Unit)
    (hf : ∀ x, Delete.Stages k k (f x)) : Delete.Stages k k (forEach xs f) := by
  induction xs with
  | nil => exact stages_pure k k ()
  | cons x rest ih =>
    unfold forEach
    exact stages_bind k k k _ _ (le_refl k) (le_refl k) (hf x) (fun _ => ih)


theorem stage_bounds (e : Event) (n lo hi : Nat) (h : Delete.stageOf e = some n)
    (hlo : lo ≤ n) (hhi : n ≤ hi) : ∀ k, Delete.stageOf e = some k → lo ≤ k ∧ k ≤ hi := by
  intro k hk
  rw [h] at hk
  cases hk
  exact ⟨hlo, hhi⟩

theorem stages_confirmAction (w : World) (c : Delete.Config) (u : Str) :
    Delete.Stages 1 1 (Delete.confirmAction w c u) := by
  unfold Delete.confirmAction
  refine stages_ite 1 1 _ _ _ (stages_pure 1 1 ()) ?_
  refine stages_bind 1 1 1 _ _ (le_refl 1) (le_refl 1) (stages_say 1 1 _) (fun _ => ?_)
  refine stages_bind 1 1 1 _ _ (le_refl 1) (le_refl 1) (stages_ask 1 1 _) (fun line => ?_)
  refine stages_ite 1 1 _ _ _ ?_ (stages_pure 1 1 ())
  exact stages_bind 1 1 1 _ _ (le_refl 1) (le_refl 1) (stages_say 1 1 _)
    (fun _ => stages_osExit 1 1 0)

theorem stages_getUserInfo (w : World) (c : Delete.Config) :
    Delete.Stages 1 1 (Delete.getUserInfo w c) := by
  unfold Delete.getUserInfo
  refine stages_bind 1 1 1 _ _ (le_refl 1) (le_refl 1)
    (stages_mysqlQuery 1 1 w _ (stage_bounds _ 1 1 1 rfl (le_refl 1) (le_refl 1))) (fun r => ?_)
  refine stages_ite 1 1 _ _ _ ?_ ?_
  · exact stages_bind 1 1 1 _ _ (le_refl 1) (le_refl 1) (stages_say 1 1 _)
      (fun _ => stages_osExit 1 1 1)
  · refine stages_ite 1 1 _ _ _ ?_ (stages_pure 1 1 _)
    exact stages_bind 1 1 1 _ _ (le_refl 1) (le_refl 1) (stages_say 1 1 _)
      (fun _ => stages_osExit 1 1 1)

theorem stages_deleteVhostFiles (w : World) (c : Delete.Config) :
    Delete.Stages 2 2 (Delete.deleteVhostFiles w c) := by
  unfold Delete.deleteVhostFiles
  refine stages_bind 2 2 2 _ _ (le_refl 2) (le_refl 2)
    (stages_runCmd 2 2 w _ _ (stage_bounds _ 2 2 2 rfl (le_refl 2) (le_refl 2))) (fun r => ?_)
  refine stages_bind 2 2 2 _ _ (le_refl 2) (le_refl 2) ?_ (fun _ => ?_)
  · exact stages_forEach 2 _ _ (fun d => stages_emit 2 2 _
      (stage_bounds _ 2 2 2 rfl (le_refl 2) (le_refl 2)))
  · exact stages_bind 2 2 2 _ _ (le_refl 2) (le_refl 2)
      (stages_runCmdSilent 2 2 w _ _ (stage_bounds _ 2 2 2 rfl (le_refl 2) (le_refl 2)))
      (fun _ => stages_pure 2 2 ())

theorem startsWith_joinPath_ftp (name : Str) :
    startsWith (joinPath "/etc/openpanel/ftp/users".toList name) "/etc/openpanel/ftp/users".toList
      = true := by
  unfold joinPath
  split <;> rfl

theorem stages_deleteFTPAccounts (w : World) (l u : Str) :
    Delete.Stages 3 3 (Delete.deleteFTPAccounts w l u) := by
  unfold Delete.deleteFTPAccounts
  refine stages_bind 3 3 3 _ _ (le_refl 3) (le_refl 3) (stages_ask 3 3 _) (fun ex => ?_)
  refine stages_ite 3 3 _ _ _ ?_ (stages_pure 3 3 _)
  refine stages_bind 3 3 3 _ _ (le_refl 3) (le_refl 3) (stages_say 3 3 _) (fun _ => ?_)
  refine stages_bind 3 3 3 _ _ (le_refl 3) (le_refl 3) (stages_ask 3 3 _) (fun f => ?_)
  cases f with
  | none => exact stages_pure 3 3 ()
  | some lines =>
    refine stages_forEach 3 _ _ (fun line => ?_)
    refine stages_bind 3 3 3 _ _ (le_refl 3) (le_refl 3) (stages_say 3 3 _) (fun _ => ?_)
    exact stages_bind 3 3 3 _ _ (le_refl 3) (le_refl 3)
      (stages_runCmdSilent 3 3 w _ _ (stage_bounds _ 3 3 3 rfl (le_refl 3) (le_refl 3)))
      (fun _ => stages_pure 3 3 ())

theorem stages_deleteFTPUsers (w : World) (u : Str) :
    Delete.Stages 3 3 (Delete.deleteFTPUsers w u) := by
  unfold Delete.deleteFTPUsers
  refine stages_bind 3 3 3 _ _ (le_refl 3) (le_refl 3) (stages_ask 3 3 _) (fun isDir => ?_)
  refine stages_ite 3 3 _ _ _ (stages_pure 3 3 ()) ?_
  refine stages_bind 3 3 3 _ _ (le_refl 3) (le_refl 3) (stages_deleteFTPAccounts w _ u)
    (fun _ => ?_)
  refine stages_emit 3 3 _ (stage_bounds _ 3 3 3 ?_ (le_refl 3) (le_refl 3))
  simp only [Delete.stageOf, startsWith_joinPath_ftp, if_true]


theorem stageOf_deleteStatements (uid u ids : Str) :
    Delete.stageOf (Event.sql (Delete.deleteStatements uid u ids)) = some 4 := by
  unfold Delete.deleteStatements
  split <;> rfl

theorem stages_deleteUserFromDatabase (w : World) (c : Delete.Config) (u : Str) :
    Delete.Stages 4 4 (Delete.deleteUserFromDatabase w c u) := by
  unfold Delete.deleteUserFromDatabase
  refine stages_bind 4 4 4 _ _ (le_refl 4) (le_refl 4)
    (stages_mysqlQuery 4 4 w _ (stage_bounds _ 4 4 4 rfl (le_refl 4) (le_refl 4))) (fun r => ?_)
  exact stages_bind 4 4 4 _ _ (le_refl 4) (le_refl 4)
    (stages_mysqlQuery 4 4 w _
      (stage_bounds _ 4 4 4 (stageOf_deleteStatements _ _ _) (le_refl 4) (le_refl 4)))
    (fun _ => stages_pure 4 4 ())

theorem stages_doIf (lo hi : Nat) (p : Prop) [Decidable p] (x : Proc Unit)
    (hx : Delete.Stages lo hi x) : Delete.Stages lo hi (doIf p x) := by
  unfold doIf
  exact stages_ite lo hi _ _ _ hx (stages_pure lo hi ())

theorem stages_deleteAllUserFiles (w : World) (c : Delete.Config) :
    Delete.Stages 5 5 (Delete.deleteAllUserFiles w c) := by
  unfold Delete.deleteAllUserFiles
  refine stages_bind 5 5 5 _ _ (le_refl 5) (le_refl 5) ?_ (fun _ => ?_)
  · refine stages_doIf 5 5 _ _ ?_
    exact stages_bind 5 5 5 _ _ (le_refl 5) (le_refl 5)
      (stages_runCmd 5 5 w _ _ (stage_bounds _ 5 5 5 rfl (le_refl 5) (le_refl 5)))
      (fun _ => stages_pure 5 5 _)
  refine stages_bind 5 5 5 _ _ (le_refl 5) (le_refl 5)
    (stages_runCmdSilent 5 5 w _ _ (stage_bounds _ 5 5 5 rfl (le_refl 5) (le_refl 5)))
    (fun _ => ?_)
  refine stages_bind 5 5 5 _ _ (le_refl 5) (le_refl 5)
    (stages_runCmdSilent 5 5 w _ _ (stage_bounds _ 5 5 5 rfl (le_refl 5) (le_refl 5)))
    (fun _ => ?_)
  refine stages_bind 5 5 5 _ _ (le_refl 5) (le_refl 5) (stages_ask 5 5 _) (fun home => ?_)
  refine stages_bind 5 5 5 _ _ (le_refl 5) (le_refl 5) ?_ (fun _ => ?_)
  · exact stages_doIf 5 5 _ _
      (stages_emit 5 5 _ (stage_bounds _ 5 5 5 rfl (le_refl 5) (le_refl 5)))
  refine stages_bind 5 5 5 _ _ (le_refl 5) (le_refl 5) (stages_ask 5 5 _) (fun core => ?_)
  exact stages_doIf 5 5 _ _
    (stages_emit 5 5 _ (stage_bounds _ 5 5 5 rfl (le_refl 5) (le_refl 5)))

theorem stages_deleteContext (w : World) (c : Delete.Config) :
    Delete.Stages 6 6 (Delete.deleteContext w c) := by
  unfold Delete.deleteContext
  exact stages_bind 6 6 6 _ _ (le_refl 6) (le_refl 6)
    (stages_runCmdSilent 6 6 w _ _ (stage_bounds _ 6 6 6 rfl (le_refl 6) (le_refl 6)))
    (fun _ => stages_pure 6 6 ())

theorem stages_refreshResellersData (w : World) :
    Delete.Stages 7 7 (Delete.refreshResellersData w) := by
  unfold Delete.refreshResellersData
  refine stages_bind 7 7 7 _ _ (le_refl 7) (le_refl 7) (stages_ask 7 7 _) (fun isDir => ?_)
  refine stages_ite 7 7 _ _ _ (stages_pure 7 7 ()) ?_
  refine stages_bind 7 7 7 _ _ (le_refl 7) (le_refl 7) (stages_ask 7 7 _) (fun es => ?_)
  cases es with
  | none => exact stages_pure 7 7 ()
  | some es =>
    refine stages_forEach 7 _ _ (fun entry => ?_)
    refine stages_ite 7 7 _ _ _ (stages_pure 7 7 ()) ?_
    refine stages_bind 7 7 7 _ _ (le_refl 7) (le_refl 7)
      (stages_mysqlQuery 7 7 w _ (stage_bounds _ 7 7 7 rfl (le_refl 7) (le_refl 7)))
      (fun r => ?_)
    refine stages_ite 7 7 _ _ _ (stages_pure 7 7 ()) ?_
    exact stages_bind 7 7 7 _ _ (le_refl 7) (le_refl 7)
      (stages_runCmd 7 7 w _ _ (stage_bounds _ 7 7 7 rfl (le_refl 7) (le_refl 7)))
      (fun _ => stages_pure 7 7 ())

theorem stages_reloadUserQuotas (w : World) : Delete.Stages 8 8 (Delete.reloadUserQuotas w) := by
  unfold Delete.reloadUserQuotas
  refine stages_bind 8 8 8 _ _ (le_refl 8) (le_refl 8)
    (stages_emit 8 8 _ (stage_bounds _ 8 8 8 rfl (le_refl 8) (le_refl 8))) (fun _ => ?_)
  refine stages_bind 8 8 8 _ _ (le_refl 8) (le_refl 8)
    (stages_emit 8 8 _ (stage_bounds _ 8 8 8 rfl (le_refl 8) (le_refl 8))) (fun _ => ?_)
  refine stages_bind 8 8 8 _ _ (le_refl 8) (le_refl 8)
    (stages_runCmdSilent 8 8 w _ _ (stage_bounds _ 8 8 8 rfl (le_refl 8) (le_refl 8)))
    (fun _ => ?_)
  exact stages_bind 8 8 8 _ _ (le_refl 8) (le_refl 8)
    (stages_runCmd 8 8 w _ _ (stage_bounds _ 8 8 8 rfl (le_refl 8) (le_refl 8)))
    (fun _ => stages_pure 8 8 ())


theorem endsWith_append_left (a b s : Str) (h : endsWith b s = true) :
    endsWith (a ++ b) s = true := by
  unfold endsWith at h ⊢
  rw [List.reverse_append]
  exact List.isPrefixOf_iff_prefix.mpr
    ((List.isPrefixOf_iff_prefix.mp h).trans (List.prefix_append _ _))

theorem endsWith_self (s : Str) : endsWith s s = true := by
  unfold endsWith
  exact List.isPrefixOf_iff_prefix.mpr (List.prefix_refl _)

theorem isUserRowDelete_deleteStatements (uid u ids : Str) :
    Delete.isUserRowDelete u (Event.sql (Delete.deleteStatements uid u ids)) = true := by
  unfold Delete.isUserRowDelete Delete.deleteStatements
  simp only [List.append_assoc]
  refine endsWith_append_left _ _ _ ?_
  refine endsWith_append_left _ _ _ ?_
  refine endsWith_append_left _ _ _ ?_
  refine endsWith_append_left _ _ _ ?_
  refine endsWith_append_left _ _ _ ?_
  refine endsWith_append_left _ _ _ ?_
  refine endsWith_append_left _ _ _ ?_
  exact endsWith_self _


theorem deleteUserFromDatabase_apply (w : World) (c : Delete.Config) (u : Str)
    (tr : List Event) :
    Delete.deleteUserFromDatabase w c u tr = ⟨Outcome.ok (), tr ++
      [ Event.sql ("SELECT domain_id FROM domains WHERE user_id='".toList ++ c.UserID ++
          "';".toList),
        Event.sql (Delete.deleteStatements c.UserID u
          (trimSpace (w.sql tr ("SELECT domain_id FROM domains WHERE user_id='".toList ++
            c.UserID ++ "';".toList)).1)) ]⟩ := by
  unfold Delete.deleteUserFromDatabase
  simp only [mysqlQuery_bind, pure_apply, List.append_assoc, List.cons_append, List.nil_append]

/-- The steps of `deleteUser` before the database rows are deleted. -/
theorem stages_beforeDatabase (w : World) (c : Delete.Config) (u : Str) :
    Delete.Stages 1 3 (Delete.confirmAction w c c.Username >>= fun _ =>
      Delete.getUserInfo w c >>= fun c1 =>
        Delete.deleteVhostFiles w c1 >>= fun _ =>
          Delete.deleteFTPUsers w u >>= fun _ => (pure c1 : Proc Delete.Config)) := by
  refine stages_bind_same 1 3 _ _ 1 (le_refl 1) (by decide) (stages_confirmAction w c _)
    (fun _ => ?_)
  refine stages_bind 1 1 3 _ _ (le_refl 1) (by decide) (stages_getUserInfo w c) (fun c1 => ?_)
  refine stages_bind_same 1 3 _ _ 2 (by decide) (by decide) (stages_deleteVhostFiles w c1)
    (fun _ => ?_)
  refine stages_bind_same 2 3 _ _ 3 (by decide) (le_refl 3) (stages_deleteFTPUsers w u)
    (fun _ => stages_pure 3 3 _)

/-- The steps of `deleteUser` after the database rows are deleted. -/
theorem stages_afterDatabase (w : World) (c1 : Delete.Config) :
    Delete.Stages 5 8 (Delete.deleteAllUserFiles w c1 >>= fun _ =>
      Delete.deleteContext w c1 >>= fun _ =>
        Delete.refreshResellersData w >>= fun _ =>
          Delete.reloadUserQuotas w >>= fun _ =>
            Delete.say ("User ".toList ++ c1.Username ++ " deleted successfully.\n".toList) >>=
              fun _ => (pure c1 : Proc Delete.Config)) := by
  refine stages_bind_same 5 8 _ _ 5 (le_refl 5) (by decide) (stages_deleteAllUserFiles w c1)
    (fun _ => ?_)
  refine stages_bind_same 5 8 _ _ 6 (by decide) (by decide) (stages_deleteContext w c1)
    (fun _ => ?_)
  refine stages_bind_same 6 8 _ _ 7 (by decide) (by decide) (stages_refreshResellersData w)
    (fun _ => ?_)
  refine stages_bind_same 7 8 _ _ 8 (by decide) (le_refl 8) (stages_reloadUserQuotas w)
    (fun _ => ?_)
  exact stages_bind 8 8 8 _ _ (le_refl 8) (le_refl 8) (stages_say 8 8 _)
    (fun _ => stages_pure 8 8 _)

theorem deleteUser_eq (w : World) (c : Delete.Config) (u : Str) :
    Delete.deleteUser w c u =
      ((Delete.confirmAction w { c with ProvidedUsername := u, Username := Delete.displayName u }
          (Delete.displayName u) >>= fun _ =>
        Delete.getUserInfo w { c with ProvidedUsername := u, Username := Delete.displayName u }
          >>= fun c1 =>
          Delete.deleteVhostFiles w c1 >>= fun _ =>
            Delete.deleteFTPUsers w u >>= fun _ => (pure c1 : Proc Delete.Config)) >>= fun c1 =>
        Delete.deleteUserFromDatabase w c1 u >>= fun _ =>
          (Delete.deleteAllUserFiles w c1 >>= fun _ =>
            Delete.deleteContext w c1 >>= fun _ =>
              Delete.refreshResellersData w >>= fun _ =>
                Delete.reloadUserQuotas w >>= fun _ =>
                  Delete.say ("User ".toList ++ c1.Username ++
                    " deleted successfully.\n".toList) >>=
                    fun _ => (pure c1 : Proc Delete.Config))) := by
  unfold Delete.deleteUser
  simp only [proc_bind_assoc]
  rfl


/-- A run of `deleteUser` appends actions in step order, and when it appends
an action of the step 5 or later, its actions contain the statement that
deletes the rows of the user, an action of step 4. -/
theorem deleteUser_trace (w : World) (c : Delete.Config) (u : Str) (tr : List Event) :
    ∃ ev, (Delete.deleteUser w c u tr).trace = tr ++ ev ∧ Delete.InOrder ev ∧
      (∀ e ∈ ev, ∀ k, Delete.stageOf e = some k → 1 ≤ k ∧ k ≤ 8) ∧
      ((∃ e ∈ ev, ∃ k, Delete.stageOf e = some k ∧ 5 ≤ k) →
        ∃ d ∈ ev, Delete.stageOf d = some 4 ∧ Delete.isUserRowDelete u d = true) := by
  have hall : Delete.Stages 1 8 (Delete.deleteUser w c u) := by
    rw [deleteUser_eq]
    refine stages_bind 1 3 8 _ _ (by decide) (by decide) (stages_beforeDatabase w _ u)
      (fun c1 => ?_)
    refine stages_bind_same 3 8 _ _ 4 (by decide) (by decide)
      (stages_deleteUserFromDatabase w c1 u) (fun _ => ?_)
    have h := stages_afterDatabase w c1
    intro t
    obtain ⟨ev, e1, e2, e3⟩ := h t
    exact ⟨ev, e1, fun e he k hk => ⟨le_trans (by decide) (e2 e he k hk).1, (e2 e he k hk).2⟩, e3⟩
  obtain ⟨ev, ht, hb, ho⟩ := hall tr
  refine ⟨ev, ht, ho, hb, ?_⟩
  rintro ⟨e, he, k, hk, hk5⟩
  rw [deleteUser_eq, bind_apply] at ht
  obtain ⟨ev1, t1, b1, _⟩ := stages_beforeDatabase w
    { c with ProvidedUsername := u, Username := Delete.displayName u } u tr
  rcases hx : (Delete.confirmAction w
      { c with ProvidedUsername := u, Username := Delete.displayName u } (Delete.displayName u)
      >>= fun _ => Delete.getUserInfo w
        { c with ProvidedUsername := u, Username := Delete.displayName u } >>= fun c1 =>
        Delete.deleteVhostFiles w c1 >>= fun _ =>
          Delete.deleteFTPUsers w u >>= fun _ => (pure c1 : Proc Delete.Config)) tr
    with ⟨o, tr1⟩
  rw [hx] at ht t1
  simp only at t1
  subst t1
  have stop : ∀ o1 : Outcome Delete.Config, (⟨o1, tr ++ ev1⟩ : Res Delete.Config).trace = tr ++ ev →
      False := by
    intro o1 h1
    simp only at h1
    have := List.append_cancel_left h1
    rw [← this] at he
    have := (b1 e he k hk).2
    omega
  cases o with
  | ok c1 =>
    simp only at ht
    rw [bind_apply, deleteUserFromDatabase_apply] at ht
    simp only at ht
    obtain ⟨ev3, t3, _, _⟩ := stages_afterDatabase w c1 (tr ++ ev1 ++
      [ Event.sql ("SELECT domain_id FROM domains WHERE user_id='".toList ++ c1.UserID ++
          "';".toList),
        Event.sql (Delete.deleteStatements c1.UserID u
          (trimSpace (w.sql (tr ++ ev1) ("SELECT domain_id FROM domains WHERE user_id='".toList ++
            c1.UserID ++ "';".toList)).1)) ])
    rw [t3, List.append_assoc, List.append_assoc] at ht
    have hev := List.append_cancel_left ht
    refine ⟨Event.sql (Delete.deleteStatements c1.UserID u
      (trimSpace (w.sql (tr ++ ev1) ("SELECT domain_id FROM domains WHERE user_id='".toList ++
        c1.UserID ++ "';".toList)).1)), ?_, stageOf_deleteStatements _ _ _,
      isUserRowDelete_deleteStatements _ _ _⟩
    rw [← hev]
    exact List.mem_append_right _ (List.mem_append_left _
      (List.mem_cons_of_mem _ (List.mem_cons_self _ _)))
  | exit code => exact (stop _ ht).elim
  | panic => exact (stop _ ht).elim


/-- C21. In every run of `deleteUser` the actions are appended in the order of
the steps (1 lookup of the user, 2 vhost files, 3 FTP sub-accounts, 4 database
rows, 5 files and OS accounts, 6 docker context, 7 reseller counts, 8 quotas),
and every action of step 5 or later, in particular every removal of the home
or core-configuration directory, comes after the statement that deletes the
rows of the user from the users table. -/
theorem deleteUser_steps_in_order (w : World) (c : Delete.Config) (u : Str) (tr : List Event) :
    ∃ ev, (Delete.deleteUser w c u tr).trace = tr ++ ev ∧ Delete.InOrder ev ∧
      (∀ e ∈ ev, ∀ k, Delete.stageOf e = some k → 1 ≤ k ∧ k ≤ 8) ∧
      ∀ pre e post k, ev = pre ++ e :: post → Delete.stageOf e = some k → 5 ≤ k →
        ∃ d ∈ pre, Delete.isUserRowDelete u d = true := by
  obtain ⟨ev, ht, ho, hb, hr⟩ := deleteUser_trace w c u tr
  refine ⟨ev, ht, ho, hb, ?_⟩
  intro pre e post k hev hk hk5
  obtain ⟨d, hd, hd4, hdel⟩ := hr ⟨e, by rw [hev]; simp, k, hk, hk5⟩
  refine ⟨d, ?_, hdel⟩
  rw [hev] at hd ho
  rcases List.mem_append.mp hd with h | h
  · exact h
  · exfalso
    unfold Delete.InOrder at ho
    rw [List.filterMap_append, List.filterMap_cons, hk, List.pairwise_append] at ho
    have hpw := List.pairwise_cons.mp ho.2.1
    rcases List.mem_cons.mp h with h1 | h1
    · rw [h1, hk] at hd4
      cases hd4
      omega
    · have := hpw.1 4 (List.mem_filterMap.mpr ⟨d, h1, hd4⟩)
      omega


/-- C22. When no row of the users table matches the username or its suspended
form (the lookup fails or returns nothing, as after a deprovision whose
`DELETE` succeeded), `deleteUser` ends the process without changing anything.
With the confirmation skipped it runs the lookup, reports that the user was
not found and exits with status 1. Without `-y` it first prints the prompt:
on an answer other than empty, `y` or `yes` it prints that the operation was
canceled and exits with status 0, otherwise it runs the lookup, reports that
the user was not found and exits with status 1. These prints and the lookup
are its only actions: nothing is removed, deleted or rewritten. -/
theorem deleteUser_not_found (w : World) (c : Delete.Config) (u : Str) (tr : List Event)
    (hq : ∀ t, (w.sql t (Delete.userInfoQuery u)).2 = true ∨
      trimSpace (trimSpace (w.sql t (Delete.userInfoQuery u)).1) = []) :
    (c.SkipConfirmation = true →
      Delete.deleteUser w c u tr = ⟨Outcome.exit 1, tr ++
        [ Event.sql (Delete.userInfoQuery u),
          Event.print ("ERROR: User '".toList ++ u ++
            "' not found in the database.\n".toList) ]⟩) ∧
    (c.SkipConfirmation = false →
      ∀ prompt response,
        prompt = Event.print ("This will permanently delete user '".toList ++
          Delete.displayName u ++ "' and all associated data. Confirm? [Y/n]: ".toList) →
        response = w.toLower (trimSpace (w.stdinLine (tr ++ [prompt]))) →
        ((response ≠ [] ∧ response ≠ "y".toList ∧ response ≠ "yes".toList) →
          Delete.deleteUser w c u tr = ⟨Outcome.exit 0, tr ++
            [ prompt,
              Event.print ("Operation canceled for user '".toList ++ Delete.displayName u ++
                "'.\n".toList) ]⟩) ∧
        (¬ (response ≠ [] ∧ response ≠ "y".toList ∧ response ≠ "yes".toList) →
          Delete.deleteUser w c u tr = ⟨Outcome.exit 1, tr ++
            [ prompt,
              Event.sql (Delete.userInfoQuery u),
              Event.print ("ERROR: User '".toList ++ u ++
                "' not found in the database.\n".toList) ]⟩)) := by
  refine ⟨fun hc => ?_, fun hc prompt response hp hr => ?_⟩
  · unfold Delete.deleteUser Delete.confirmAction Delete.getUserInfo
    simp only [hc, if_true, pure_bind_apply, mysqlQuery_bind, hq tr, Delete.say,
      proc_bind_assoc, emit_bind, osExit_bind, List.append_assoc, List.cons_append,
      List.nil_append]
  · subst hp
    subst hr
    simp only [ne_eq] at *
    refine ⟨fun hd => ?_, fun hd => ?_⟩
    · unfold Delete.deleteUser Delete.confirmAction
      simp only [hc, Bool.false_eq_true, if_false, Delete.say, proc_bind_assoc, emit_bind,
        ask_bind, ne_eq]
      rw [if_pos hd]
      simp only [proc_bind_assoc, emit_bind, osExit_bind, List.append_assoc, List.cons_append,
        List.nil_append]
    · unfold Delete.deleteUser Delete.confirmAction Delete.getUserInfo
      simp only [hc, Bool.false_eq_true, if_false, Delete.say, proc_bind_assoc, emit_bind,
        ask_bind, ne_eq]
      rw [if_neg hd]
      simp only [pure_bind_apply, mysqlQuery_bind, hq (tr ++ [_]), if_true, proc_bind_assoc,
        emit_bind, osExit_bind, List.append_assoc, List.cons_append, List.nil_append]

/-- C22 (witness). In the sample environment the users table has no row for
`ghost`: `deleteUser` with `-y` runs the lookup, prints the message and exits
with status 1. -/
theorem deleteUser_not_found_witness :
    Delete.deleteUser Delete.deleteWorld { SkipConfirmation := true } "ghost".toList [] =
      ⟨Outcome.exit 1,
        [ Event.sql (Delete.userInfoQuery "ghost".toList),
          Event.print "ERROR: User 'ghost' not found in the database.\n".toList ]⟩ :=
  (deleteUser_not_found Delete.deleteWorld { SkipConfirmation := true } "ghost".toList []
    (fun _ => Or.inr rfl)).1 rfl

/-- C23 (evaluation at the failing input). With `--all -y` and the user list
`ghost`, `alice`, where the users table has no row for `ghost`, the process
ends with exit status 1 at the lookup of `ghost`: `alice`, who has a row, is
never processed. -/
theorem delete_all_aborts_at_first_missing_user :
    Delete.extractUsernames (trimSpace Delete.twoUsersJSON) = ["ghost".toList, "alice".toList] ∧
      (Delete.deleteWorld.sql [] (Delete.userInfoQuery "alice".toList)).1 = "7\talice\n".toList ∧
      Delete.main Delete.deleteWorld ["--all".toList, "-y".toList] [] =
        ⟨Outcome.exit 1,
          [ Event.cmd "opencli".toList ["user-list".toList, "--json".toList],
            Event.print "- ghost (1/2)\n".toList,
            Event.sql (Delete.userInfoQuery "ghost".toList),
            Event.print "ERROR: User 'ghost' not found in the database.\n".toList ]⟩ := by
  refine ⟨by rfl, by rfl, by rfl⟩


/-! ### Remote nodes -/

/-- C25 (evaluation at the failing input). The IPv4-mapped IPv6 text
`::ffff:1.2.3.4` is accepted by `net.ParseIP` and contains a dot, so
`isValidIPv4` is true for it although it is not a dotted-decimal IPv4 address;
with `--server=::ffff:1.2.3.4` the run passes the address check and goes on to
`ssh`. Plain IPv6 texts and malformed IPv4 texts are rejected. -/
theorem isValidIPv4_accepts_mapped_ipv6 :
    parseIPv4 "::ffff:1.2.3.4".toList = false ∧
      goParseIP "::ffff:1.2.3.4".toList = true ∧
      isValidIPv4 ipWorld "::ffff:1.2.3.4".toList = true ∧
      isValidIPv4 ipWorld "::1.2.3.4".toList = true ∧
      isValidIPv4 ipWorld "10.0.0.2".toList = true ∧
      isValidIPv4 ipWorld "2001:db8::68".toList = false ∧
      isValidIPv4 ipWorld "256.1.1.1".toList = false ∧
      getSlaveIfSet ipWorld { Server := "::ffff:1.2.3.4".toList } [] =
        ⟨Outcome.exit 1, [Event.cmd "ssh".toList ["root@::ffff:1.2.3.4".toList, "hostname".toList]]⟩ := by
  refine ⟨by rfl, by rfl, by rfl, by rfl, by rfl, by rfl, by rfl, by rfl⟩

theorem readConfigValueINI_ok (w : World) (file key : Str) (tr : List Event) :
    ∃ v, readConfigValueINI w file key tr = ⟨Outcome.ok v, tr⟩ := by
  unfold readConfigValueINI
  simp only [ask_bind]
  cases w.readLines tr file with
  | none => exact ⟨_, rfl⟩
  | some lines =>
    simp only
    cases List.filterMap (iniMatch w key) lines with
    | nil => exact ⟨_, rfl⟩
    | cons v rest => exact ⟨_, rfl⟩

/-- The default-node step sets `Server` and `Key` and leaves `KeyFlag` as it was. -/
theorem checkIfDefaultSlaveServerIsSet_keyFlag (w : World) (c c1 : Config) (tr tr1 : List Event)
    (h : checkIfDefaultSlaveServerIsSet w c tr = ⟨Outcome.ok c1, tr1⟩) :
    c1.KeyFlag = c.KeyFlag := by
  unfold checkIfDefaultSlaveServerIsSet at h
  rw [bind_apply] at h
  obtain ⟨v, hv⟩ := readConfigValueINI_ok w adminConfigFile "default_node".toList tr
  rw [hv] at h
  simp only at h
  split at h
  · cases h; rfl
  · rw [bind_apply] at h
    obtain ⟨v2, hv2⟩ := readConfigValueINI_ok w adminConfigFile "default_ssh_key_path".toList tr
    rw [hv2] at h
    simp only at h
    split at h <;> (cases h; rfl)

/-- C26 (evaluation at the failing input). With the default node 10.0.0.2
and the default key path `/root/.ssh/id_rsa` in the administration settings
and no `--server` and `--key` argument, the run targets the node with `Key`
set and `KeyFlag` empty, and none of its 19 `ssh` and `scp` invocations
carries `-i /root/.ssh/id_rsa` and `StrictHostKeyChecking=no`. -/
theorem default_node_invocations_carry_no_key :
    (match (preflight defaultNodeWorld sampleArgs []).out with
      | Outcome.ok c => [c.NodeIPAddress, c.Key, c.KeyFlag]
      | _ => []) = ["10.0.0.2".toList, "/root/.ssh/id_rsa".toList, []] ∧
      (main defaultNodeWorld sampleArgs []).out = Outcome.exit 0 ∧
      ((main defaultNodeWorld sampleArgs []).trace.filter isRemoteInvocation).length = 19 ∧
      ((main defaultNodeWorld sampleArgs []).trace.filter isRemoteInvocation).head? =
        some (Event.cmd "ssh".toList ["root@10.0.0.2".toList, "hostname".toList]) ∧
      ((main defaultNodeWorld sampleArgs []).trace.filter isRemoteInvocation).any
        (carriesKey "/root/.ssh/id_rsa".toList) = false := by
  refine ⟨by rfl, by rfl, by rfl, by rfl, by rfl⟩


/-! ### Provisioning followed by deprovisioning -/

/-- The `server` column of a tenant holds the username, which has letters and
digits only: `getUserInfo` derives no node address from it, so
`deleteAllUserFiles` runs no command on a node. -/
theorem nodeOfContext_of_alnum (u : Str) (h : ∀ ch ∈ u, isAsciiAlnum ch = true) :
    Delete.nodeOfContext u = [] := by
  unfold Delete.nodeOfContext
  split
  · rename_i hs
    exfalso
    unfold startsWith at hs
    obtain ⟨t, ht⟩ := List.isPrefixOf_iff_prefix.mp hs
    have hm : ':' ∈ u := by rw [← ht]; exact List.mem_append_left _ (by decide)
    have := h ':' hm
    revert this
    decide
  · rfl

/-- C24 (evaluation at the failing input). Provisioning `alice` on the node
10.0.0.2 creates an OS account on the master and one on the node, and stores
`alice` in the `server` column. Deprovisioning `alice` then reads `7 alice`,
derives no node address, and removes the account, the home and core
directories and the docker context on the master only: it runs no `ssh`
command, so the account and the home directory on the node remain. -/
theorem remote_account_survives_round_trip :
    (main defaultNodeWorld remoteArgs []).out = Outcome.exit 0 ∧
      ((main defaultNodeWorld remoteArgs []).trace.filter isAccountEvent) =
        [ Event.cmd "useradd".toList
            ["-m".toList, "-d".toList, "/home/alice".toList, "alice".toList],
          Event.cmd "ssh".toList
            ["-i".toList, "/root/.ssh/id_rsa".toList, "-o".toList,
              "StrictHostKeyChecking=no".toList, "-o".toList, "UserKnownHostsFile=/dev/null".toList,
              "-o".toList, "BatchMode=yes".toList, "root@10.0.0.2".toList,
              "useradd -m -s /bin/bash -d /home/alice -u 1001 alice".toList],
          Event.cmd "setquota".toList ["-u".toList, "alice".toList, "10240000".toList,
            "10240000".toList, "100000".toList, "100000".toList, "/".toList],
          Event.sql ("INSERT INTO users (username, password, email, plan_id, server) VALUES " ++
            "('alice', 'ok', 'alice@example.com', '1', 'alice');").toList ] ∧
      (Delete.deleteWorld.sql [] (Delete.userInfoQuery "alice".toList)).1 = "7\talice\n".toList ∧
      Delete.nodeOfContext "alice".toList = [] ∧
      (Delete.deleteUser Delete.deleteWorld { SkipConfirmation := true } "alice".toList []).out =
        Outcome.ok (Delete.Config.mk "alice".toList "alice".toList true false "7".toList
          "alice".toList "--context alice".toList []) ∧
      ((Delete.deleteUser Delete.deleteWorld { SkipConfirmation := true } "alice".toList
        []).trace.filter (fun e => Delete.stageOf e == some 5 || Delete.stageOf e == some 6)) =
        [ Event.cmd "pkill".toList ["-u".toList, "alice".toList, "-9".toList],
          Event.cmd "deluser".toList ["--remove-home".toList, "alice".toList],
          Event.removeAll "/home/alice".toList,
          Event.removeAll "/etc/openpanel/openpanel/core/users/alice".toList,
          Event.cmd "docker".toList ["context".toList, "rm".toList, "alice".toList] ] ∧
      (Delete.deleteUser Delete.deleteWorld { SkipConfirmation := true } "alice".toList
        []).trace.any isRemoteInvocation = false := by
  refine ⟨by rfl, by rfl, by rfl, by rfl, by rfl, by rfl, by rfl⟩


/-! ### The weak-password check -/

/-- With any value of `weakpass` other than `no`, including a missing one,
`validatePasswordInLists` returns at once: no password is checked. -/
theorem validatePasswordInLists_skips_unless_no (w : World) (password : Str) (tr : List Event)
    (lines : List Str) (hf : w.readLines tr panelConfigFile = some lines)
    (hv : configValueOfLines "weakpass".toList lines ≠ "no".toList) :
    validatePasswordInLists w password tr = ⟨Outcome.ok (), tr⟩ := by
  unfold validatePasswordInLists readConfigValue
  simp only [ask_bind, proc_bind_assoc, hf, pure_bind_apply]
  by_cases he : configValueOfLines "weakpass".toList lines = []
  · simp only [he, if_true]
    rfl
  · simp only [he, if_false, ne_eq, hv, not_false_eq_true, if_true]
    rfl

/-- C27 (evaluation at the failing input). With `weakpass=no` in the panel
configuration the dictionary is downloaded and the password `secret123`, which
it lists, is rejected with exit status 1; with `weakpass=yes` the same
password passes without any check. -/
theorem weakpass_no_runs_the_check :
    validatePasswordInLists (weakpassWorld "no".toList) "secret123".toList [] =
        ⟨Outcome.exit 1,
          [ Event.cmd "wget".toList ["--timeout=5".toList, "--tries=3".toList, "-O".toList,
              "/tmp/weakpass.txt".toList,
              "https://github.com/steveklabnik/password-cracker/blob/master/dictionary.txt".toList] ]⟩ ∧
      validatePasswordInLists (weakpassWorld "yes".toList) "secret123".toList [] =
        ⟨Outcome.ok (), []⟩ ∧
      main (weakpassWorld "no".toList) sampleArgs [] =
        ⟨Outcome.exit 1,
          [ Event.cmd "wget".toList ["--timeout=5".toList, "--tries=3".toList, "-O".toList,
              "/tmp/weakpass.txt".toList,
              "https://github.com/steveklabnik/password-cracker/blob/master/dictionary.txt".toList] ]⟩ := by
  refine ⟨by rfl, by rfl, by rfl⟩


/-! ### The rows a deprovisioning selects -/

/-- C28 (evaluation at the failing input). Deprovisioning `bob` sends a
`DELETE` whose condition on the users table is
`username='bob' OR username LIKE 'SUSPENDED_%bob'`. The row of the suspended
tenant `jimbob`, stored as `SUSPENDED_20240101_jimbob`, satisfies it, and so
does the row `SUSPENDEDxbob`: rows of other tenants are selected and deleted. -/
theorem delete_matches_other_suspended_tenant :
    Delete.displayName "SUSPENDED_20240101_jimbob".toList = "jimbob".toList ∧
      Delete.matchesUser "bob".toList "SUSPENDED_20240101_jimbob".toList = true ∧
      Delete.matchesUser "bob".toList "SUSPENDEDxbob".toList = true ∧
      Delete.matchesUser "bob".toList "jimbob".toList = false ∧
      Delete.matchesUser "bob".toList "SUSPENDED_20240101_bob".toList = true ∧
      Delete.deleteStatements "7".toList "bob".toList [] =
        ("DELETE FROM domains WHERE user_id='7'; DELETE FROM active_sessions WHERE user_id='7'; " ++
          "DELETE FROM users WHERE username='bob' OR username LIKE 'SUSPENDED_%bob';").toList ∧
      Delete.userInfoQuery "bob".toList =
        ("\n\t\tSELECT id, server FROM users\n\t\tWHERE username='bob'\n\t\tUNION ALL\n" ++
          "\t\tSELECT id, server FROM users\n\t\tWHERE username LIKE 'SUSPENDED_%bob'\n" ++
          "\t\tLIMIT 1;").toList := by
  refine ⟨by rfl, by rfl, by rfl, by rfl, by rfl, by rfl, by rfl⟩


/-! ### The usernames of `--all` -/

theorem activeUsersOf_eq_extractUsernames (out : Str) :
    Quota.activeUsersOf out = Delete.extractUsernames out := by
  unfold Quota.activeUsersOf Delete.extractUsernames
  congr 1
  funext line
  unfold Delete.usernameOfLine
  split
  · rfl
  · split
    · by_cases h1 : (splitOnChar '"' line).length ≥ 4 <;>
        by_cases h2 : (splitOnChar '"' line).getD 3 [] = [] <;> simp [h1, h2]
    · rfl

/-- C29 (evaluation at the failing input). For one tenant `alice` whose email
is `username@example.com`, the line of the email contains the text
`username`, and both extractions return the email as a second username. -/
theorem email_extracted_as_username :
    Delete.usernameOfLine "            \"email\": \"username@example.com\",".toList =
        some "username@example.com".toList ∧
      Delete.extractUsernames (trimSpace Delete.emailUsernameJSON) =
        ["alice".toList, "username@example.com".toList] ∧
      Quota.activeUsersOf Delete.emailUsernameJSON =
        ["alice".toList, "username@example.com".toList] ∧
      Delete.extractUsernames (trimSpace Delete.twoUsersJSON) =
        ["ghost".toList, "alice".toList] := by
  refine ⟨by rfl, by rfl, by rfl, by rfl⟩

/-- Reading a file that was just removed finds nothing. -/
theorem Ip.read_remove (fs : Ip.Files) (path : Str) : (fs.remove path).read path = none := by
  unfold Ip.Files.read Ip.Files.remove
  rw [Option.map_eq_none', List.find?_eq_none]
  intro p hp
  have := (List.mem_filter.mp hp).2
  simpa using this

/-- Sequencing in `Ip.Run` unfolded. -/
theorem Ip.run_bind_apply {α β : Type} (x : Ip.Run α) (f : α → Ip.Run β) (s : Ip.St) :
    (x >>= f) s = Ip.Run.bind x f s := rfl

/-- Returning a value in `Ip.Run` unfolded. -/
theorem Ip.run_pure_apply {α : Type} (a : α) (s : Ip.St) :
    (pure a : Ip.Run α) s = (.ok a, s) := rfl

/-- After `deleteIPConfig`, `getCurrentIP` answers the server address whatever
`ip.json` held, when the removal succeeds. -/
theorem Ip.getCurrentIP_after_deleteIPConfig (env : Ip.Env) (c : Ip.Config) (s : Ip.St)
    (hrm : env.removeFails (Ip.ipFileOf c.Username) = false) :
    ((Ip.deleteIPConfig env c >>= fun _ => Ip.getCurrentIP env c) s).1 = .ok c.ServerIP := by
  cases hex : (s.files.read (Ip.ipFileOf c.Username)) with
  | none =>
    simp only [Ip.deleteIPConfig, Ip.getCurrentIP, Ip.run_bind_apply, Ip.Run.bind, Ip.fileExists,
      Ip.readFile, hex, Option.isSome_none, Bool.false_eq_true, if_false, Ip.run_pure_apply]
  | some text =>
    simp only [Ip.deleteIPConfig, Ip.getCurrentIP, Ip.run_bind_apply, Ip.Run.bind, Ip.fileExists,
      Ip.readFile, hex, Option.isSome_some, if_true, Ip.removeFile, hrm, Ip.say, Ip.act,
      Ip.read_remove, Bool.false_eq_true, if_false, Ip.run_pure_apply]

/-- Scanning with equal `old` and `new` drops only the skipped characters. -/
theorem replaceAllScan_same (old : Str) (h : old ≠ []) :
    ∀ (s : Str) (k : Nat), replaceAllScan old old s k = s.drop k := by
  intro s
  induction s with
  | nil => intro k; simp [replaceAllScan]
  | cons c cs ih =>
    intro k
    cases k with
    | succ k => simp [replaceAllScan, ih]
    | zero =>
      simp only [replaceAllScan, List.drop_zero]
      split
      · rename_i hp
        rw [ih]
        obtain ⟨t, ht⟩ := List.isPrefixOf_iff_prefix.mp hp
        cases old with
        | nil => exact absurd rfl h
        | cons o os =>
          simp only [List.cons_append, List.cons.injEq] at ht
          obtain ⟨rfl, rfl⟩ := ht
          simp
      · rw [ih]; simp

/-- Replacing a text by itself changes nothing. -/
theorem replaceAll_same (s x : Str) : replaceAll s x x = s := by
  unfold replaceAll
  split
  · rename_i h
    subst h
    induction s with
    | nil => rfl
    | cons c cs ih => simpa [List.flatMap] using ih
  · rename_i h
    rw [replaceAllScan_same x h]; rfl

/-- Claim C30 fails on the delete path: on a server with address 198.51.100.1
(S), user `alice` holds the dedicated address 198.51.100.9 (D) in `ip.json`
and her zone file of `example.com` names D twice. `user-ip alice delete` ends
normally, `ip.json` is gone and the Caddy file is bound to S, but the zone file
still names D: `deleteIPConfig` removes `ip.json` before `editDomainFiles`
reads the current address, so the replacement in the zone file is of S by S.
Replacing D by S would have given the zone file of S, which differs. On the
sibling path, assigning D to a user on the shared address, the zone file is
rewritten from S to D. -/
theorem dedicated_ip_delete_keeps_zone_file :
    Ip.outcomeOf Ip.sampleEnv ["alice".toList, "delete".toList]
        (Ip.dedicatedFiles "198.51.100.9".toList) = .ok () ∧
    (Ip.filesAfter Ip.sampleEnv ["alice".toList, "delete".toList]
        (Ip.dedicatedFiles "198.51.100.9".toList)).read "/etc/bind/zones/example.com.zone".toList
      = some (Ip.zoneText "198.51.100.9".toList) ∧
    (Ip.filesAfter Ip.sampleEnv ["alice".toList, "delete".toList]
        (Ip.dedicatedFiles "198.51.100.9".toList)).read (Ip.ipFileOf "alice".toList) = none ∧
    (Ip.filesAfter Ip.sampleEnv ["alice".toList, "delete".toList]
        (Ip.dedicatedFiles "198.51.100.9".toList)).read
        "/etc/openpanel/caddy/domains/example.com.conf".toList
      = some (Ip.caddyText "198.51.100.1".toList) ∧
    replaceAll (Ip.zoneText "198.51.100.9".toList) "198.51.100.9".toList "198.51.100.1".toList
      = Ip.zoneText "198.51.100.1".toList ∧
    Ip.zoneText "198.51.100.9".toList ≠ Ip.zoneText "198.51.100.1".toList ∧
    (Ip.filesAfter Ip.sampleEnv ["alice".toList, "198.51.100.9".toList, "-y".toList]
        (Ip.dedicatedFiles "198.51.100.1".toList).tail).read
        "/etc/bind/zones/example.com.zone".toList
      = some (Ip.zoneText "198.51.100.9".toList) := by
  refine ⟨rfl, rfl, rfl, rfl, rfl, by decide, rfl⟩


/-- In the sample environment the run of `deleteUser` for `alice` has actions
of each of the eight steps, in this order. -/
theorem deleteUser_sample_stages :
    (Delete.deleteUser Delete.deleteWorld { SkipConfirmation := true } "alice".toList
      []).trace.filterMap Delete.stageOf =
      [1, 2, 2, 2, 3, 3, 4, 4, 5, 5, 5, 5, 6, 7, 7, 8, 8, 8, 8] := by
  rfl


/-! ### Port allocation after a tenant written by `runDocker` -/

/-- C9 (evaluation at the failing input). The most recently created tenant
`alice` has the `.env` file that `runDocker` wrote for the block 32769, ...,
32775. Read entry by entry, the file records the host ports 32773, 32774,
32769, 32771, 32772 and 32770, so the highest port it records is P = 32774
(32775 is in the entry that is commented out). The pattern of
`findAvailablePorts` matches none of these quoted entries, and the block
returned for the next tenant is 32769, ..., 32775: it does not start above P,
it contains P, and it is not P+1, ..., P+7. For entries of the unquoted form
the two readings of the file agree. -/
theorem quoted_env_file_block_not_above_recorded :
    (splitLines aliceEnvFile).filter (fun line => containsSubstr line "_PORT=") =
        [ "HTTP_PORT=\"127.0.0.1:32773:80\"".toList, "HTTPS_PORT=\"127.0.0.1:32774:443\"".toList,
          "PGADMIN_PORT=\"32769:80\"".toList, "POSTGRES_PORT=\"127.0.0.1:32771:5432\"".toList,
          "PMA_PORT=\"32772:80\"".toList, "MYSQL_PORT=\"127.0.0.1:32770:3306\"".toList,
          "#PROXY_HTTP_PORT=\"127.0.0.1:32775:80\"".toList ] ∧
      recordedHostPorts aliceEnvFile = [32773, 32774, 32769, 32771, 32772, 32770] ∧
      highestHostPort aliceEnvFile = 32774 ∧
      portMatches aliceEnvFile = [] ∧
      findAvailablePorts "alice".toList (fun _ => true) (fun _ => aliceEnvFile) =
        [32769, 32770, 32771, 32772, 32773, 32774, 32775] ∧
      (32774 : Int) ∈ findAvailablePorts "alice".toList (fun _ => true) (fun _ => aliceEnvFile) ∧
      (findAvailablePorts "alice".toList (fun _ => true) (fun _ => aliceEnvFile)).head? =
        some 32769 ∧
      findAvailablePorts "alice".toList (fun _ => true) (fun _ => aliceEnvFile) ≠
        [32775, 32776, 32777, 32778, 32779, 32780, 32781] ∧
      recordedHostPorts "MYSQL_PORT=32770\nHTTP_PORT=32775\n".toList =
        recordedPorts "MYSQL_PORT=32770\nHTTP_PORT=32775\n".toList ∧
      highestHostPort "MYSQL_PORT=32770\nHTTP_PORT=32775\n".toList = 32775 := by
  refine ⟨by rfl, by rfl, by rfl, by rfl, by rfl, by decide, by rfl, by decide, by rfl, by rfl⟩

end OpenCli
